import Mathlib

/-!
# AIInterview.jsx: answer submission and question progression

A shallow embedding of `src/apps/frontend/src/pages/AIInterview.jsx`.

Modelling conventions.

* JavaScript values that travel in scoring responses are `JSVal`: `undefined`, `null`,
  booleans, numbers, strings and plain objects (association lists, first binding of a key wins).
* A JavaScript number is an IEEE-754 binary64 value.  Finite values are rationals; `NaN` is
  `none` in `JSNum`.  A `JSVal.num q` stands for the number whose exact value is `q`, so `q` is
  meant to be a value of the format (`IsDouble q`); the number a decimal literal such as
  `0.82` denotes is `numberLiteral (82 / 100)`.  The operators `*`, `+` and `/` of the score
  extraction round their exact result with `toDouble` (to nearest, ties to even, 53 significant
  bits, gradual underflow).  Overflow to the infinities and the sign of zero are outside the
  model: the theorems that compute with numbers bound the magnitudes they are stated for.
  The local report of `handleViewResults` averages the scores of the records, which are
  integers; its sum and quotient are modelled exactly.
* `ToNumber` is modelled for numbers, booleans and `null`; every other value is `NaN`.  For
  plain objects and `undefined` that is what JavaScript does.  Strings, which JavaScript parses
  as numeric literals and concatenates under `+`, and arrays, which `JSVal` does not have, are
  outside the model: every theorem that computes a score is stated for payloads whose score
  fields are numbers or absent.
* A handler reads the component state of the render that created it and queues state updates;
  the model runs a handler as one atomic step from that state (`console.*` calls are dropped,
  `alert` and the collaborator call are recorded as effects).
-/

namespace AIInterview

/-! ## JavaScript values -/

/-- A JavaScript value as it can occur in a parsed response. -/
inductive JSVal where
  | undefined : JSVal
  | null : JSVal
  | bool (b : Bool) : JSVal
  | num (q : ℚ) : JSVal
  | str (s : String) : JSVal
  | obj (fields : List (String × JSVal)) : JSVal

/-- A JavaScript number: `none` is `NaN`. -/
abbrev JSNum := Option ℚ

namespace JSVal

/-- The test `v === undefined || v === null`. -/
def isNullish : JSVal → Bool
  | undefined => true
  | null => true
  | _ => false

/-- JavaScript truthiness (`ToBoolean`). -/
def truthy : JSVal → Bool
  | undefined => false
  | null => false
  | bool b => b
  | num q => decide (q ≠ 0)
  | str s => decide (s ≠ "")
  | obj _ => true

/-- Property read `v.key` for a base `v` that is not nullish: own properties of an object,
`undefined` on a primitive (none of the keys read by the component is a built-in property of a
boolean, number or string).  On a nullish base JavaScript throws; the callers below only read
under a guard, or handle the nullish base explicitly. -/
def getProp (v : JSVal) (key : String) : JSVal :=
  match v with
  | obj fields => (fields.lookup key).getD undefined
  | _ => undefined

/-- Optional chaining `v?.key`. -/
def optProp (v : JSVal) (key : String) : JSVal :=
  if v.isNullish then undefined else v.getProp key

/-- The operator `a || b`. -/
def or (a b : JSVal) : JSVal :=
  if a.truthy then a else b

/-- The abstract operation `ToNumber`, see the conventions at the top of the file. -/
def toNumber : JSVal → JSNum
  | num q => some q
  | bool b => some (if b then 1 else 0)
  | null => some 0
  | _ => none

end JSVal

/-! ## `Math.round`, `Math.max` -/

/-- Rounding to the nearest integer, ties towards `+∞`: the value of `Math.round` on a finite
number. -/
def roundHalfUp (q : ℚ) : ℤ :=
  ⌊q + 1 / 2⌋

/-- The function `Math.round`. -/
def mathRound (x : JSNum) : JSNum :=
  x.map fun q => (roundHalfUp q : ℚ)

/-- The call `Math.max(0, x)`. -/
def mathMax0 (x : JSNum) : JSNum :=
  x.map fun q => max 0 q

/-! ## Binary64 arithmetic -/

/-- The nearest integer, ties to the even one. -/
def roundHalfEven (x : ℚ) : ℤ :=
  if 2 * (x - ⌊x⌋) < 1 then ⌊x⌋
  else if 1 < 2 * (x - ⌊x⌋) then ⌊x⌋ + 1
  else if ⌊x⌋ % 2 = 0 then ⌊x⌋
  else ⌊x⌋ + 1

/-- The exponent of the unit in the last place of the binary64 format at `q`: 52 below the
binary exponent of `q`, and at least `-1074` (the subnormal range). -/
def quantumExponent (q : ℚ) : ℤ :=
  max (Int.log 2 |q| - 52) (-1074)

/-- The binary64 value of an exact result `q`: the multiple of the unit in the last place
nearest to `q`, ties to the even significand. -/
def toDouble (q : ℚ) : ℚ :=
  (roundHalfEven (q / 2 ^ quantumExponent q) : ℚ) * 2 ^ quantumExponent q

/-- The number a numeric literal with exact value `q` denotes. -/
def numberLiteral (q : ℚ) : JSVal :=
  JSVal.num (toDouble q)

/-- The operator `x * y` on numbers. -/
def numMul (a b : JSNum) : JSNum :=
  match a, b with
  | some x, some y => some (toDouble (x * y))
  | _, _ => none

/-- The operator `x / y` on numbers.  `0 / 0` is `NaN`; a quotient `x / 0` with `x` not zero
is an infinity, which is outside the model, and the component never forms one (line 844 tests
the length it divides by). -/
def numDiv (a b : JSNum) : JSNum :=
  match a, b with
  | some x, some y => if y = 0 then none else some (toDouble (x / y))
  | _, _ => none

/-- The operator `x + y` on numbers. -/
def numAdd (a b : JSNum) : JSNum :=
  match a, b with
  | some x, some y => some (toDouble (x + y))
  | _, _ => none

/-! ## Score extraction (`submitAnswer`, source lines 780-860) -/

/-- Lines 785-795: unwrap the backend envelope. -/
def extractData (backendResponse : JSVal) : JSVal :=
  if backendResponse.truthy && (backendResponse.getProp "data").truthy then
    backendResponse.getProp "data"
  else if backendResponse.truthy &&
      ((backendResponse.getProp "answer_feedback").or (backendResponse.getProp "score")).truthy then
    backendResponse
  else
    backendResponse

/-- Line 780 and lines 785-795: the object `data` computed from the raw `response`. -/
def payloadOf (response : JSVal) : JSVal :=
  extractData ((response.optProp "data").or response)

/-- The conversion `s <= 1.0 ? s * 100 : s` (lines 821-824 and 845), read as a number. -/
def toPercent (v : JSVal) : JSNum :=
  match v.toNumber with
  | some q => if q ≤ 1 then numMul (some q) (some 100) else some q
  | none => none

/-- The names read from the breakdown, in the order of lines 836-840. -/
def componentNames : List String :=
  ["technical_depth", "communication_clarity", "problem_solving", "confidence", "relevance"]

/-- Lines 835-841: the component values that are neither `undefined` nor `null`. -/
def breakdownScores (breakdown : JSVal) : List JSVal :=
  (componentNames.map fun k => breakdown.getProp k).filter fun s => !s.isNullish

/-- Lines 845-846: convert, sum from 0 and divide by the number of scores. -/
def averageScore (scores : List JSVal) : JSNum :=
  numDiv ((scores.map toPercent).foldl numAdd (some 0)) (some (scores.length : ℚ))

/-- Lines 802-858: the value of `extractedScore` for a `data` that is not nullish. -/
def extractScore (data : JSVal) : JSNum :=
  if data.truthy && (data.getProp "answer_feedback").truthy &&
      ((data.getProp "answer_feedback").getProp "score_breakdown").truthy &&
      !(((data.getProp "answer_feedback").getProp "score_breakdown").getProp
        "overall_score").isNullish then
    toPercent (((data.getProp "answer_feedback").getProp "score_breakdown").getProp "overall_score")
  else if data.truthy && !(data.getProp "score").isNullish then
    (data.getProp "score").toNumber
  else if data.truthy && (data.getProp "answer_feedback").truthy &&
      ((data.getProp "answer_feedback").getProp "score_breakdown").truthy then
    let scores := breakdownScores ((data.getProp "answer_feedback").getProp "score_breakdown")
    if scores.length > 0 then averageScore scores else some 0
  else
    some 0

/-- Line 866: the `score` stored in the record. -/
def recordScore (data : JSVal) : JSNum :=
  mathMax0 (mathRound (extractScore data))

/-! ## Component state -/

/-- An entry of `mockQuestions`. -/
structure Question where
  id : String
  question : String
  category : String
  timeLimit : Nat
  keywords : List String

/-- Lines 54-83: the fixed question sequence. -/
def mockQuestions : List Question :=
  [ { id := "1"
      question := "Tell me about yourself and your experience with software development."
      category := "General"
      timeLimit := 300
      keywords := ["experience", "software", "development", "background"] },
    { id := "2"
      question := "How do you approach debugging a complex issue in production?"
      category := "Technical"
      timeLimit := 240
      keywords := ["debugging", "production", "troubleshooting", "analysis"] },
    { id := "3"
      question := "Describe a time when you had to work with a difficult team member."
      category := "Behavioral"
      timeLimit := 180
      keywords := ["teamwork", "conflict", "communication", "collaboration"] },
    { id := "4"
      question := "How would you design a scalable microservices architecture?"
      category := "System Design"
      timeLimit := 300
      keywords := ["microservices", "scalability", "architecture", "design"] } ]

/-- An element of the `answers` list (lines 863-868). -/
structure AnswerRecord where
  question : String
  answer : String
  score : JSNum
  feedback : JSVal

/-- The object literal of lines 938-949 and 955-966. -/
structure LocalReport where
  session_id : JSVal
  total_questions : Nat
  answered_questions : Nat
  answers : List AnswerRecord
  overall_score : JSNum
  emotion_analysis : JSVal
  sentiment_analysis : JSVal
  completed_at : String

/-- The content of the `interviewReport` cell: `null`, a payload received from the report
collaborator, or a report computed by the component. -/
inductive ReportCell where
  | empty
  | remote (payload : JSVal)
  | computed (report : LocalReport)

/-- The values of the three status fields (lines 38-40). -/
inductive Status where
  | idle
  | active
  | error
  | unsupported
  deriving DecidableEq, Repr

/-- The `readyState` of a `WebSocket`. -/
inductive ReadyState where
  | CONNECTING
  | OPEN
  | CLOSING
  | CLOSED
  deriving DecidableEq, Repr

/-- The `state` of a `MediaRecorder`. -/
inductive RecorderState where
  | inactive
  | recording
  | paused
  deriving DecidableEq, Repr

/-- The kind of a media track. -/
inductive TrackKind where
  | audio
  | video
  deriving DecidableEq, Repr

/-- A track of a media stream: its kind, and whether its `readyState` is `live`. -/
structure Track where
  kind : TrackKind
  live : Bool
  deriving DecidableEq, Repr

/-- The `useState` cells of the component (lines 23-40), with the timer handle of line 46:
`intervalRef` says that `intervalRef.current` holds a handle, `clockRunning` that the interval
has not been cleared.  The other refs of lines 42-51 follow: for a ref to an object, what the
handlers read of it (`none` or `false` when `current` is `null`).  `audioChunksRef` holds the
sizes of the chunks, and `selectedMimeType` is the variable of line 460 that the `onstop`
handler of the recorder in `mediaRecorderRef` keeps. -/
structure State where
  isRecording : Bool := false
  isCameraOn : Bool := false
  currentQuestion : Option Question := none
  interviewSession : JSVal := JSVal.null
  emotionData : JSVal := JSVal.null
  sentimentData : JSVal := JSVal.null
  timeRemaining : Int := 0
  questionIndex : Nat := 0
  answers : List AnswerRecord := []
  isLoading : Bool := false
  answerText : String := ""
  sessionId : JSVal := JSVal.null
  showResults : Bool := false
  interviewReport : ReportCell := ReportCell.empty
  isLoadingReport : Bool := false
  transcriptionStatus : Status := Status.idle
  emotionStatus : Status := Status.idle
  sentimentStatus : Status := Status.idle
  intervalRef : Bool := false
  clockRunning : Bool := false
  videoRef : Bool := false
  canvasRef : Bool := false
  streamRef : Option (List Track) := none
  websocketRef : Option ReadyState := none
  mediaRecorderRef : Option RecorderState := none
  recognitionRef : Bool := false
  transcriptRef : String := ""
  errorShownRef : Bool := false
  audioChunksRef : List Nat := []
  selectedMimeType : Option String := none

/-- The state of the first render: every `useState` initial value. -/
def initialState : State := {}

/-- The text of an `alert`. -/
inductive AlertMessage where
  /-- Line 752: Please provide an answer before submitting. -/
  | provideAnswer
  /-- Line 876: Failed to submit answer. Please try again. -/
  | failedToSubmit
  /-- Line 880: Error submitting answer, followed by the detail taken from the error (`none`
  when the error is the `TypeError` raised by the engine, whose text the engine chooses). -/
  | errorSubmitting (detail : Option JSVal)
  /-- Line 922: Session ID not available. Cannot generate report. -/
  | sessionIdUnavailable
  /-- Line 331: MediaRecorder is not supported in this browser. -/
  | mediaRecorderUnsupported
  /-- Line 337: Microphone access is not available in this browser. -/
  | microphoneUnavailable
  /-- Lines 394-407: Failed to access microphone, followed by the advice chosen from the name
  of the error. -/
  | microphoneFailed (errorName : String)
  /-- Line 415: No audio tracks available. -/
  | noAudioTracks
  /-- Line 445: Failed to activate microphone. -/
  | activateFailed
  /-- Line 485: Failed to initialize audio recording. -/
  | initializeFailed
  /-- Lines 697-706: Failed to start recording, followed by the advice chosen from the
  message of the error. -/
  | startFailed
  /-- Lines 711-717: the alert of the outer `catch` of `startRecording`. -/
  | recordingFailed
  /-- Lines 218-227: Failed to access camera/microphone, followed by the advice chosen from
  the name of the error. -/
  | cameraFailed (errorName : String)
  /-- Line 502: An error occurred during recording. -/
  | recorderError

/-- A message sent on the telemetry socket (lines 312-315 and 544-547). -/
inductive OutboundMessage where
  /-- The object `{type: "emotion_analysis", image_data}`. -/
  | emotionAnalysis (imageData : String)
  /-- The object `{type: "transcript_line", text}`. -/
  | transcriptLine (text : String)
  deriving DecidableEq, Repr

/-- What a handler does besides updating the state. -/
inductive Effect where
  | alert (message : AlertMessage)
  | submitCandidateAnswer (sessionId : JSVal) (answerText : String) (questionId : String)
  | clearInterval
  /-- The call `websocketRef.current.send(JSON.stringify(message))`. -/
  | send (message : OutboundMessage)
  /-- The call `setTimeout(captureFrame, 1000)` of line 320. -/
  | scheduleCaptureFrame
  /-- The call `recognitionRef.current.stop()`. -/
  | recognitionStop
  /-- The call `recognitionRef.current.start()`. -/
  | recognitionStart
  /-- The call `setTimeout(..., 500)` of lines 603-617. -/
  | scheduleRestart
  /-- The call `track.stop()` on a track of the given kind. -/
  | trackStop (kind : TrackKind)
  /-- The call `navigator.mediaDevices.getUserMedia({audio: ..., video: false})`. -/
  | requestMicrophone
  /-- The call `mediaRecorder.start(1000)`. -/
  | recorderStart
  /-- The call `mediaRecorderRef.current.stop()`. -/
  | recorderStop
  /-- The call `websocketRef.current.close()`. -/
  | websocketClose
  /-- The assignment `videoRef.current.srcObject = null`. -/
  | clearVideoSource
  /-- The call `navigate('/candidate-portal/interviews')`. -/
  | navigate
  /-- The call `new WebSocket(wsUrl)` of line 248. -/
  | websocketOpen
  /-- The assignment `videoRef.current.srcObject = stream` of line 200. -/
  | setVideoSource

/-- How the awaited call `aiAPI.submitCandidateAnswer(...)` ends. -/
inductive ApiResult where
  | throws (error : JSVal)
  | returns (response : JSVal)

/-- The scoring collaborator, an external service: any function of the three arguments. -/
abbrev SubmitApi := JSVal → String → String → ApiResult

/-! ## `String.prototype.trim` -/

/-- The code points removed by `trim`: ECMAScript `WhiteSpace` and `LineTerminator`. -/
def isJSWhiteSpace (c : Char) : Bool :=
  let n := c.toNat
  n == 0x09 || n == 0x0A || n == 0x0B || n == 0x0C || n == 0x0D || n == 0x20 || n == 0xA0 ||
  n == 0x1680 || (0x2000 ≤ n && n ≤ 0x200A) || n == 0x2028 || n == 0x2029 || n == 0x202F ||
  n == 0x205F || n == 0x3000 || n == 0xFEFF

/-- The method `trim`. -/
def jsTrim (s : String) : String :=
  ⟨((s.data.dropWhile isJSWhiteSpace).reverse.dropWhile isJSWhiteSpace).reverse⟩

/-! ## State setters -/

/-- The setter `setQuestionIndex(v)`. -/
def setQuestionIndex (v : Nat) (s : State) : State := { s with questionIndex := v }

/-- The setter `setCurrentQuestion(v)`. -/
def setCurrentQuestion (v : Option Question) (s : State) : State := { s with currentQuestion := v }

/-- The setter `setTimeRemaining(v)`. -/
def setTimeRemaining (v : Int) (s : State) : State := { s with timeRemaining := v }

/-- The setter `setIsLoading(v)`. -/
def setIsLoading (v : Bool) (s : State) : State := { s with isLoading := v }

/-- The setter `setSessionId(v)`. -/
def setSessionId (v : JSVal) (s : State) : State := { s with sessionId := v }

/-- The setter `setAnswerText(v)`. -/
def setAnswerText (v : String) (s : State) : State := { s with answerText := v }

/-- The functional update `setAnswers(prev => f(prev))`. -/
def setAnswers (f : List AnswerRecord → List AnswerRecord) (s : State) : State :=
  { s with answers := f s.answers }

/-- The call `clearInterval(intervalRef.current)`: the handle stays in the ref, the clock
stops. -/
def clearIntervalRef (s : State) : State := { s with clockRunning := false }

/-! ## `handleNextQuestion` and `submitAnswer` -/

/-- Lines 734-748.  The handler reads `questionIndex` from the render that created it, so
the index it reads is an argument of its own. -/
def handleNextQuestion (questionIndex : Nat) (s : State) : State × List Effect :=
  if h : questionIndex < mockQuestions.length - 1 then
    let nextIndex := questionIndex + 1
    have hlt : nextIndex < mockQuestions.length := by omega
    (setTimeRemaining (mockQuestions[nextIndex].timeLimit : Int)
      (setCurrentQuestion (some mockQuestions[nextIndex]) (setQuestionIndex nextIndex s)), [])
  else
    if s.intervalRef then
      (clearIntervalRef (setTimeRemaining 0 (setCurrentQuestion none s)), [Effect.clearInterval])
    else
      (setTimeRemaining 0 (setCurrentQuestion none s), [])

/-- Lines 878-880: the `catch` block shows an alert; reading `error.response` on a nullish
`error` throws again, and then nothing is shown. -/
def catchEffects (error : JSVal) : List Effect :=
  if error.isNullish then []
  else
    [Effect.alert (AlertMessage.errorSubmitting (some
      (((((error.getProp "response").optProp "data").optProp "message").or
        (error.getProp "message")).or (JSVal.str "Please try again"))))]

/-- Line 867: the `feedback` stored in the record. -/
def recordFeedback (data : JSVal) : JSVal :=
  (((data.optProp "answer_feedback").optProp "message").or (data.optProp "feedback")).or
    (JSVal.str "Answer submitted successfully")

/-- Lines 757-762: the session id sent with the answer. -/
def activeSessionId (now : Nat) (s : State) : JSVal :=
  if s.sessionId.truthy then s.sessionId else JSVal.str ("temp_" ++ toString now)

/-- Lines 758-762: `setSessionId` is called only when no session id is set. -/
def ensureSessionId (now : Nat) (s : State) : State :=
  if s.sessionId.truthy then s else setSessionId (activeSessionId now s) s

/-- Lines 750-884, run from the render whose state is `s`; `now` is the value of `Date.now()`.
The reads of `data.answer_feedback` on line 807 throw a `TypeError` when `data` is `null` or
`undefined`, which the `catch` block of line 878 receives; the `finally` block of line 882 runs
on every path that entered the `try`. -/
def submitAnswer (api : SubmitApi) (now : Nat) (s : State) : State × List Effect :=
  if !(JSVal.str (jsTrim s.answerText)).truthy || s.currentQuestion.isNone then
    (s, [Effect.alert AlertMessage.provideAnswer])
  else
    match s.currentQuestion with
    | none => (s, [Effect.alert AlertMessage.provideAnswer])
    | some currentQuestion =>
      let s2 := setIsLoading true (ensureSessionId now s)
      let call :=
        Effect.submitCandidateAnswer (activeSessionId now s) s.answerText currentQuestion.id
      match api (activeSessionId now s) s.answerText currentQuestion.id with
      | ApiResult.throws error =>
        (setIsLoading false s2, call :: catchEffects error)
      | ApiResult.returns response =>
        let data := payloadOf response
        if data.isNullish then
          (setIsLoading false s2, [call, Effect.alert (AlertMessage.errorSubmitting none)])
        else
          if (((response.getProp "success").or (response.getProp "data")).or data).truthy then
            let s3 := setAnswers (fun prev => prev ++
                [{ question := currentQuestion.question
                   answer := s.answerText
                   score := recordScore data
                   feedback := recordFeedback data }]) s2
            let s4 := setAnswerText "" s3
            let next := handleNextQuestion s.questionIndex s4
            (setIsLoading false next.1, call :: next.2)
          else
            (setIsLoading false s2, [call, Effect.alert AlertMessage.failedToSubmit])

/-! ## Vocabulary of the statements -/

/-- The submission made from state `s` passes the guard of line 751 with current question `q`,
and the awaited scoring call returns `response`. -/
def CallReturns (api : SubmitApi) (now : Nat) (s : State) (q : Question) (response : JSVal) :
    Prop :=
  s.currentQuestion = some q ∧ jsTrim s.answerText ≠ "" ∧
    api (activeSessionId now s) s.answerText q.id = ApiResult.returns response

/-- The submission made from state `s` passes the guard of line 751 with current question `q`,
and the awaited scoring call throws `error`. -/
def CallThrows (api : SubmitApi) (now : Nat) (s : State) (q : Question) (error : JSVal) :
    Prop :=
  s.currentQuestion = some q ∧ jsTrim s.answerText ≠ "" ∧
    api (activeSessionId now s) s.answerText q.id = ApiResult.throws error

/-- The value of `data.answer_feedback.score_breakdown`. -/
def nestedBreakdown (data : JSVal) : JSVal :=
  (data.getProp "answer_feedback").getProp "score_breakdown"

/-- The value of `data.answer_feedback.score_breakdown.overall_score`. -/
def nestedOverall (data : JSVal) : JSVal :=
  (nestedBreakdown data).getProp "overall_score"

/-- The value of `data.score`. -/
def flatScore (data : JSVal) : JSVal :=
  data.getProp "score"

/-- A state in which the first question is on screen and an answer has been typed. -/
def answeringState : State :=
  { initialState with
    currentQuestion := mockQuestions.head?
    timeRemaining := 300
    answerText := "I have five years of experience."
    sessionId := JSVal.str "session-1"
    intervalRef := true
    clockRunning := true }

/-- The record built on lines 863-868. -/
def newRecord (s : State) (q : Question) (response : JSVal) : AnswerRecord :=
  { question := q.question
    answer := s.answerText
    score := recordScore (payloadOf response)
    feedback := recordFeedback (payloadOf response) }

/-- The state after lines 863-871: the record is appended and the buffer cleared. -/
def recordedState (now : Nat) (s : State) (q : Question) (r : JSVal) : State :=
  setAnswerText ""
    (setAnswers (fun prev => prev ++ [newRecord s q r])
      (setIsLoading true (ensureSessionId now s)))

/-- The state after the accepted branch (lines 862-874 and 882). -/
def acceptedState (now : Nat) (s : State) (q : Question) (r : JSVal) : State :=
  setIsLoading false (handleNextQuestion s.questionIndex (recordedState now s q r)).1

/-- The state after a path that entered the `try` and appended nothing. -/
def failedState (now : Nat) (s : State) : State :=
  setIsLoading false (setIsLoading true (ensureSessionId now s))

/-- The branch of lines 862-874 is reached and taken: `data` is not nullish (line 807 does not
throw) and `response.success || response.data || data` is truthy. -/
def Accepted (response : JSVal) : Prop :=
  (payloadOf response).isNullish = false ∧
    (((response.getProp "success").or (response.getProp "data")).or
      (payloadOf response)).truthy = true

/-- The five component values of a breakdown, present or not, in the order of the names. -/
def componentValues (breakdown : JSVal) : List JSVal :=
  componentNames.map fun k => breakdown.getProp k

/-- The values the extraction chain can read as a score: the nested overall score, the flat
score and the five components of the nested breakdown. -/
def scoreFields (data : JSVal) : List JSVal :=
  nestedOverall data :: flatScore data :: componentValues (nestedBreakdown data)

/-- A score field that is a number, or is absent (`undefined` or `null`). -/
def isNumberOrAbsent : JSVal → Bool
  | JSVal.num _ => true
  | JSVal.undefined => true
  | JSVal.null => true
  | _ => false

/-- A numeric scoring payload: every score field is a number or absent. -/
def numericScores (data : JSVal) : Bool :=
  (scoreFields data).all isNumberOrAbsent

/-- Every score field that is a number is at most `bound`. -/
def scoresAtMost (bound : ℚ) (data : JSVal) : Bool :=
  (scoreFields data).all fun v =>
    match v with
    | JSVal.num q => decide (q ≤ bound)
    | _ => true

/-- The states of the answers list that the component can reach when every scoring payload
satisfies `ok`: it starts empty, `submitAnswer` is the only handler that calls `setAnswers`,
and every other handler leaves the list as it is. -/
inductive Reachable (ok : JSVal → Bool) : State → Prop where
  | start (s : State) (h : s.answers = []) : Reachable ok s
  | submit (api : SubmitApi) (now : Nat) (s : State) (hs : Reachable ok s)
      (hok : ∀ sid text qid r, api sid text qid = ApiResult.returns r →
        ok (payloadOf r) = true) :
      Reachable ok (submitAnswer api now s).1
  | other (s t : State) (hs : Reachable ok s) (h : t.answers = s.answers) : Reachable ok t

/-- The numbers among a list of values. -/
def presentNumbers (vals : List JSVal) : List ℚ :=
  vals.filterMap fun v =>
    match v with
    | JSVal.num q => some q
    | _ => none

/-- The fraction rule in the words of the specification: a component `c <= 1` is scaled to
`100 * c`, a component `c > 1` is taken as is. -/
def scaledComponent (c : ℚ) : ℚ :=
  if c ≤ 1 then 100 * c else c

/-- The arithmetic mean of a list. -/
def mean (l : List ℚ) : ℚ :=
  l.sum / (l.length : ℚ)

/-- The values of the binary64 format, their magnitude not bounded: a significand of at most
53 bits times a power of two that is at least `2 ^ (-1074)`. -/
def IsBinary64 (d : ℚ) : Prop :=
  ∃ m e : ℤ, |m| ≤ 2 ^ 53 ∧ -1074 ≤ e ∧ d = (m : ℚ) * 2 ^ e

/-- The rational `q` is the exact value of a JavaScript number: rounding leaves it as it
is. -/
def IsDouble (q : ℚ) : Prop :=
  toDouble q = q

/-- The conversion of line 845 on the number `c`: the product `c * 100` is rounded. -/
def percentOf (c : ℚ) : ℚ :=
  if c ≤ 1 then toDouble (c * 100) else c

/-- The `reduce` of line 846 on numbers: the sums are formed from left to right, starting from
`a`, and each one is rounded. -/
def floatSum (l : List ℚ) (a : ℚ) : ℚ :=
  l.foldl (fun acc x => toDouble (acc + x)) a

/-- Lines 845-846 on a list of numbers: the rounded quotient of the rounded sum of the
converted scores by their count. -/
def floatMean (l : List ℚ) : ℚ :=
  toDouble (floatSum (l.map percentOf) 0 / (l.length : ℚ))

/-- The first entry of `mockQuestions`. -/
def firstQuestion : Question :=
  { id := "1"
    question := "Tell me about yourself and your experience with software development."
    category := "General"
    timeLimit := 300
    keywords := ["experience", "software", "development", "background"] }

/-- A scoring collaborator that returns `response` whatever it is asked. -/
def apiReturning (response : JSVal) : SubmitApi :=
  fun _ _ _ => ApiResult.returns response

/-- The response of scenario 3: `{data: {answer_feedback: {score_breakdown: {overall_score: 0.82}}}}`. -/
def scenario3Response : JSVal :=
  JSVal.obj [("data", JSVal.obj [("answer_feedback",
    JSVal.obj [("score_breakdown", JSVal.obj [("overall_score", numberLiteral (82 / 100))])])])]

/-- A scoring collaborator whose call throws `error` whatever it is asked. -/
def apiThrowing (error : JSVal) : SubmitApi :=
  fun _ _ _ => ApiResult.throws error

/-- The response `{score: 0.82}`: a flat score in fraction format. -/
def flatFractionResponse : JSVal :=
  JSVal.obj [("score", numberLiteral (82 / 100))]

/-- The response `{score: 150}`. -/
def flatOver100Response : JSVal :=
  JSVal.obj [("score", JSVal.num 150)]

/-- The response of scenario 4: `{score_breakdown: {technical_depth: 70, confidence: 90}}`. -/
def scenario4Response : JSVal :=
  JSVal.obj [("score_breakdown",
    JSVal.obj [("technical_depth", JSVal.num 70), ("confidence", JSVal.num 90)])]

/-- The response `{answer_feedback: {score_breakdown: {technical_depth: 70, confidence: 90}}}`. -/
def nestedBreakdownResponse : JSVal :=
  JSVal.obj [("answer_feedback", JSVal.obj [("score_breakdown",
    JSVal.obj [("technical_depth", JSVal.num 70), ("confidence", JSVal.num 90)])])]

/-- The response `{answer_feedback: {score_breakdown: {overall_score: null,
technical_depth: 0.7, confidence: 90, relevance: null}}}`. -/
def mixedBreakdownResponse : JSVal :=
  JSVal.obj [("answer_feedback", JSVal.obj [("score_breakdown",
    JSVal.obj [("overall_score", JSVal.null), ("technical_depth", numberLiteral (7 / 10)),
      ("confidence", JSVal.num 90), ("relevance", JSVal.null)])])]

/-- The response `{answer_feedback: {score_breakdown: {overall_score: 0.5}}, score: 98}`. -/
def nestedAndFlatResponse : JSVal :=
  JSVal.obj [("answer_feedback",
      JSVal.obj [("score_breakdown", JSVal.obj [("overall_score", JSVal.num (1 / 2))])]),
    ("score", JSVal.num 98)]

/-- The response `{success: true}`: nothing to extract a score from. -/
def unscoredResponse : JSVal :=
  JSVal.obj [("success", JSVal.bool true)]

/-- The response of an empty body: the empty string. -/
def emptyBodyResponse : JSVal :=
  JSVal.str ""

/-- A state in which the answer buffer holds only blanks, a tab and a line break. -/
def blankAnswerState : State :=
  setAnswerText "  \t\n " answeringState

/-- The error of a failed request: `{message: "Network Error"}`. -/
def networkError : JSVal :=
  JSVal.obj [("message", JSVal.str "Network Error")]

/-! ## The timer and `initializeInterview` -/

/-- The setter `setInterviewSession(v)`. -/
def setInterviewSession (v : JSVal) (s : State) : State := { s with interviewSession := v }

/-- Lines 152-160: the callback given to `setInterval`.  It runs
`setTimeRemaining(prev => ...)`, so `prev` is the current remaining time.  The
`handleNextQuestion` it calls is the one of the render that installed the interval, and
`questionIndex` is the index that render saw.  At `prev <= 1` the updater both calls
`handleNextQuestion`, which queues a `setTimeRemaining` of its own, and returns 0 for the same
cell; which of the two values the cell holds afterwards depends on the order in which React
applies them, and `updaterLast` says that the value returned by the updater is applied
last. -/
def intervalCallback (questionIndex : Nat) (updaterLast : Bool) (s : State) :
    State × List Effect :=
  if s.timeRemaining ≤ 1 then
    let next := handleNextQuestion questionIndex s
    (if updaterLast then setTimeRemaining 0 next.1 else next.1, next.2)
  else
    (setTimeRemaining (s.timeRemaining - 1) s, [])

/-- The effect of lines 85-179 has the dependency list `[]`: it runs once, after the first
render, and the interval callback it installs keeps the `handleNextQuestion` of that render.
In the first render `questionIndex` is the initial value of line 30. -/
def timerQuestionIndex : Nat := initialState.questionIndex

/-- One firing of the interval of line 152; a cleared interval does not fire. -/
def tick (updaterLast : Bool) (s : State) : State × List Effect :=
  if s.clockRunning then intervalCallback timerQuestionIndex updaterLast s else (s, [])

/-- Line 152: `intervalRef.current = setInterval(...)`. -/
def startTimer (s : State) : State := { s with intervalRef := true, clockRunning := true }

/-- Line 90: the job role sent with the start request. -/
def jobRoleOf (interviewData : JSVal) : JSVal :=
  (((interviewData.getProp "jobPosting").optProp "title").or
    ((interviewData.getProp "jobPostingId").optProp "title")).or (JSVal.str "Software Developer")

/-- Lines 107-120: the first truthy one of `response?.data?.session_id`,
`response?.session_id` and `response?.data?.data?.session_id`, or `null`. -/
def sessionIdValue (response : JSVal) : JSVal :=
  if ((response.optProp "data").optProp "session_id").truthy then
    (response.getProp "data").getProp "session_id"
  else if (response.optProp "session_id").truthy then
    response.getProp "session_id"
  else if (((response.optProp "data").optProp "data").optProp "session_id").truthy then
    ((response.getProp "data").getProp "data").getProp "session_id"
  else
    JSVal.null

/-- The placeholder id of lines 129 and 140. -/
def tempSessionId (now : Nat) : JSVal :=
  JSVal.str ("temp_" ++ toString now)

/-- Lines 87-147, from the moment the awaited start call settles with `result`; `now` is the
value of `Date.now()` and `interviewData` the value of line 22. -/
def initializeInterview (result : ApiResult) (now : Nat) (interviewData : JSVal) (s : State) :
    State :=
  match result with
  | ApiResult.returns response =>
    let s1 :=
      if (sessionIdValue response).truthy then
        setInterviewSession ((response.getProp "data").or response)
          (setSessionId (sessionIdValue response) s)
      else
        setInterviewSession
          (JSVal.obj [("session_id", tempSessionId now), ("job_role", jobRoleOf interviewData)])
          (setSessionId (tempSessionId now) s)
    setTimeRemaining ((mockQuestions.get ⟨0, by decide⟩).timeLimit : Int)
      (setCurrentQuestion (some (mockQuestions.get ⟨0, by decide⟩)) s1)
  | ApiResult.throws _ =>
    setTimeRemaining ((mockQuestions.get ⟨0, by decide⟩).timeLimit : Int)
      (setCurrentQuestion (some (mockQuestions.get ⟨0, by decide⟩))
        (setInterviewSession (JSVal.obj [("session_id", tempSessionId now)])
          (setSessionId (tempSessionId now) s)))

/-! ## Events of a session -/

/-- What can happen to the mounted component, as far as the question cursor and the answers
list are concerned. -/
inductive Event where
  /-- The effect of line 85 runs: the start request is sent and the interval installed. -/
  | mount
  /-- The start request settles. -/
  | initialized (result : ApiResult) (now : Nat) (interviewData : JSVal)
  /-- The interval fires. -/
  | tick (updaterLast : Bool)
  /-- The user edits the answer (line 1105). -/
  | typeAnswer (text : String)
  /-- The user presses the submit button and the scoring call settles. -/
  | submit (api : SubmitApi) (now : Nat)

/-- The state after one event. -/
def step (e : Event) (s : State) : State :=
  match e with
  | Event.mount => startTimer s
  | Event.initialized result now interviewData => initializeInterview result now interviewData s
  | Event.tick updaterLast => (tick updaterLast s).1
  | Event.typeAnswer text => setAnswerText text s
  | Event.submit api now => (submitAnswer api now s).1

/-- The state after a sequence of events. -/
def run (events : List Event) (s : State) : State :=
  events.foldl (fun t e => step e t) s

/-- A user-driven advance: `handleNextQuestion` run from the current render. -/
def advance (s : State) : State :=
  (handleNextQuestion s.questionIndex s).1

/-- The reference of C13, in its words: from an index before the last one, the next index,
its question and its time limit; from the last index, no current question, remaining time 0
and a stopped clock. -/
def nextQuestionReference (i : Nat) (s : State) : State :=
  if i + 1 < mockQuestions.length then
    { s with
      questionIndex := i + 1
      currentQuestion := mockQuestions[i + 1]?
      timeRemaining := ((mockQuestions[i + 1]?.map fun q => (q.timeLimit : Int)).getD 0) }
  else
    { s with currentQuestion := none, timeRemaining := 0, clockRunning := false }

/-- The value of `data.answer_feedback.message`. -/
def nestedMessage (data : JSVal) : JSVal :=
  (data.getProp "answer_feedback").getProp "message"

/-- The value of `data.feedback`. -/
def flatFeedback (data : JSVal) : JSVal :=
  data.getProp "feedback"

/-- The generic success string of line 867. -/
def genericFeedback : JSVal :=
  JSVal.str "Answer submitted successfully"

/-- The response `{answer_feedback: {message: ""}, feedback: "Well structured."}`. -/
def flatFeedbackResponse : JSVal :=
  JSVal.obj [("answer_feedback", JSVal.obj [("message", JSVal.str "")]),
    ("feedback", JSVal.str "Well structured.")]

/-- The state of `answeringState` with one second left on the clock. -/
def lastSecondState : State :=
  setTimeRemaining 1 answeringState

/-- The state of `answeringState` on the last question. -/
def lastQuestionState : State :=
  setTimeRemaining 300 (setCurrentQuestion mockQuestions[3]? (setQuestionIndex 3 answeringState))

/-- The start response `{data: {session_id: "session-1"}}`. -/
def startResponse : JSVal :=
  JSVal.obj [("data", JSVal.obj [("session_id", JSVal.str "session-1")])]

/-- A session in which the candidate answers the first two questions, lets the clock of the
third question run out, and answers the question then on screen.  The scoring call always
succeeds; `updaterLast` is the order React takes at the firing that runs out. -/
def timeoutThenAnswer (updaterLast : Bool) : List Event :=
  [Event.mount,
    Event.initialized (ApiResult.returns startResponse) 0 (JSVal.obj []),
    Event.typeAnswer "First answer.",
    Event.submit (apiReturning scenario3Response) 0,
    Event.typeAnswer "Second answer.",
    Event.submit (apiReturning scenario3Response) 0] ++
  List.replicate 180 (Event.tick updaterLast) ++
  [Event.typeAnswer "Another answer.",
    Event.submit (apiReturning scenario3Response) 0]

/-! ## `handleViewResults` -/

/-- The setter `setIsLoadingReport(v)`. -/
def setIsLoadingReport (v : Bool) (s : State) : State := { s with isLoadingReport := v }

/-- The setter `setShowResults(v)`. -/
def setShowResults (v : Bool) (s : State) : State := { s with showResults := v }

/-- The setter `setInterviewReport(v)`. -/
def setInterviewReport (v : ReportCell) (s : State) : State := { s with interviewReport := v }

/-- The expression `a.score || 0` for a score that is a number or `NaN`. -/
def scoreOrZero (score : JSNum) : ℚ :=
  match score with
  | some q => if q = 0 then 0 else q
  | none => 0

/-- Lines 938-949: the report of the branch without a usable payload; `completedAt` is the
value of `new Date().toISOString()`. -/
def localReportElse (sessionId : JSVal) (answers : List AnswerRecord)
    (emotionData sentimentData : JSVal) (completedAt : String) : LocalReport :=
  { session_id := sessionId
    total_questions := mockQuestions.length
    answered_questions := answers.length
    answers := answers
    overall_score :=
      if answers.length > 0 then
        mathRound (some
          (answers.foldl (fun sum a => sum + scoreOrZero a.score) 0 / (answers.length : ℚ)))
      else some 0
    emotion_analysis := emotionData
    sentiment_analysis := sentimentData
    completed_at := completedAt }

/-- Lines 955-966: the report of the `catch` branch. -/
def localReportCatch (sessionId : JSVal) (answers : List AnswerRecord)
    (emotionData sentimentData : JSVal) (completedAt : String) : LocalReport :=
  { session_id := sessionId
    total_questions := mockQuestions.length
    answered_questions := answers.length
    answers := answers
    overall_score :=
      if answers.length > 0 then
        mathRound (some
          (answers.foldl (fun sum a => sum + scoreOrZero a.score) 0 / (answers.length : ℚ)))
      else some 0
    emotion_analysis := emotionData
    sentiment_analysis := sentimentData
    completed_at := completedAt }

/-- Lines 920-971, run from the render whose state is `s`; `result` is how the awaited call
`aiAPI.generateInterviewReport(sessionId)` ends. -/
def handleViewResults (result : ApiResult) (completedAt : String) (s : State) :
    State × List Effect :=
  if !s.sessionId.truthy then
    (s, [Effect.alert AlertMessage.sessionIdUnavailable])
  else
    let s1 := setShowResults true (setIsLoadingReport true s)
    match result with
    | ApiResult.returns response =>
      if response.truthy &&
          ((response.getProp "data").or (response.getProp "success")).truthy then
        (setIsLoadingReport false
          (setInterviewReport (ReportCell.remote ((response.getProp "data").or response)) s1),
          [])
      else
        (setIsLoadingReport false
          (setInterviewReport (ReportCell.computed
            (localReportElse s.sessionId s.answers s.emotionData s.sentimentData completedAt))
            s1), [])
    | ApiResult.throws _ =>
      (setIsLoadingReport false
        (setInterviewReport (ReportCell.computed
          (localReportCatch s.sessionId s.answers s.emotionData s.sentimentData completedAt))
          s1), [])

/-- The report of the specification: the mean of the answers' scores, rounded, or 0 for the
empty list. -/
def expectedReport (sessionId : JSVal) (answers : List AnswerRecord)
    (emotionData sentimentData : JSVal) (completedAt : String) : LocalReport :=
  { session_id := sessionId
    total_questions := mockQuestions.length
    answered_questions := answers.length
    answers := answers
    overall_score :=
      match answers with
      | [] => some 0
      | _ => some ((roundHalfUp (mean (answers.map fun a => scoreOrZero a.score)) : ℤ) : ℚ)
    emotion_analysis := emotionData
    sentiment_analysis := sentimentData
    completed_at := completedAt }

/-- Two answers with scores 82 and 75. -/
def twoAnswers : List AnswerRecord :=
  [ { question := "Q1", answer := "A1", score := some 82, feedback := genericFeedback },
    { question := "Q2", answer := "A2", score := some 75, feedback := genericFeedback } ]

/-- The state at the end of an interview with `twoAnswers`, under a placeholder id. -/
def finishedState : State :=
  setAnswers (fun _ => twoAnswers) (setSessionId (tempSessionId 1700000000000) initialState)

/-! ## The telemetry socket (lines 231-325) -/

/-- The setter `setIsCameraOn(v)`. -/
def setIsCameraOn (v : Bool) (s : State) : State := { s with isCameraOn := v }

/-- The setter `setIsRecording(v)`. -/
def setIsRecording (v : Bool) (s : State) : State := { s with isRecording := v }

/-- The setter `setEmotionData(v)`. -/
def setEmotionData (v : JSVal) (s : State) : State := { s with emotionData := v }

/-- The setter `setSentimentData(v)`. -/
def setSentimentData (v : JSVal) (s : State) : State := { s with sentimentData := v }

/-- The setter `setEmotionStatus(v)`. -/
def setEmotionStatus (v : Status) (s : State) : State := { s with emotionStatus := v }

/-- The setter `setSentimentStatus(v)`. -/
def setSentimentStatus (v : Status) (s : State) : State := { s with sentimentStatus := v }

/-- The setter `setTranscriptionStatus(v)`. -/
def setTranscriptionStatus (v : Status) (s : State) : State :=
  { s with transcriptionStatus := v }

/-- Lines 231-238. -/
def stopCamera (s : State) : State × List Effect :=
  match s.streamRef with
  | some tracks =>
    (setIsRecording false (setIsCameraOn false { s with streamRef := none }),
      tracks.map fun track => Effect.trackStop track.kind)
  | none => (setIsRecording false (setIsCameraOn false s), [])

/-- Lines 250-254: `websocket.onopen`. -/
def websocketOnopen (s : State) : State :=
  setSentimentStatus Status.active (setEmotionStatus Status.active s)

/-- Lines 288-292: `websocket.onerror`. -/
def websocketOnerror (s : State) : State :=
  setSentimentStatus Status.error (setEmotionStatus Status.error s)

/-- Lines 294-298: `websocket.onclose`. -/
def websocketOnclose (s : State) : State :=
  setSentimentStatus Status.idle (setEmotionStatus Status.idle s)

/-- The comparison `v === text` with a string literal. -/
def strictEqualsString (v : JSVal) (text : String) : Bool :=
  match v with
  | JSVal.str t => t == text
  | _ => false

/-- The method `String.prototype.includes`. -/
def includes (text part : String) : Bool :=
  text.data.tails.any fun rest => part.data.isPrefixOf rest

/-- Lines 267-270: the object stored by `setSentimentData`. -/
def sentimentSample (sentiment : JSVal) : JSVal :=
  JSVal.obj
    [("sentiment",
        ((sentiment.getProp "label").or (sentiment.getProp "label")).or (JSVal.str "neutral")),
      ("sentiment_score", (sentiment.getProp "score").or (JSVal.num (1 / 2)))]

/-- Lines 256-286: `websocket.onmessage`.  `parsed` is the value of `JSON.parse(event.data)`,
`none` when the parse throws.  A throw inside the `try` (the parse, `data.type` on `null`,
`data.error.includes` on a value that is not a string) is caught on line 283 and leaves the
state as it is. -/
def websocketOnmessage (parsed : Option JSVal) (s : State) : State :=
  match parsed with
  | none => s
  | some data =>
    if data.isNullish then s
    else if strictEqualsString (data.getProp "type") "emotion_update" then
      setEmotionStatus Status.active (setEmotionData (data.getProp "data") s)
    else if strictEqualsString (data.getProp "type") "transcript_analysis" then
      if (((data.getProp "data").optProp "analysis").optProp "sentiment").truthy then
        setSentimentStatus Status.active
          (setSentimentData
            (sentimentSample (((data.getProp "data").getProp "analysis").getProp "sentiment"))
            s)
      else s
    else if strictEqualsString (data.getProp "type") "error" then
      match data.getProp "error" with
      | JSVal.str error =>
        let s1 := if includes error "emotion" then setEmotionStatus Status.error s else s
        if includes error "sentiment" then setSentimentStatus Status.error s1 else s1
      | _ => s
    else s

/-- Lines 301-322: `captureFrame`.  `isCameraOn` is the flag of the render that called
`startEmotionAnalysis`; `imageData` is the value of `canvas.toDataURL(...)`. -/
def captureFrame (isCameraOn : Bool) (imageData : String) (s : State) : State × List Effect :=
  ( s,
    (if s.videoRef && s.canvasRef && isCameraOn then
      (if s.websocketRef = some ReadyState.OPEN then
        [Effect.send (OutboundMessage.emotionAnalysis imageData)]
      else [])
    else []) ++
    (if isCameraOn then [Effect.scheduleCaptureFrame] else []) )

/-! ## Speech recognition (lines 520-623) -/

/-- An entry of `event.results`: the transcript of its first alternative and its `isFinal`
flag. -/
structure SpeechResult where
  transcript : String
  isFinal : Bool
  deriving DecidableEq, Repr

/-- Lines 526-536: the pair `(finalTranscript, interimTranscript)` after the loop over the
results from `event.resultIndex` on. -/
def collectTranscripts (results : List SpeechResult) (resultIndex : Nat) : String × String :=
  (results.drop resultIndex).foldl
    (fun acc result =>
      if result.isFinal then (acc.1 ++ result.transcript ++ " ", acc.2)
      else (acc.1, acc.2 ++ result.transcript))
    ("", "")

/-- Lines 525-550: `recognition.onresult`. -/
def recognitionOnresult (results : List SpeechResult) (resultIndex : Nat) (s : State) :
    State × List Effect :=
  let finalTranscript := (collectTranscripts results resultIndex).1
  let interimTranscript := (collectTranscripts results resultIndex).2
  let s1 := setAnswerText (jsTrim (finalTranscript ++ interimTranscript))
    { s with transcriptRef := finalTranscript ++ interimTranscript }
  if s.websocketRef = some ReadyState.OPEN && (JSVal.str finalTranscript).truthy then
    (setSentimentStatus Status.active s1,
      [Effect.send (OutboundMessage.transcriptLine (jsTrim finalTranscript))])
  else (s1, [])

/-- Lines 552-591: `recognition.onerror` for the error code `error`. -/
def recognitionOnerror (error : String) (s : State) : State × List Effect :=
  if error == "no-speech" || error == "aborted" then (s, [])
  else if !s.errorShownRef then
    let s1 := { s with errorShownRef := true }
    if error == "not-allowed" then
      (setTranscriptionStatus Status.error s1,
        if s.recognitionRef then [Effect.recognitionStop] else [])
    else if error == "audio-capture" || error == "network" ||
        error == "service-not-allowed" then
      (setTranscriptionStatus Status.error s1, [])
    else (s1, [])
  else (s, [])

/-- The values of `isRecording` and `transcriptionStatus` that the handlers created by
`startRecording` read: those of the render that ran `startRecording`. -/
structure RecordingClosure where
  isRecording : Bool
  transcriptionStatus : Status
  deriving DecidableEq, Repr

/-- Lines 593-623: `recognition.onend`, up to the `setTimeout`. -/
def recognitionOnend (c : RecordingClosure) (s : State) : State × List Effect :=
  if s.mediaRecorderRef = some RecorderState.recording && c.isRecording &&
      c.transcriptionStatus != Status.error && c.transcriptionStatus != Status.unsupported then
    (s, if s.recognitionRef then [Effect.scheduleRestart] else [])
  else (s, [])

/-- Lines 603-617: the callback of the `setTimeout`, run 500 ms later. -/
def restartCallback (c : RecordingClosure) (s : State) : State × List Effect :=
  if s.recognitionRef && c.isRecording && c.transcriptionStatus != Status.error &&
      c.transcriptionStatus != Status.unsupported then
    (s, [Effect.recognitionStart])
  else (s, [])

/-- A state with the camera on, the socket open, the recorder recording and the recognition
engine running. -/
def cameraOnState : State :=
  { answeringState with
    isCameraOn := true
    isRecording := true
    videoRef := true
    canvasRef := true
    streamRef := some [{ kind := TrackKind.video, live := true },
      { kind := TrackKind.audio, live := true }]
    websocketRef := some ReadyState.OPEN
    mediaRecorderRef := some RecorderState.recording
    recognitionRef := true
    transcriptionStatus := Status.active
    emotionStatus := Status.active
    sentimentStatus := Status.active }

/-- The state after the camera is switched off in `cameraOnState`. -/
def cameraOffState : State :=
  (stopCamera cameraOnState).1

/-- The inbound message `{type: "emotion_update", data: {emotion: "happy"}}`. -/
def emotionUpdateMessage : JSVal :=
  JSVal.obj [("type", JSVal.str "emotion_update"),
    ("data", JSVal.obj [("emotion", JSVal.str "happy")])]

/-- A result batch with one finalized fragment. -/
def finalBatch : List SpeechResult :=
  [{ transcript := "I led a team of four", isFinal := true }]

/-! ## Vocabulary of the telemetry statements -/

/-- The concatenation of a list of strings, in order. -/
def concatAll : List String → String
  | [] => ""
  | x :: xs => x ++ concatAll xs

/-- The finalized fragments of a batch, in batch order. -/
def finalFragments (batch : List SpeechResult) : List String :=
  (batch.filter fun r => r.isFinal).map fun r => r.transcript

/-- The interim fragments of a batch, in batch order. -/
def interimFragments (batch : List SpeechResult) : List String :=
  (batch.filter fun r => !r.isFinal).map fun r => r.transcript

/-- A batch with a finalized fragment, an interim one and a second finalized one. -/
def mixedBatch : List SpeechResult :=
  [ { transcript := "I led", isFinal := true },
    { transcript := "and shipped", isFinal := false },
    { transcript := "a team", isFinal := true } ]

/-- The inbound message `{type: "error", error: "emotion model unavailable"}`. -/
def emotionErrorMessage : JSVal :=
  JSVal.obj [("type", JSVal.str "error"), ("error", JSVal.str "emotion model unavailable")]

/-- The inbound message `{type: "transcript_analysis", data: {analysis: {sentiment:
{label: "negative", score: 0}}}}`. -/
def zeroScoreSentimentMessage : JSVal :=
  JSVal.obj [("type", JSVal.str "transcript_analysis"),
    ("data", JSVal.obj [("analysis", JSVal.obj [("sentiment",
      JSVal.obj [("label", JSVal.str "negative"), ("score", JSVal.num 0)])])])]

/-- The inbound message `{type: "transcript_analysis", data: {analysis: {sentiment:
{label: "positive", score: 0.9}}}}`. -/
def positiveSentimentMessage : JSVal :=
  JSVal.obj [("type", JSVal.str "transcript_analysis"),
    ("data", JSVal.obj [("analysis", JSVal.obj [("sentiment",
      JSVal.obj [("label", JSVal.str "positive"), ("score", numberLiteral (9 / 10))])])])]

/-- The inbound message `{type: "pong"}`. -/
def pongMessage : JSVal :=
  JSVal.obj [("type", JSVal.str "pong")]

/-- The payload of scenario 3: `{answer_feedback: {score_breakdown: {overall_score: 0.82}}}`. -/
def scenario3Payload : JSVal :=
  JSVal.obj [("answer_feedback",
    JSVal.obj [("score_breakdown", JSVal.obj [("overall_score", numberLiteral (82 / 100))])])]

/-- The values the handlers created by `startRecording` read, when `startRecording` runs from
the render whose state is `s`. -/
def closureOf (s : State) : RecordingClosure :=
  { isRecording := s.isRecording, transcriptionStatus := s.transcriptionStatus }

/-! ## Recording (lines 327-732) -/

/-- How a call of `getUserMedia` ends: with a stream, given by its tracks, or with an error,
given by its name. -/
inductive MediaResult where
  | granted (tracks : List Track)
  | refused (errorName : String)

/-- What the platform answers while `startRecording` runs. -/
structure RecordingEnv where
  /-- The value of `window.MediaRecorder` is truthy. -/
  hasMediaRecorder : Bool
  /-- The value of `navigator.mediaDevices.getUserMedia` is there. -/
  hasGetUserMedia : Bool
  /-- The outcome of the request of line 366. -/
  microphone : MediaResult
  /-- The outcome of the request of line 426. -/
  freshMicrophone : MediaResult
  /-- The function `MediaRecorder.isTypeSupported`. -/
  isTypeSupported : String → Bool
  /-- The call `new MediaRecorder(stream, {mimeType})` returns. -/
  canConstruct : String → Bool
  /-- The call `new MediaRecorder(stream)`: `none` when it throws, else the `mimeType` of the
  recorder it returns. -/
  defaultRecorder : Option String
  /-- One of `webkitSpeechRecognition` and `SpeechRecognition` is in `window`. -/
  hasSpeechRecognition : Bool
  /-- The call `recognition.start()` of line 628: `none` when it returns, else the name of
  the error it throws. -/
  recognitionStartError : Option String
  /-- The call `mediaRecorder.start(1000)` throws. -/
  recorderStartThrows : Bool

/-- The tracks returned by `getAudioTracks()`. -/
def audioTracksOf (tracks : List Track) : List Track :=
  tracks.filter fun t => t.kind == TrackKind.audio

/-- The tracks returned by `getVideoTracks()`. -/
def videoTracksOf (tracks : List Track) : List Track :=
  tracks.filter fun t => t.kind == TrackKind.video

/-- The audio tracks whose `readyState` is `live`. -/
def liveAudioTracksOf (tracks : List Track) : List Track :=
  (audioTracksOf tracks).filter fun t => t.live

/-- The stream after `getAudioTracks().forEach(track => track.stop())`: a stopped track stays
in the stream and is no longer live. -/
def stopAudioTracks (tracks : List Track) : List Track :=
  tracks.map fun t => if t.kind == TrackKind.audio then { t with live := false } else t

/-- The stream after `getTracks().forEach(track => track.stop())`. -/
def stopAllTracks (tracks : List Track) : List Track :=
  tracks.map fun t => { t with live := false }

/-- The calls `track.stop()` made on the given tracks. -/
def stopEffects (tracks : List Track) : List Effect :=
  tracks.map fun t => Effect.trackStop t.kind

/-- The outcome of a stage of `startRecording`: go on with the next stage, or return. -/
inductive Stage where
  | proceed (s : State) (effects : List Effect)
  | halt (s : State) (effects : List Effect)

/-- The state at the end of a stage. -/
def Stage.state : Stage → State
  | Stage.proceed s _ => s
  | Stage.halt s _ => s

/-- The effects up to the end of a stage. -/
def Stage.effects : Stage → List Effect
  | Stage.proceed _ e => e
  | Stage.halt _ e => e

/-- Sequencing: the next stage runs only if the function has not returned. -/
def Stage.andThen (r : Stage) (next : State → Stage) : Stage :=
  match r with
  | Stage.proceed s e =>
    match next s with
    | Stage.proceed t f => Stage.proceed t (e ++ f)
    | Stage.halt t f => Stage.halt t (e ++ f)
  | Stage.halt s e => Stage.halt s e

/-- Lines 329-339: the two feature checks. -/
def checkSupport (env : RecordingEnv) (s : State) : Stage :=
  if !env.hasMediaRecorder then
    Stage.halt s [Effect.alert AlertMessage.mediaRecorderUnsupported]
  else if !env.hasGetUserMedia then
    Stage.halt s [Effect.alert AlertMessage.microphoneUnavailable]
  else Stage.proceed s []

/-- Lines 341-360: the value of `needsNewStream`. -/
def needsNewStream (s : State) : Bool :=
  match s.streamRef with
  | some tracks =>
    if (audioTracksOf tracks).length == 0 then true
    else if (liveAudioTracksOf tracks).length == 0 then true
    else false
  | none => true

/-- Lines 362-410: the microphone request.  After this stage `streamToUse` is the stream in
`streamRef`. -/
def acquireStream (env : RecordingEnv) (s : State) : Stage :=
  if needsNewStream s then
    match env.microphone with
    | MediaResult.granted newTracks =>
      match s.streamRef with
      | some tracks =>
        if (videoTracksOf tracks).length > 0 then
          Stage.proceed
            { s with streamRef := some (stopAudioTracks tracks ++ audioTracksOf newTracks) }
            (Effect.requestMicrophone :: (stopEffects (audioTracksOf tracks) ++
              stopEffects (videoTracksOf newTracks)))
        else Stage.proceed { s with streamRef := some newTracks } [Effect.requestMicrophone]
      | none => Stage.proceed { s with streamRef := some newTracks } [Effect.requestMicrophone]
    | MediaResult.refused errorName =>
      Stage.halt s
        [Effect.requestMicrophone, Effect.alert (AlertMessage.microphoneFailed errorName)]
  else Stage.proceed s []

/-- Lines 412-448: the audio tracks are checked, and replaced by fresh ones when none is
live.  Without a stream, `streamToUse.getAudioTracks()` throws and the `catch` of line 709
shows its alert. -/
def verifyAudio (env : RecordingEnv) (s : State) : Stage :=
  match s.streamRef with
  | none => Stage.halt s [Effect.alert AlertMessage.recordingFailed]
  | some tracks =>
    if (audioTracksOf tracks).length == 0 then
      Stage.halt s [Effect.alert AlertMessage.noAudioTracks]
    else if (liveAudioTracksOf tracks).length == 0 then
      match env.freshMicrophone with
      | MediaResult.granted freshTracks =>
        Stage.proceed
          { s with streamRef := some (stopAudioTracks tracks ++ audioTracksOf freshTracks) }
          (Effect.requestMicrophone :: (stopEffects (audioTracksOf tracks) ++
            stopEffects (videoTracksOf freshTracks)))
      | MediaResult.refused _ =>
        Stage.halt s [Effect.requestMicrophone, Effect.alert AlertMessage.activateFailed]
    else Stage.proceed s []

/-- Lines 451-457: the preference list. -/
def mimeTypes : List String :=
  ["audio/webm;codecs=opus", "audio/webm", "audio/ogg;codecs=opus", "audio/mp4", "audio/wav"]

/-- Lines 462-476: the loop over the preference list; the result is `selectedMimeType`, or
`none` when the loop ends without a recorder. -/
def negotiateLoop (isTypeSupported canConstruct : String → Bool) : List String → Option String
  | [] => none
  | mimeType :: rest =>
    if isTypeSupported mimeType then
      if canConstruct mimeType then some mimeType
      else negotiateLoop isTypeSupported canConstruct rest
    else negotiateLoop isTypeSupported canConstruct rest

/-- The recorder that lines 450-488 build: the `mimeType` option it was constructed with
(`none` for the platform default) and the value of `selectedMimeType`. -/
structure Negotiated where
  requested : Option String
  tag : String
  deriving DecidableEq, Repr

/-- Lines 450-488: the loop, then the fallback to the platform default; `none` when that
throws as well. -/
def negotiate (env : RecordingEnv) : Option Negotiated :=
  match negotiateLoop env.isTypeSupported env.canConstruct mimeTypes with
  | some mimeType => some { requested := some mimeType, tag := mimeType }
  | none =>
    match env.defaultRecorder with
    | some own =>
      some { requested := none, tag := if (JSVal.str own).truthy then own else "audio/webm" }
    | none => none

/-- Lines 450-491: the recorder is built and stored; a recorder that has just been built is
inactive. -/
def createRecorder (env : RecordingEnv) (s : State) : Stage :=
  match negotiate env with
  | some recorder =>
    Stage.proceed
      { s with
        mediaRecorderRef := some RecorderState.inactive
        audioChunksRef := []
        selectedMimeType := some recorder.tag } []
  | none => Stage.halt s [Effect.alert AlertMessage.initializeFailed]

/-- Lines 512-646: the recognition engine is created, stored and started. -/
def startRecognition (env : RecordingEnv) (s : State) : Stage :=
  if env.hasSpeechRecognition then
    match env.recognitionStartError with
    | none =>
      Stage.proceed (setTranscriptionStatus Status.active { s with recognitionRef := true })
        [Effect.recognitionStart]
    | some errorName =>
      if errorName != "InvalidStateError" then
        Stage.proceed (setTranscriptionStatus Status.error { s with recognitionRef := true })
          [Effect.recognitionStart]
      else
        Stage.proceed (setTranscriptionStatus Status.active { s with recognitionRef := true })
          [Effect.recognitionStart]
  else Stage.proceed (setTranscriptionStatus Status.unsupported s) []

/-- Lines 648-708: the recorder is started.  The recorder built by `createRecorder` is
inactive here, so the branches of lines 659-663 and 676-680 are not taken, and the clean-up of
lines 686-694 finds nothing to stop. -/
def startRecorder (env : RecordingEnv) (s : State) : Stage :=
  match s.streamRef with
  | none =>
    Stage.halt (setIsRecording false s) [Effect.alert AlertMessage.startFailed]
  | some tracks =>
    if (liveAudioTracksOf tracks).length == 0 then
      Stage.halt (setIsRecording false s) [Effect.alert AlertMessage.startFailed]
    else if env.recorderStartThrows then
      Stage.halt (setIsRecording false s)
        [Effect.recorderStart, Effect.alert AlertMessage.startFailed]
    else
      Stage.proceed
        (setIsRecording true { s with mediaRecorderRef := some RecorderState.recording })
        [Effect.recorderStart]

/-- Lines 327-719: `startRecording`. -/
def startRecording (env : RecordingEnv) (s : State) : State × List Effect :=
  let result :=
    ((((checkSupport env s).andThen (acquireStream env)).andThen (verifyAudio env)).andThen
      (createRecorder env)).andThen (startRecognition env) |>.andThen (startRecorder env)
  (result.state, result.effects)

/-- Lines 722-724 (and 907-909, 172-174): the recorder is stopped unless it is inactive. -/
def stopRecorderIfActive (s : State) : State × List Effect :=
  match s.mediaRecorderRef with
  | some recorderState =>
    if recorderState != RecorderState.inactive then
      ({ s with mediaRecorderRef := some RecorderState.inactive }, [Effect.recorderStop])
    else (s, [])
  | none => (s, [])

/-- Lines 726-729: the engine is stopped and its ref cleared. -/
def stopAndClearEngine (s : State) : State × List Effect :=
  if s.recognitionRef then ({ s with recognitionRef := false }, [Effect.recognitionStop])
  else (s, [])

/-- Running handlers one after the other. -/
def runSteps (steps : List (State → State × List Effect)) (s : State) : State × List Effect :=
  steps.foldl (fun acc f => ((f acc.1).1, acc.2 ++ (f acc.1).2)) (s, [])

/-- Lines 721-732: `stopRecording`. -/
def stopRecording (s : State) : State × List Effect :=
  runSteps [stopRecorderIfActive, stopAndClearEngine, fun t => (setIsRecording false t, [])] s

/-! ## Leaving the interview (lines 162-178 and 892-918) -/

/-- Lines 895-897 (and 163-165): the interval is cleared. -/
def exitClearTimer (s : State) : State × List Effect :=
  if s.intervalRef then (clearIntervalRef s, [Effect.clearInterval]) else (s, [])

/-- Lines 898-900 (and 166-168): the socket is closed; a socket that is not yet closed is
closing after the call. -/
def exitCloseSocket (s : State) : State × List Effect :=
  match s.websocketRef with
  | some ReadyState.CLOSED => (s, [Effect.websocketClose])
  | some _ => ({ s with websocketRef := some ReadyState.CLOSING }, [Effect.websocketClose])
  | none => (s, [])

/-- Lines 901-903 (and 169-171): every track of the stream is stopped; the ref keeps the
stream. -/
def exitStopTracks (s : State) : State × List Effect :=
  match s.streamRef with
  | some tracks => ({ s with streamRef := some (stopAllTracks tracks) }, stopEffects tracks)
  | none => (s, [])

/-- Lines 904-906. -/
def exitClearVideo (s : State) : State × List Effect :=
  if s.videoRef then (s, [Effect.clearVideoSource]) else (s, [])

/-- Lines 910-912 (and 175-177): the engine is stopped; the ref keeps it. -/
def exitStopEngine (s : State) : State × List Effect :=
  if s.recognitionRef then (s, [Effect.recognitionStop]) else (s, [])

/-- Lines 892-918: `handleExitInterview`; `confirmed` is the value of `window.confirm(...)`. -/
def handleExitInterview (confirmed : Bool) (s : State) : State × List Effect :=
  if confirmed then
    runSteps
      [exitClearTimer, exitCloseSocket, exitStopTracks, exitClearVideo, stopRecorderIfActive,
        exitStopEngine, stopRecording, fun t => (t, [Effect.navigate])] s
  else (s, [])

/-- Lines 162-178: the clean-up returned by the effect of line 85. -/
def unmountCleanup (s : State) : State × List Effect :=
  runSteps
    [exitClearTimer, exitCloseSocket, exitStopTracks, stopRecorderIfActive, exitStopEngine] s

/-- A platform on which everything works: every encoding of the list is supported and the
microphone is granted. -/
def workingEnv : RecordingEnv :=
  { hasMediaRecorder := true
    hasGetUserMedia := true
    microphone := MediaResult.granted [{ kind := TrackKind.audio, live := true }]
    freshMicrophone := MediaResult.granted [{ kind := TrackKind.audio, live := true }]
    isTypeSupported := fun _ => true
    canConstruct := fun _ => true
    defaultRecorder := some "audio/webm"
    hasSpeechRecognition := true
    recognitionStartError := none
    recorderStartThrows := false }

/-- A platform that reports every encoding as supported and fails to build a recorder for the
first entry of the list. -/
def opusFailsEnv : RecordingEnv :=
  { workingEnv with canConstruct := fun m => m != "audio/webm;codecs=opus" }

/-- A platform that supports none of the listed encodings and whose default recorder reports
an empty `mimeType`. -/
def defaultOnlyEnv : RecordingEnv :=
  { workingEnv with isTypeSupported := fun _ => false, defaultRecorder := some "" }

/-- A first recording session, ended by `stopRecording`, in which the engine reports a
network error. -/
def afterFirstSession : State :=
  (stopRecording
    (recognitionOnerror "network" (startRecording workingEnv answeringState).1).1).1

/-- A second recording session started after `afterFirstSession`. -/
def secondSession : State :=
  (startRecording workingEnv afterFirstSession).1

/-- The payload `{answer_feedback: {score_breakdown: {overall_score: v}}}`. -/
def overallScoreResponse (v : JSVal) : JSVal :=
  JSVal.obj [("answer_feedback",
    JSVal.obj [("score_breakdown", JSVal.obj [("overall_score", v)])])]

/-- The payload `{answer_feedback: {score_breakdown: {technical_depth: v}}}`. -/
def singleComponentResponse (v : JSVal) : JSVal :=
  JSVal.obj [("answer_feedback",
    JSVal.obj [("score_breakdown", JSVal.obj [("technical_depth", v)])])]

/-! ## The record button (lines 1124-1140) -/

/-- Line 1125: the button whose `onClick` is `startRecording` is rendered exactly when the
recording flag of the render is unset; otherwise the button of `stopRecording` takes its
place. -/
def startButtonShown (s : State) : Bool :=
  !s.isRecording

/-- A click on the start button in the render whose state is `r`: `none` when that render does
not show the button.  Line 1127 is the only place that calls `startRecording`, so the values
the handlers of a recognition engine read are always those of such a render.  The result is
that closure together with the run of `startRecording`. -/
def clickStartRecording (env : RecordingEnv) (r : State) :
    Option (RecordingClosure × (State × List Effect)) :=
  if startButtonShown r then some (closureOf r, startRecording env r) else none

/-! ## The remaining handlers of the component -/

/-- Lines 240-325: `startEmotionAnalysis`.  `sessionId` and `isCameraOn` are the values of the
render whose function runs; `imageData` is the frame the first `captureFrame` would encode.
The handlers of lines 250-298 are attached to the new socket, which is connecting. -/
def startEmotionAnalysis (sessionId : JSVal) (isCameraOn : Bool) (imageData : String)
    (s : State) : State × List Effect :=
  if !sessionId.truthy then (s, [])
  else
    let s1 := { s with websocketRef := some ReadyState.CONNECTING }
    ((captureFrame isCameraOn imageData s1).1,
      Effect.websocketOpen :: (captureFrame isCameraOn imageData s1).2)

/-- Lines 182-186: the effect that runs after a render in which `isCameraOn` or `sessionId`
changed; it reads the values of that render. -/
def cameraEffect (imageData : String) (s : State) : State × List Effect :=
  if s.isCameraOn && s.sessionId.truthy && s.websocketRef.isNone then
    startEmotionAnalysis s.sessionId s.isCameraOn imageData s
  else (s, [])

/-- Lines 188-229: `startCamera`, from the moment `getUserMedia` settles with `media`.
`sessionId` and `isCameraOn` are the values of the render whose button was pressed. -/
def startCamera (sessionId : JSVal) (isCameraOn : Bool) (media : MediaResult)
    (imageData : String) (s : State) : State × List Effect :=
  match media with
  | MediaResult.granted tracks =>
    let s1 := setIsCameraOn true { s with streamRef := some tracks }
    let shown := if s.videoRef then [Effect.setVideoSource] else []
    if sessionId.truthy then
      ((startEmotionAnalysis sessionId isCameraOn imageData s1).1,
        shown ++ (startEmotionAnalysis sessionId isCameraOn imageData s1).2)
    else (s1, shown)
  | MediaResult.refused errorName =>
    (s, [Effect.alert (AlertMessage.cameraFailed errorName)])

/-- Lines 493-498: `mediaRecorder.ondataavailable`; `size` is `event.data.size`, `none` when
the event carries no data. -/
def recorderOndataavailable (size : Option Nat) (s : State) : State :=
  match size with
  | some n => if n > 0 then { s with audioChunksRef := s.audioChunksRef ++ [n] } else s
  | none => s

/-- Lines 500-504: `mediaRecorder.onerror`. -/
def recorderOnerror (s : State) : State × List Effect :=
  (setIsRecording false s, [Effect.alert AlertMessage.recorderError])

/-- Lines 506-510: `mediaRecorder.onstop` builds the blob and logs its size. -/
def recorderOnstop (s : State) : State :=
  s

/-- Lines 520-523: `recognition.onstart`. -/
def recognitionOnstart (s : State) : State :=
  setTranscriptionStatus Status.active s

/-- Lines 1361 and 1456: the two buttons that close the results. -/
def closeResults (s : State) : State :=
  setShowResults false s

/-- The handlers of the component, one constructor for each function that the component
registers (effects, timers, socket, recorder and engine callbacks, buttons and the text area),
with the values it is called with. -/
inductive Handler where
  /-- Lines 85-152: the mount effect installs the interval. -/
  | mount
  /-- Lines 87-147: the start request settles. -/
  | initializeInterview (result : ApiResult) (now : Nat) (interviewData : JSVal)
  /-- Lines 152-160: the interval fires. -/
  | tick (updaterLast : Bool)
  /-- Lines 162-178: the clean-up of the mount effect. -/
  | unmountCleanup
  /-- Lines 182-186. -/
  | cameraEffect (imageData : String)
  /-- Lines 188-229. -/
  | startCamera (sessionId : JSVal) (isCameraOn : Bool) (media : MediaResult)
      (imageData : String)
  /-- Lines 231-238. -/
  | stopCamera
  /-- Lines 250-254. -/
  | websocketOnopen
  /-- Lines 256-286. -/
  | websocketOnmessage (parsed : Option JSVal)
  /-- Lines 288-292. -/
  | websocketOnerror
  /-- Lines 294-298. -/
  | websocketOnclose
  /-- Lines 301-322: a `captureFrame` run by its timer. -/
  | captureFrame (isCameraOn : Bool) (imageData : String)
  /-- Lines 327-719. -/
  | startRecording (env : RecordingEnv)
  /-- Lines 493-498. -/
  | recorderOndataavailable (size : Option Nat)
  /-- Lines 500-504. -/
  | recorderOnerror
  /-- Lines 506-510. -/
  | recorderOnstop
  /-- Lines 520-523. -/
  | recognitionOnstart
  /-- Lines 525-550. -/
  | recognitionOnresult (results : List SpeechResult) (resultIndex : Nat)
  /-- Lines 552-591. -/
  | recognitionOnerror (error : String)
  /-- Lines 593-623. -/
  | recognitionOnend (c : RecordingClosure)
  /-- Lines 603-617. -/
  | restartCallback (c : RecordingClosure)
  /-- Lines 721-732. -/
  | stopRecording
  /-- Lines 734-748, with the index its closure holds. -/
  | handleNextQuestion (questionIndex : Nat)
  /-- Lines 750-884. -/
  | submitAnswer (api : SubmitApi) (now : Nat)
  /-- Lines 892-918. -/
  | handleExitInterview (confirmed : Bool)
  /-- Lines 920-971. -/
  | handleViewResults (result : ApiResult) (completedAt : String)
  /-- Line 1105: the text area. -/
  | typeAnswer (text : String)
  /-- Lines 1361 and 1456. -/
  | closeResults
  /-- Line 1450: the button back to the interviews. -/
  | backToInterviews

/-- The state after a handler has run. -/
def runHandler (h : Handler) (s : State) : State :=
  match h with
  | Handler.mount => startTimer s
  | Handler.initializeInterview result now interviewData =>
    initializeInterview result now interviewData s
  | Handler.tick updaterLast => (tick updaterLast s).1
  | Handler.unmountCleanup => (unmountCleanup s).1
  | Handler.cameraEffect imageData => (cameraEffect imageData s).1
  | Handler.startCamera sessionId isCameraOn media imageData =>
    (startCamera sessionId isCameraOn media imageData s).1
  | Handler.stopCamera => (stopCamera s).1
  | Handler.websocketOnopen => websocketOnopen s
  | Handler.websocketOnmessage parsed => websocketOnmessage parsed s
  | Handler.websocketOnerror => websocketOnerror s
  | Handler.websocketOnclose => websocketOnclose s
  | Handler.captureFrame isCameraOn imageData => (captureFrame isCameraOn imageData s).1
  | Handler.startRecording env => (startRecording env s).1
  | Handler.recorderOndataavailable size => recorderOndataavailable size s
  | Handler.recorderOnerror => (recorderOnerror s).1
  | Handler.recorderOnstop => recorderOnstop s
  | Handler.recognitionOnstart => recognitionOnstart s
  | Handler.recognitionOnresult results resultIndex =>
    (recognitionOnresult results resultIndex s).1
  | Handler.recognitionOnerror error => (recognitionOnerror error s).1
  | Handler.recognitionOnend c => (recognitionOnend c s).1
  | Handler.restartCallback c => (restartCallback c s).1
  | Handler.stopRecording => (stopRecording s).1
  | Handler.handleNextQuestion questionIndex => (handleNextQuestion questionIndex s).1
  | Handler.submitAnswer api now => (submitAnswer api now s).1
  | Handler.handleExitInterview confirmed => (handleExitInterview confirmed s).1
  | Handler.handleViewResults result completedAt => (handleViewResults result completedAt s).1
  | Handler.typeAnswer text => setAnswerText text s
  | Handler.closeResults => closeResults s
  | Handler.backToInterviews => s

/-- The three transitions that set the sentiment status to active: the open event of the
socket (line 253), an inbound `transcript_analysis` with a truthy sentiment (line 271), and an
`onresult` that sends a transcript line (line 548). -/
def setsSentimentActive (h : Handler) (s : State) : Bool :=
  match h with
  | Handler.websocketOnopen => true
  | Handler.websocketOnmessage (some data) =>
    strictEqualsString (data.getProp "type") "transcript_analysis" &&
      (((data.getProp "data").getProp "analysis").getProp "sentiment").truthy
  | Handler.recognitionOnresult results resultIndex =>
    decide (s.websocketRef = some ReadyState.OPEN) &&
      decide ((collectTranscripts results resultIndex).1 ≠ "")
  | _ => false

end AIInterview

namespace AIInterview
open JSVal

/-! ## Binary64 rounding -/

theorem roundHalfEven_abs_sub_le (x : ℚ) : |(roundHalfEven x : ℚ) - x| ≤ 1 / 2 := by
  have h1 : (⌊x⌋ : ℚ) ≤ x := Int.floor_le x
  have h2 : x < ⌊x⌋ + 1 := Int.lt_floor_add_one x
  unfold roundHalfEven
  rw [abs_le]
  split_ifs <;> push_cast <;> constructor <;> linarith

theorem roundHalfEven_nearest (x : ℚ) (n : ℤ) :
    |(roundHalfEven x : ℚ) - x| ≤ |(n : ℚ) - x| := by
  by_cases h : n = roundHalfEven x
  · rw [h]
  · have h1 := roundHalfEven_abs_sub_le x
    have h2 : (1 : ℚ) ≤ |(n : ℚ) - (roundHalfEven x : ℚ)| := by
      have : (1 : ℤ) ≤ |n - roundHalfEven x| := Int.one_le_abs (sub_ne_zero.mpr h)
      exact_mod_cast this
    have h3 : |(n : ℚ) - (roundHalfEven x : ℚ)| ≤ |(n : ℚ) - x| + |(roundHalfEven x : ℚ) - x| := by
      have := abs_sub_le (n : ℚ) x (roundHalfEven x : ℚ)
      rwa [abs_sub_comm x] at this
    linarith

theorem roundHalfEven_eq_of_abs_lt (x : ℚ) (n : ℤ) (h : |x - n| < 1 / 2) :
    roundHalfEven x = n := by
  by_contra hne
  have h1 := roundHalfEven_abs_sub_le x
  have h2 : (1 : ℚ) ≤ |(n : ℚ) - (roundHalfEven x : ℚ)| := by
    have : (1 : ℤ) ≤ |n - roundHalfEven x| :=
      Int.one_le_abs (sub_ne_zero.mpr (Ne.symm hne))
    exact_mod_cast this
  have h3 : |(n : ℚ) - (roundHalfEven x : ℚ)| ≤ |(n : ℚ) - x| + |x - (roundHalfEven x : ℚ)| :=
    abs_sub_le _ _ _
  rw [abs_sub_comm (n : ℚ) x, abs_sub_comm x (roundHalfEven x : ℚ)] at h3
  linarith

theorem two_zpow_pos (e : ℤ) : (0 : ℚ) < 2 ^ e := zpow_pos (by norm_num) e

theorem toDouble_zero : toDouble 0 = 0 := by
  simp [toDouble, roundHalfEven]

/-- The error of the rounding is at most half a unit in the last place. -/
theorem abs_toDouble_sub_le_half_quantum (q : ℚ) :
    |toDouble q - q| ≤ 2 ^ quantumExponent q / 2 := by
  have hp := two_zpow_pos (quantumExponent q)
  have h := roundHalfEven_abs_sub_le (q / 2 ^ quantumExponent q)
  have : toDouble q - q =
      ((roundHalfEven (q / 2 ^ quantumExponent q) : ℚ) - q / 2 ^ quantumExponent q) *
        2 ^ quantumExponent q := by
    unfold toDouble
    field_simp
  rw [this, abs_mul, abs_of_pos hp]
  calc _ ≤ 1 / 2 * 2 ^ quantumExponent q := mul_le_mul_of_nonneg_right h hp.le
    _ = _ := by ring

theorem quantumExponent_ge (q : ℚ) : -1074 ≤ quantumExponent q := le_max_right _ _

theorem log_le_of_abs_lt {q : ℚ} {k : ℤ} (hk : 0 ≤ k) (h : |q| < 2 ^ (k + 1)) :
    Int.log 2 |q| ≤ k := by
  by_cases hq : q = 0
  · simp [hq, hk]
  · have hpos : 0 < |q| := abs_pos.mpr hq
    have := (Int.lt_zpow_iff_log_lt (b := 2) (by norm_num) hpos (x := k + 1)).mp
      (by exact_mod_cast h)
    omega

theorem quantumExponent_le {q : ℚ} {k : ℤ} (hk : 0 ≤ k) (h : |q| < 2 ^ (k + 1)) :
    quantumExponent q ≤ k - 52 := by
  unfold quantumExponent
  have := log_le_of_abs_lt hk h
  exact max_le (by omega) (by omega)

theorem abs_toDouble_sub_le {q : ℚ} {k : ℤ} (hk : 0 ≤ k) (h : |q| < 2 ^ (k + 1)) :
    |toDouble q - q| ≤ 2 ^ (k - 53) := by
  have h1 := abs_toDouble_sub_le_half_quantum q
  have h2 : (2 : ℚ) ^ quantumExponent q ≤ 2 ^ (k - 52) :=
    zpow_le_zpow_right₀ (by norm_num) (quantumExponent_le hk h)
  have h3 : (2 : ℚ) ^ (k - 52) = 2 ^ (k - 53) * 2 := by
    rw [← zpow_add_one₀ (by norm_num)]
    congr 1
    ring
  linarith


theorem two_zpow_log_le_abs {q : ℚ} (hq : q ≠ 0) : (2 : ℚ) ^ Int.log 2 |q| ≤ |q| := by
  have := Int.zpow_log_le_self (b := 2) (r := |q|) (by norm_num) (abs_pos.mpr hq)
  exact_mod_cast this

/-- The rounding returns a nearest value of the format. -/
theorem toDouble_nearest (q : ℚ) {d : ℚ} (hd : IsBinary64 d) :
    |toDouble q - q| ≤ |d - q| := by
  by_cases hq : q = 0
  · rw [hq, toDouble_zero]
    simp
  obtain ⟨m, e, hm, he, rfl⟩ := hd
  have hp := two_zpow_pos (quantumExponent q)
  have key : ∀ n : ℤ, |toDouble q - q| ≤ |(n : ℚ) * 2 ^ quantumExponent q - q| := by
    intro n
    have h := roundHalfEven_nearest (q / 2 ^ quantumExponent q) n
    have e1 : toDouble q - q =
        ((roundHalfEven (q / 2 ^ quantumExponent q) : ℚ) - q / 2 ^ quantumExponent q) *
          2 ^ quantumExponent q := by
      unfold toDouble
      field_simp
    have e2 : (n : ℚ) * 2 ^ quantumExponent q - q =
        ((n : ℚ) - q / 2 ^ quantumExponent q) * 2 ^ quantumExponent q := by
      field_simp
    rw [e1, e2, abs_mul, abs_mul, abs_of_pos hp]
    exact mul_le_mul_of_nonneg_right h hp.le
  by_cases hle : quantumExponent q ≤ e
  · obtain ⟨k, hk⟩ := Int.le.dest hle
    have : (m : ℚ) * 2 ^ e = ((m * 2 ^ k : ℤ) : ℚ) * 2 ^ quantumExponent q := by
      rw [← hk, zpow_add₀ (by norm_num), zpow_natCast]
      push_cast
      ring
    rw [this]
    exact key _
  · have hlt : e < quantumExponent q := not_le.mp hle
    have hqe : quantumExponent q = Int.log 2 |q| - 52 := by
      unfold quantumExponent at hlt ⊢
      rcases max_cases (Int.log 2 |q| - 52) (-1074) with ⟨h1, -⟩ | ⟨h1, -⟩
      · exact h1
      · rw [h1] at hlt
        omega
    have hlow : (2 : ℚ) ^ (quantumExponent q + 52) ≤ |q| := by
      have := two_zpow_log_le_abs hq
      rwa [hqe, sub_add_cancel]
    have hdle : |(m : ℚ) * 2 ^ e| ≤ 2 ^ (quantumExponent q + 52) := by
      rw [abs_mul, abs_of_pos (two_zpow_pos e)]
      have hm2 : |(m : ℚ)| ≤ 2 ^ (53 : ℤ) := by
        have : ((|m| : ℤ) : ℚ) ≤ ((2 ^ 53 : ℤ) : ℚ) := by exact_mod_cast hm
        rw [Int.cast_abs] at this
        norm_num at this ⊢
        exact this
      calc |(m : ℚ)| * 2 ^ e ≤ 2 ^ (53 : ℤ) * 2 ^ e :=
            mul_le_mul_of_nonneg_right hm2 (two_zpow_pos e).le
        _ = 2 ^ (53 + e) := by rw [zpow_add₀ (by norm_num)]
        _ ≤ 2 ^ (quantumExponent q + 52) :=
            zpow_le_zpow_right₀ (by norm_num) (by omega)
    have hgrid : (2 : ℚ) ^ (quantumExponent q + 52) =
        (((2 : ℤ) ^ 52 : ℤ) : ℚ) * 2 ^ quantumExponent q := by
      rw [zpow_add₀ (by norm_num)]
      push_cast
      rw [mul_comm]
      norm_cast
    rcases lt_or_gt_of_ne hq with hneg | hpos
    · have h1 := key (-(2 : ℤ) ^ 52)
      have h2 : ((-(2 : ℤ) ^ 52 : ℤ) : ℚ) * 2 ^ quantumExponent q =
          -(2 : ℚ) ^ (quantumExponent q + 52) := by
        rw [hgrid]
        push_cast
        ring
      rw [h2] at h1
      rw [abs_of_neg hneg] at hlow
      have h3 : |-(2 : ℚ) ^ (quantumExponent q + 52) - q| =
          -q - 2 ^ (quantumExponent q + 52) := by
        rw [abs_of_nonneg (by linarith)]
        ring
      have h4 : -q - 2 ^ (quantumExponent q + 52) ≤ |(m : ℚ) * 2 ^ e - q| := by
        have := neg_abs_le ((m : ℚ) * 2 ^ e)
        have := le_abs_self ((m : ℚ) * 2 ^ e - q)
        linarith
      linarith
    · have h1 := key ((2 : ℤ) ^ 52)
      rw [← hgrid] at h1
      rw [abs_of_pos hpos] at hlow
      have h3 : |(2 : ℚ) ^ (quantumExponent q + 52) - q| =
          q - 2 ^ (quantumExponent q + 52) := by
        rw [abs_of_nonpos (by linarith)]
        ring
      have h4 : q - 2 ^ (quantumExponent q + 52) ≤ |(m : ℚ) * 2 ^ e - q| := by
        have := le_abs_self ((m : ℚ) * 2 ^ e)
        have := neg_abs_le ((m : ℚ) * 2 ^ e - q)
        linarith
      linarith

theorem toDouble_eq_self {d : ℚ} (hd : IsBinary64 d) : toDouble d = d := by
  have := toDouble_nearest d hd
  rw [sub_self, abs_zero] at this
  have := abs_nonneg (toDouble d - d)
  have h0 : |toDouble d - d| = 0 := le_antisymm ‹_› ‹_›
  exact sub_eq_zero.mp (abs_eq_zero.mp h0)

theorem toDouble_le {x c : ℚ} (hc : IsBinary64 c) (h : x ≤ c) : toDouble x ≤ c := by
  by_contra hlt
  push_neg at hlt
  have h1 := toDouble_nearest x hc
  rw [abs_of_pos (by linarith), abs_of_nonneg (by linarith)] at h1
  linarith

theorem le_toDouble {x c : ℚ} (hc : IsBinary64 c) (h : c ≤ x) : c ≤ toDouble x := by
  by_contra hlt
  push_neg at hlt
  have h1 := toDouble_nearest x hc
  rw [abs_of_neg (by linarith), abs_of_nonpos (by linarith)] at h1
  linarith

theorem isBinary64_intCast {n : ℤ} (h : |n| ≤ 2 ^ 53) : IsBinary64 (n : ℚ) :=
  ⟨n, 0, h, by norm_num, by simp⟩

theorem isBinary64_div_two_pow {m : ℤ} (k : ℕ) (h : |m| ≤ 2 ^ 53) (hk : k ≤ 1074) :
    IsBinary64 ((m : ℚ) / 2 ^ k) :=
  ⟨m, -(k : ℤ), h, by omega, by rw [zpow_neg, zpow_natCast]; rfl⟩


theorem quantumExponent_eq {q : ℚ} {e : ℤ} (he : -1074 ≤ e) (h1 : 2 ^ (e + 52) ≤ |q|)
    (h2 : |q| < 2 ^ (e + 53)) : quantumExponent q = e := by
  have hpos : 0 < |q| := lt_of_lt_of_le (two_zpow_pos _) h1
  have a : e + 52 ≤ Int.log 2 |q| :=
    (Int.zpow_le_iff_le_log (b := 2) (by norm_num) hpos).mp (by exact_mod_cast h1)
  have b : Int.log 2 |q| < e + 53 :=
    (Int.lt_zpow_iff_log_lt (b := 2) (by norm_num) hpos).mp (by exact_mod_cast h2)
  unfold quantumExponent
  rw [max_eq_left (by omega)]
  omega

/-- The value of the rounding at a number that is not half-way between two values of the
format. -/
theorem toDouble_eq_of_near {q : ℚ} {e : ℤ} (m : ℤ) (he : -1074 ≤ e)
    (h1 : 2 ^ (e + 52) ≤ |q|) (h2 : |q| < 2 ^ (e + 53))
    (h3 : |q - (m : ℚ) * 2 ^ e| < 2 ^ e / 2) : toDouble q = (m : ℚ) * 2 ^ e := by
  have hp := two_zpow_pos e
  unfold toDouble
  rw [quantumExponent_eq he h1 h2]
  congr 2
  apply roundHalfEven_eq_of_abs_lt
  have : q / 2 ^ e - (m : ℚ) = (q - (m : ℚ) * 2 ^ e) / 2 ^ e := by
    field_simp
    ring
  rw [this, abs_div, abs_of_pos hp, div_lt_iff₀ hp]
  linarith

theorem roundHalfEven_le {x : ℚ} {n : ℤ} (h : x ≤ n) : roundHalfEven x ≤ n := by
  by_contra hlt
  push_neg at hlt
  have h1 := (abs_le.mp (roundHalfEven_abs_sub_le x)).2
  have h2 : (n : ℚ) + 1 ≤ (roundHalfEven x : ℚ) := by exact_mod_cast hlt
  linarith

theorem le_roundHalfEven {x : ℚ} {n : ℤ} (h : (n : ℚ) ≤ x) : n ≤ roundHalfEven x := by
  by_contra hlt
  push_neg at hlt
  have h1 := (abs_le.mp (roundHalfEven_abs_sub_le x)).1
  have h2 : (roundHalfEven x : ℚ) + 1 ≤ (n : ℚ) := by exact_mod_cast hlt
  linarith

theorem abs_lt_two_zpow_quantum (q : ℚ) : |q| < 2 ^ (quantumExponent q + 53) := by
  have h1 : |q| < (2 : ℚ) ^ (Int.log 2 |q| + 1) := by
    have := Int.lt_zpow_succ_log_self (b := 2) (by norm_num) |q|
    exact_mod_cast this
  have h2 : Int.log 2 |q| + 1 ≤ quantumExponent q + 53 := by
    have : Int.log 2 |q| - 52 ≤ quantumExponent q := le_max_left _ _
    omega
  exact lt_of_lt_of_le h1 (zpow_le_zpow_right₀ (by norm_num) h2)

/-- The rounding returns a value of the format. -/
theorem isBinary64_toDouble (q : ℚ) : IsBinary64 (toDouble q) := by
  have hp := two_zpow_pos (quantumExponent q)
  have hx : |q / 2 ^ quantumExponent q| < 2 ^ (53 : ℤ) := by
    rw [abs_div, abs_of_pos hp, div_lt_iff₀ hp, ← zpow_add₀ (by norm_num), add_comm]
    exact abs_lt_two_zpow_quantum q
  have hx2 := abs_lt.mp hx
  refine ⟨roundHalfEven (q / 2 ^ quantumExponent q), quantumExponent q, ?_,
    quantumExponent_ge q, rfl⟩
  rw [abs_le]
  constructor
  · apply le_roundHalfEven
    have := hx2.1
    norm_num at this ⊢
    linarith
  · apply roundHalfEven_le
    have := hx2.2
    norm_num at this ⊢
    linarith

theorem isDouble_toDouble (q : ℚ) : IsDouble (toDouble q) :=
  toDouble_eq_self (isBinary64_toDouble q)

theorem isBinary64_of_int {d : ℚ} (n : ℤ) (hd : d = n) (h : |n| ≤ 2 ^ 53) : IsBinary64 d := by
  rw [hd]
  exact isBinary64_intCast h

theorem isBinary64_natCast {n : ℕ} (h : n ≤ 2 ^ 53) : IsBinary64 (n : ℚ) :=
  isBinary64_of_int (n : ℤ) (by simp) (by rw [abs_of_nonneg (by positivity)]; exact_mod_cast h)

theorem abs_toDouble_sub_le_of_lt_128 {q : ℚ} (h : |q| < 128) :
    |toDouble q - q| ≤ 1 / 2 ^ 47 := by
  have := abs_toDouble_sub_le (q := q) (k := 6) (by norm_num) (by norm_num; exact h)
  norm_num at this ⊢
  exact this

theorem abs_toDouble_sub_le_of_lt_512 {q : ℚ} (h : |q| < 512) :
    |toDouble q - q| ≤ 1 / 2 ^ 45 := by
  have := abs_toDouble_sub_le (q := q) (k := 8) (by norm_num) (by norm_num; exact h)
  norm_num at this ⊢
  exact this

theorem isBinary64_half_int (k : ℤ) (h : |k| ≤ 2 ^ 50) : IsBinary64 ((k : ℚ) + 1 / 2) := by
  have hb : IsBinary64 (((2 * k + 1 : ℤ) : ℚ) / 2 ^ 1) :=
    isBinary64_div_two_pow 1 (by
      have := abs_le.mp h
      rw [abs_le]
      constructor <;> omega) (by norm_num)
  have e : ((2 * k + 1 : ℤ) : ℚ) / 2 ^ 1 = (k : ℚ) + 1 / 2 := by
    push_cast
    ring
  rwa [e] at hb

theorem isBinary64_half : IsBinary64 (1 / 2) := by
  simpa using isBinary64_half_int 0 (by norm_num)

theorem isBinary64_three_halves : IsBinary64 (3 / 2) := by
  have := isBinary64_half_int 1 (by norm_num)
  norm_num at this
  exact this

theorem toDouble_intCast {n : ℤ} (h : |n| ≤ 2 ^ 53) : toDouble (n : ℚ) = n :=
  toDouble_eq_self (isBinary64_intCast h)

/-- The double nearest to 0.82. -/
theorem toDouble_082 : toDouble (82 / 100) = 7385903388887613 / 2 ^ 53 := by
  have := toDouble_eq_of_near (q := 82 / 100) (e := -53) 7385903388887613 (by norm_num)
    (by norm_num [abs_of_pos]) (by norm_num [abs_of_pos]) (by norm_num [abs_of_pos])
  rw [this]
  norm_num

/-- The product `0.82 * 100` is 82. -/
theorem toDouble_082_percent : toDouble (toDouble (82 / 100) * 100) = 82 := by
  rw [toDouble_082]
  have := toDouble_eq_of_near (q := 7385903388887613 / 2 ^ 53 * 100) (e := -46)
    5770237022568448 (by norm_num)
    (by norm_num [abs_of_pos]) (by norm_num [abs_of_pos]) (by norm_num [abs_of_pos])
  rw [this]
  norm_num

/-- The double nearest to 0.015. -/
theorem toDouble_0015 : toDouble (15 / 1000) = 1080863910568919 / 2 ^ 56 := by
  have := toDouble_eq_of_near (q := 15 / 1000) (e := -59) 8646911284551352 (by norm_num)
    (by norm_num [abs_of_pos]) (by norm_num [abs_of_pos]) (by norm_num [abs_of_pos])
  rw [this]
  norm_num

/-- The product `0.015 * 100` is 1.5. -/
theorem toDouble_0015_percent : toDouble (toDouble (15 / 1000) * 100) = 3 / 2 := by
  rw [toDouble_0015]
  have := toDouble_eq_of_near (q := 1080863910568919 / 2 ^ 56 * 100) (e := -52)
    6755399441055744 (by norm_num)
    (by norm_num [abs_of_pos]) (by norm_num [abs_of_pos]) (by norm_num [abs_of_pos])
  rw [this]
  norm_num

/-- The double nearest to 0.575. -/
theorem toDouble_0575 : toDouble (575 / 1000) = 2589569785738035 / 2 ^ 52 := by
  have := toDouble_eq_of_near (q := 575 / 1000) (e := -53) 5179139571476070 (by norm_num)
    (by norm_num [abs_of_pos]) (by norm_num [abs_of_pos]) (by norm_num [abs_of_pos])
  rw [this]
  norm_num

/-- The product `0.575 * 100` is 57.49999999999999. -/
theorem toDouble_0575_percent :
    toDouble (toDouble (575 / 1000) * 100) = 8092405580431359 / 2 ^ 47 := by
  rw [toDouble_0575]
  have := toDouble_eq_of_near (q := 2589569785738035 / 2 ^ 52 * 100) (e := -47)
    8092405580431359 (by norm_num)
    (by norm_num [abs_of_pos]) (by norm_num [abs_of_pos]) (by norm_num [abs_of_pos])
  rw [this]
  norm_num

/-- The double nearest to 0.7. -/
theorem toDouble_07 : toDouble (7 / 10) = 3152519739159347 / 2 ^ 52 := by
  have := toDouble_eq_of_near (q := 7 / 10) (e := -53) 6305039478318694 (by norm_num)
    (by norm_num [abs_of_pos]) (by norm_num [abs_of_pos]) (by norm_num [abs_of_pos])
  rw [this]
  norm_num

/-- The product `0.7 * 100` is 70. -/
theorem toDouble_07_percent : toDouble (toDouble (7 / 10) * 100) = 70 := by
  rw [toDouble_07]
  have := toDouble_eq_of_near (q := 3152519739159347 / 2 ^ 52 * 100) (e := -46)
    4925812092436480 (by norm_num)
    (by norm_num [abs_of_pos]) (by norm_num [abs_of_pos]) (by norm_num [abs_of_pos])
  rw [this]
  norm_num

/-! ## Basic facts -/

theorem roundHalfUp_eq_iff (q : ℚ) (n : ℤ) :
    roundHalfUp q = n ↔ (n : ℚ) - 1 / 2 ≤ q ∧ q < (n : ℚ) + 1 / 2 := by
  unfold roundHalfUp
  rw [Int.floor_eq_iff]
  constructor <;> rintro ⟨h1, h2⟩ <;> constructor <;> linarith

theorem roundHalfUp_intCast (n : ℤ) : roundHalfUp (n : ℚ) = n := by
  rw [roundHalfUp_eq_iff]
  constructor <;> linarith

theorem roundHalfUp_nonneg {q : ℚ} (h : 0 ≤ q) : 0 ≤ roundHalfUp q := by
  unfold roundHalfUp
  exact Int.floor_nonneg.mpr (by linarith)

theorem roundHalfUp_mono {a b : ℚ} (h : a ≤ b) : roundHalfUp a ≤ roundHalfUp b := by
  unfold roundHalfUp
  exact Int.floor_mono (by linarith)

theorem truthy_of_getProp_ne {v : JSVal} {k : String} (h : v.getProp k ≠ undefined) :
    v.truthy = true := by
  cases v <;> simp_all [getProp, truthy]

theorem payloadOf_of_not_truthy {r : JSVal} (h : r.truthy = false) : payloadOf r = r := by
  cases r <;> simp_all [payloadOf, extractData, optProp, getProp, JSVal.or, truthy, isNullish]

theorem isNullish_eq_false_of_truthy {v : JSVal} (h : v.truthy = true) : v.isNullish = false := by
  cases v <;> simp_all [truthy, isNullish]

theorem payloadOf_truthy {r : JSVal} (h : r.truthy = true) : (payloadOf r).truthy = true := by
  unfold payloadOf extractData JSVal.or
  split_ifs <;> simp_all

theorem truthy_of_payloadOf_truthy {r : JSVal} (h : (payloadOf r).truthy = true) :
    r.truthy = true := by
  by_contra hr
  rw [payloadOf_of_not_truthy (by simpa using hr)] at h
  exact hr h

/-! ## The outcomes of `submitAnswer` -/

theorem handleNextQuestion_frame (i : Nat) (s : State) :
    (handleNextQuestion i s).1.answers = s.answers ∧
    (handleNextQuestion i s).1.answerText = s.answerText ∧
    (handleNextQuestion i s).1.isLoading = s.isLoading ∧
    (handleNextQuestion i s).1.sessionId = s.sessionId := by
  unfold handleNextQuestion
  split_ifs <;>
    simp [setTimeRemaining, setCurrentQuestion, setQuestionIndex, clearIntervalRef]

theorem handleNextQuestion_cursor (i : Nat) (s t : State)
    (h : t.intervalRef = s.intervalRef) :
    (handleNextQuestion i t).1.questionIndex =
      (if i < mockQuestions.length - 1 then i + 1 else t.questionIndex) ∧
    (handleNextQuestion i t).1.currentQuestion = (handleNextQuestion i s).1.currentQuestion ∧
    (handleNextQuestion i t).1.timeRemaining = (handleNextQuestion i s).1.timeRemaining ∧
    (handleNextQuestion i t).2 = (handleNextQuestion i s).2 := by
  unfold handleNextQuestion
  split_ifs <;>
    simp_all [setTimeRemaining, setCurrentQuestion, setQuestionIndex, clearIntervalRef]

theorem ensureSessionId_frame (now : Nat) (s : State) :
    (ensureSessionId now s).answers = s.answers ∧
    (ensureSessionId now s).answerText = s.answerText ∧
    (ensureSessionId now s).questionIndex = s.questionIndex ∧
    (ensureSessionId now s).currentQuestion = s.currentQuestion ∧
    (ensureSessionId now s).timeRemaining = s.timeRemaining ∧
    (ensureSessionId now s).intervalRef = s.intervalRef ∧
    (ensureSessionId now s).clockRunning = s.clockRunning := by
  unfold ensureSessionId
  split_ifs <;> simp [setSessionId]

theorem truthy_str (x : String) : (JSVal.str x).truthy = decide (x ≠ "") := rfl

theorem submitAnswer_rejected (api : SubmitApi) (now : Nat) (s : State)
    (h : jsTrim s.answerText = "" ∨ s.currentQuestion = none) :
    submitAnswer api now s = (s, [Effect.alert AlertMessage.provideAnswer]) := by
  unfold submitAnswer
  rcases h with h | h
  · simp [truthy_str, h]
  · simp [h]

theorem submitAnswer_accepted_eq {api : SubmitApi} {now : Nat} {s : State} {q : Question}
    {r : JSVal} (h : CallReturns api now s q r) (hr : r.truthy = true) :
    (submitAnswer api now s).1 = acceptedState now s q r := by
  obtain ⟨hq, ht, hapi⟩ := h
  have hp := payloadOf_truthy hr
  have hn := isNullish_eq_false_of_truthy hp
  have hacc : (((r.getProp "success").or (r.getProp "data")).or (payloadOf r)).truthy = true := by
    unfold JSVal.or
    split_ifs <;> simp_all
  unfold submitAnswer
  simp [hq, ht, hapi, hn, hacc, truthy_str, acceptedState, recordedState, newRecord]

theorem submitAnswer_throws_eq {api : SubmitApi} {now : Nat} {s : State} {q : Question}
    {e : JSVal} (h : CallThrows api now s q e) :
    submitAnswer api now s =
      (failedState now s,
        Effect.submitCandidateAnswer (activeSessionId now s) s.answerText q.id ::
          catchEffects e) := by
  obtain ⟨hq, ht, hapi⟩ := h
  unfold submitAnswer
  simp [hq, ht, hapi, truthy_str, failedState]

theorem submitAnswer_nullish_eq {api : SubmitApi} {now : Nat} {s : State} {q : Question}
    {r : JSVal} (h : CallReturns api now s q r) (hr : r.isNullish = true) :
    submitAnswer api now s =
      (failedState now s,
        [Effect.submitCandidateAnswer (activeSessionId now s) s.answerText q.id,
          Effect.alert (AlertMessage.errorSubmitting none)]) := by
  obtain ⟨hq, ht, hapi⟩ := h
  have hf : r.truthy = false := by cases r <;> simp_all [truthy, isNullish]
  have hp : (payloadOf r).isNullish = true := by rw [payloadOf_of_not_truthy hf]; exact hr
  unfold submitAnswer
  simp [hq, ht, hapi, truthy_str, failedState, hp]

theorem submitAnswer_falsy_eq {api : SubmitApi} {now : Nat} {s : State} {q : Question}
    {r : JSVal} (h : CallReturns api now s q r) (hr : r.truthy = false)
    (hn : r.isNullish = false) :
    submitAnswer api now s =
      (failedState now s,
        [Effect.submitCandidateAnswer (activeSessionId now s) s.answerText q.id,
          Effect.alert AlertMessage.failedToSubmit]) := by
  obtain ⟨hq, ht, hapi⟩ := h
  have hp : payloadOf r = r := payloadOf_of_not_truthy hr
  have hacc : (((r.getProp "success").or (r.getProp "data")).or r).truthy = false := by
    cases r <;> simp_all [truthy, isNullish, getProp, JSVal.or]
  unfold submitAnswer
  simp [hq, ht, hapi, truthy_str, failedState, hp, hn, hacc]

theorem failedState_frame (now : Nat) (s : State) :
    (failedState now s).answers = s.answers ∧
    (failedState now s).answerText = s.answerText ∧
    (failedState now s).questionIndex = s.questionIndex ∧
    (failedState now s).currentQuestion = s.currentQuestion ∧
    (failedState now s).timeRemaining = s.timeRemaining ∧
    (failedState now s).clockRunning = s.clockRunning ∧
    (failedState now s).isLoading = false := by
  obtain ⟨e1, e2, e3, e4, e5, e6, e7⟩ := ensureSessionId_frame now s
  simp [failedState, setIsLoading, e1, e2, e3, e4, e5, e7]

theorem recordedState_fields (now : Nat) (s : State) (q : Question) (r : JSVal) :
    (recordedState now s q r).answers = s.answers ++ [newRecord s q r] ∧
    (recordedState now s q r).answerText = "" ∧
    (recordedState now s q r).questionIndex = s.questionIndex ∧
    (recordedState now s q r).intervalRef = s.intervalRef := by
  obtain ⟨e1, e2, e3, e4, e5, e6, e7⟩ := ensureSessionId_frame now s
  simp [recordedState, setAnswerText, setAnswers, setIsLoading, e1, e3, e6]

theorem acceptedState_fields (now : Nat) (s : State) (q : Question) (r : JSVal) :
    (acceptedState now s q r).answers = s.answers ++ [newRecord s q r] ∧
    (acceptedState now s q r).answerText = "" ∧
    (acceptedState now s q r).isLoading = false ∧
    (acceptedState now s q r).questionIndex =
      (handleNextQuestion s.questionIndex s).1.questionIndex ∧
    (acceptedState now s q r).currentQuestion =
      (handleNextQuestion s.questionIndex s).1.currentQuestion ∧
    (acceptedState now s q r).timeRemaining =
      (handleNextQuestion s.questionIndex s).1.timeRemaining := by
  obtain ⟨r1, r2, r3, r4⟩ := recordedState_fields now s q r
  obtain ⟨c1, c2, c3, -⟩ :=
    handleNextQuestion_cursor s.questionIndex s (recordedState now s q r) r4
  obtain ⟨d1, -, -, -⟩ := handleNextQuestion_cursor s.questionIndex s s rfl
  obtain ⟨f1, f2, -, -⟩ := handleNextQuestion_frame s.questionIndex (recordedState now s q r)
  refine ⟨?_, ?_, rfl, ?_, ?_, ?_⟩
  · exact f1.trans r1
  · exact f2.trans r2
  · exact c1.trans (by rw [r3, d1])
  · exact c2
  · exact c3

/-! ## The extraction chain as a priority list -/

theorem getProp_of_not_truthy {v : JSVal} (k : String) (h : v.truthy = false) :
    v.getProp k = undefined := by
  cases v <;> simp_all [getProp, truthy]

/-- The `if`/`else if` chain of lines 814-858 in terms of the three values it looks for. -/
theorem extractScore_eq (data : JSVal) :
    extractScore data =
      if (nestedOverall data).isNullish = false then toPercent (nestedOverall data)
      else if (flatScore data).isNullish = false then (flatScore data).toNumber
      else if (nestedBreakdown data).truthy = true then
        (if (breakdownScores (nestedBreakdown data)).length > 0 then
          averageScore (breakdownScores (nestedBreakdown data)) else some 0)
      else some 0 := by
  have hu : ∀ k, undefined.getProp k = undefined := fun _ => rfl
  have hn : undefined.isNullish = true := rfl
  have ht : undefined.truthy = false := rfl
  unfold extractScore nestedOverall flatScore nestedBreakdown
  cases hd : data.truthy
  · simp [getProp_of_not_truthy _ hd, hu, hn, ht]
  · cases ha : (data.getProp "answer_feedback").truthy
    · simp [getProp_of_not_truthy _ ha, hu, hn, ht]
    · cases hb : ((data.getProp "answer_feedback").getProp "score_breakdown").truthy
      · simp [getProp_of_not_truthy _ hb, hn]
      · simp

theorem ne_undefined_of_truthy {v : JSVal} (h : v.truthy = true) : v ≠ undefined := by
  rintro rfl
  simp [truthy] at h

theorem truthy_of_nestedBreakdown {d : JSVal} (h : (nestedBreakdown d).truthy = true) :
    d.truthy = true :=
  truthy_of_getProp_ne (ne_undefined_of_truthy (truthy_of_getProp_ne (ne_undefined_of_truthy h)))

theorem truthy_of_nestedOverall {d : JSVal} (h : (nestedOverall d).isNullish = false) :
    d.truthy = true := by
  apply truthy_of_nestedBreakdown
  apply truthy_of_getProp_ne (k := "overall_score")
  intro hu
  unfold nestedOverall at h
  rw [hu] at h
  simp [isNullish] at h

theorem truthy_of_flatScore {d : JSVal} (h : (flatScore d).isNullish = false) :
    d.truthy = true := by
  apply truthy_of_getProp_ne (k := "score")
  intro hu
  unfold flatScore at h
  rw [hu] at h
  simp [isNullish] at h

theorem answeringState_callReturns (r : JSVal) :
    CallReturns (apiReturning r) 0 answeringState firstQuestion r := by
  refine ⟨rfl, ?_, rfl⟩
  decide

/-! ## Scores of numeric payloads -/

theorem accepted_iff_truthy (r : JSVal) : Accepted r ↔ r.truthy = true := by
  constructor
  · rintro ⟨-, h2⟩
    by_contra hr
    have hf : r.truthy = false := by simpa using hr
    rw [payloadOf_of_not_truthy hf] at h2
    cases r <;> simp_all [truthy, getProp, JSVal.or]
  · intro hr
    have hp := payloadOf_truthy hr
    refine ⟨isNullish_eq_false_of_truthy hp, ?_⟩
    unfold JSVal.or
    split_ifs <;> simp_all

theorem submitAnswer_answers_of_truthy {api : SubmitApi} {now : Nat} {s : State}
    {q : Question} {r : JSVal} (h : CallReturns api now s q r) (hr : r.truthy = true) :
    (submitAnswer api now s).1.answers = s.answers ++ [newRecord s q r] := by
  rw [submitAnswer_accepted_eq h hr]
  exact (acceptedState_fields now s q r).1

theorem mathMax0_mathRound_some (x : ℚ) :
    mathMax0 (mathRound (some x)) = some (((max 0 (roundHalfUp x) : ℤ)) : ℚ) := by
  simp [mathMax0, mathRound]

theorem toPercent_num (q : ℚ) : toPercent (num q) = some (percentOf q) := by
  unfold toPercent percentOf
  simp only [toNumber, numMul]
  split_ifs <;> rfl

theorem isBinary64_zero : IsBinary64 0 :=
  isBinary64_of_int 0 (by norm_num) (by norm_num)

theorem isBinary64_hundred : IsBinary64 100 :=
  isBinary64_of_int 100 (by norm_num) (by norm_num)

theorem percentOf_le_hundred {q : ℚ} (h : q ≤ 100) : percentOf q ≤ 100 := by
  unfold percentOf
  split_ifs
  · exact toDouble_le isBinary64_hundred (by linarith)
  · exact h

theorem foldl_numAdd_some (l : List ℚ) (a : ℚ) :
    (l.map some).foldl numAdd (some a) = some (floatSum l a) := by
  induction l generalizing a with
  | nil => rfl
  | cons x xs ih =>
    simp only [List.map_cons, List.foldl_cons, numAdd]
    rw [ih]
    rfl

theorem averageScore_map_num (l : List ℚ) (hl : l ≠ []) :
    averageScore (l.map num) = some (floatMean l) := by
  unfold averageScore floatMean
  have h1 : (l.map num).map toPercent = (l.map percentOf).map some := by
    simp [List.map_map, Function.comp_def, toPercent_num]
  have h2 : ((l.map num).length : ℚ) ≠ 0 := by
    rw [List.length_map]
    exact_mod_cast (List.length_pos.mpr hl).ne'
  rw [List.length_map] at h2
  rw [h1, foldl_numAdd_some]
  simp only [numDiv, List.length_map]
  rw [if_neg h2]

theorem floatSum_cons (x : ℚ) (xs : List ℚ) (a : ℚ) :
    floatSum (x :: xs) a = floatSum xs (toDouble (a + x)) := rfl

theorem floatSum_le (l : List ℚ) (a : ℚ) (j : ℕ) (ha : a ≤ 100 * (j : ℚ))
    (hj : j + l.length ≤ 1000) (hl : ∀ x ∈ l, x ≤ 100) :
    floatSum l a ≤ 100 * ((j + l.length : ℕ) : ℚ) := by
  induction l generalizing a j with
  | nil => simpa [floatSum] using ha
  | cons x xs ih =>
    have hx : x ≤ 100 := hl x (by simp)
    have hxs : ∀ y ∈ xs, y ≤ 100 := fun y hy => hl y (by simp [hy])
    simp only [List.length_cons] at hj
    have hb : IsBinary64 (100 * ((j + 1 : ℕ) : ℚ)) :=
      isBinary64_of_int (100 * ((j + 1 : ℕ) : ℤ)) (by push_cast; ring)
        (by rw [abs_of_nonneg (by positivity)]; norm_num; omega)
    have h1 : toDouble (a + x) ≤ 100 * ((j + 1 : ℕ) : ℚ) :=
      toDouble_le hb (by push_cast; linarith)
    have := ih (toDouble (a + x)) (j + 1) h1 (by omega) hxs
    rw [floatSum_cons]
    have e : j + 1 + xs.length = j + (x :: xs).length := by
      simp only [List.length_cons]
      omega
    rwa [e] at this

theorem floatMean_le_hundred {l : List ℚ} (hl : l ≠ []) (hlen : l.length ≤ 1000)
    (h : ∀ x ∈ l, x ≤ 100) : floatMean l ≤ 100 := by
  unfold floatMean
  have hpos : (0 : ℚ) < (l.length : ℚ) := by
    exact_mod_cast List.length_pos.mpr hl
  have hs := floatSum_le (l.map percentOf) 0 0 (by norm_num) (by simpa using hlen)
    (by
      intro x hx
      rw [List.mem_map] at hx
      obtain ⟨c, hc, rfl⟩ := hx
      exact percentOf_le_hundred (h c hc))
  simp only [List.length_map, Nat.zero_add] at hs
  apply toDouble_le isBinary64_hundred
  rw [div_le_iff₀ hpos]
  exact hs

theorem presentNumbers_length_le (vals : List JSVal) :
    (presentNumbers vals).length ≤ vals.length :=
  List.length_filterMap_le _ _

theorem present_length_le_five (bd : JSVal) :
    (presentNumbers (componentValues bd)).length ≤ 5 := by
  have := presentNumbers_length_le (componentValues bd)
  simpa [componentValues, componentNames] using this

theorem filter_present_eq (vals : List JSVal) (h : vals.all isNumberOrAbsent = true) :
    vals.filter (fun v => !v.isNullish) = (presentNumbers vals).map num := by
  induction vals with
  | nil => rfl
  | cons v vs ih =>
    simp only [List.all_cons, Bool.and_eq_true] at h
    obtain ⟨hv, hvs⟩ := h
    cases v <;>
      simp_all [isNumberOrAbsent, isNullish, presentNumbers, List.filter_cons,
        List.filterMap_cons]

theorem breakdownScores_eq (bd : JSVal) (h : (componentValues bd).all isNumberOrAbsent = true) :
    breakdownScores bd = (presentNumbers (componentValues bd)).map num :=
  filter_present_eq _ h

theorem roundHalfUp_zero : roundHalfUp 0 = 0 := by
  have := roundHalfUp_intCast 0
  simpa using this

theorem recordScore_zero : mathMax0 (mathRound (some 0)) = some 0 := by
  rw [mathMax0_mathRound_some, roundHalfUp_zero]
  simp

theorem presentNumbers_of_not_truthy {bd : JSVal} (h : bd.truthy = false) :
    presentNumbers (componentValues bd) = [] := by
  simp [componentValues, componentNames, getProp_of_not_truthy _ h, presentNumbers]

/-- The record score on the component path (lines 832-850 and 866). -/
theorem recordScore_components {d : JSVal} (hn : (nestedOverall d).isNullish = true)
    (hf : (flatScore d).isNullish = true)
    (hc : (componentValues (nestedBreakdown d)).all isNumberOrAbsent = true) :
    recordScore d =
      some (if presentNumbers (componentValues (nestedBreakdown d)) = [] then 0
        else ((max 0 (roundHalfUp (floatMean (presentNumbers
          (componentValues (nestedBreakdown d))))) : ℤ) : ℚ)) := by
  unfold recordScore
  rw [extractScore_eq]
  simp only [hn, hf, Bool.true_eq_false, if_false]
  cases hb : (nestedBreakdown d).truthy
  · simp only [Bool.false_eq_true, if_false, presentNumbers_of_not_truthy hb, if_true]
    exact recordScore_zero
  · simp only [if_true]
    rw [breakdownScores_eq _ hc]
    by_cases he : presentNumbers (componentValues (nestedBreakdown d)) = []
    · simp only [he, List.map_nil, List.length_nil, gt_iff_lt, lt_self_iff_false, if_false,
        if_true]
      exact recordScore_zero
    · have hlen : (List.map num (presentNumbers (componentValues (nestedBreakdown d)))).length > 0 := by
        rw [List.length_map]
        exact List.length_pos.mpr he
      simp only [hlen, if_true, he, if_false]
      rw [averageScore_map_num _ he, mathMax0_mathRound_some]

/-- The record score on the nested path (lines 814-825 and 866). -/
theorem recordScore_nested {d : JSVal} {v : ℚ} (hv : nestedOverall d = num v) :
    recordScore d = some (((max 0 (roundHalfUp (percentOf v)) : ℤ)) : ℚ) := by
  have hnn : (nestedOverall d).isNullish = false := by rw [hv]; rfl
  unfold recordScore
  rw [extractScore_eq, if_pos hnn, hv, toPercent_num, mathMax0_mathRound_some]

/-- The record score on the flat path (lines 827-830 and 866). -/
theorem recordScore_flat {d : JSVal} {v : ℚ} (hn : (nestedOverall d).isNullish = true)
    (hf : flatScore d = num v) :
    recordScore d = some (((max 0 (roundHalfUp v) : ℤ)) : ℚ) := by
  have hff : (flatScore d).isNullish = false := by rw [hf]; rfl
  unfold recordScore
  rw [extractScore_eq, if_neg (by simp [hn]), if_pos hff, hf]
  exact mathMax0_mathRound_some v

theorem eq_num_of_isNumberOrAbsent {v : JSVal} (h : isNumberOrAbsent v = true)
    (hn : v.isNullish = false) : ∃ q, v = num q := by
  cases v <;> simp_all [isNumberOrAbsent, isNullish]

theorem mem_of_mem_presentNumbers {vals : List JSVal} {c : ℚ}
    (h : c ∈ presentNumbers vals) : num c ∈ vals := by
  unfold presentNumbers at h
  rw [List.mem_filterMap] at h
  obtain ⟨v, hv, hc⟩ := h
  cases v <;> simp_all

theorem roundHalfUp_le_of_le {x : ℚ} {b : ℤ} (h : x ≤ b) : roundHalfUp x ≤ b := by
  have := roundHalfUp_mono h
  rwa [roundHalfUp_intCast] at this

/-- The score of a numeric payload is a non-negative integer, and it is at most 100 when no
score field exceeds 100. -/
theorem recordScore_numeric {d : JSVal} (h : numericScores d = true) :
    ∃ n : ℤ, recordScore d = some (n : ℚ) ∧ 0 ≤ n ∧ (scoresAtMost 100 d = true → n ≤ 100) := by
  simp only [numericScores, scoreFields, List.all_cons, Bool.and_eq_true] at h
  obtain ⟨h1, h2, h3⟩ := h
  cases hn : (nestedOverall d).isNullish
  · obtain ⟨v, hv⟩ := eq_num_of_isNumberOrAbsent h1 hn
    refine ⟨_, recordScore_nested hv, le_max_left _ _, ?_⟩
    intro hb
    simp only [scoresAtMost, scoreFields, List.all_cons, Bool.and_eq_true, hv,
      decide_eq_true_eq] at hb
    exact max_le (by norm_num)
      (roundHalfUp_le_of_le (by exact_mod_cast percentOf_le_hundred hb.1))
  · cases hf : (flatScore d).isNullish
    · obtain ⟨v, hv⟩ := eq_num_of_isNumberOrAbsent h2 hf
      refine ⟨_, recordScore_flat hn hv, le_max_left _ _, ?_⟩
      intro hb
      simp only [scoresAtMost, scoreFields, List.all_cons, Bool.and_eq_true, hv,
        decide_eq_true_eq] at hb
      exact max_le (by norm_num) (roundHalfUp_le_of_le (by exact_mod_cast hb.2.1))
    · rw [recordScore_components hn hf h3]
      by_cases he : presentNumbers (componentValues (nestedBreakdown d)) = []
      · exact ⟨0, by simp [he], le_rfl, fun _ => by norm_num⟩
      · refine ⟨_, by rw [if_neg he], le_max_left _ _, ?_⟩
        intro hb
        simp only [scoresAtMost, scoreFields, List.all_cons, Bool.and_eq_true] at hb
        obtain ⟨-, -, hb3⟩ := hb
        rw [List.all_eq_true] at hb3
        refine max_le (by norm_num) (roundHalfUp_le_of_le ?_)
        have hm : floatMean (presentNumbers (componentValues (nestedBreakdown d))) ≤ 100 := by
          apply floatMean_le_hundred he
            (le_trans (present_length_le_five _) (by norm_num))
          intro c hc
          have := hb3 _ (mem_of_mem_presentNumbers hc)
          simpa only [decide_eq_true_eq] using this
        exact_mod_cast hm

/-! ## C1 -/

theorem roundHalfUp_eq_of_close {a b ε : ℚ} (h : |a - b| ≤ ε)
    (hk : ∀ k : ℤ, ε < |b - ((k : ℚ) + 1 / 2)|) : roundHalfUp a = roundHalfUp b := by
  rw [roundHalfUp_eq_iff]
  obtain ⟨h1, h2⟩ := (roundHalfUp_eq_iff b (roundHalfUp b)).mp rfl
  obtain ⟨h3, h4⟩ := abs_le.mp h
  have k1 := hk (roundHalfUp b - 1)
  have k2 := hk (roundHalfUp b)
  push_cast at k1
  rw [abs_of_nonneg (by linarith)] at k1
  rw [abs_of_neg (by linarith)] at k2
  constructor <;> linarith

theorem roundHalfUp_abs_sub_le_one {a b : ℚ} (h : |a - b| ≤ 1) :
    |roundHalfUp a - roundHalfUp b| ≤ 1 := by
  obtain ⟨h1, h2⟩ := abs_le.mp h
  have u : roundHalfUp a ≤ roundHalfUp (b + 1) := roundHalfUp_mono (by linarith)
  have l : roundHalfUp (b - 1) ≤ roundHalfUp a := roundHalfUp_mono (by linarith)
  have e1 : roundHalfUp (b + 1) = roundHalfUp b + 1 := by
    unfold roundHalfUp
    rw [show b + 1 + 1 / 2 = b + 1 / 2 + 1 by ring, Int.floor_add_one]
  have e2 : roundHalfUp (b - 1) = roundHalfUp b - 1 := by
    unfold roundHalfUp
    rw [show b - 1 + 1 / 2 = b + 1 / 2 - 1 by ring, Int.floor_sub_one]
  rw [e1] at u
  rw [e2] at l
  rw [abs_le]
  constructor <;> omega

theorem payloadOf_overallScoreResponse (v : JSVal) :
    payloadOf (overallScoreResponse v) = overallScoreResponse v := by
  simp [overallScoreResponse, payloadOf, extractData, optProp, getProp, JSVal.or, truthy,
    isNullish, List.lookup]

theorem nestedOverall_overallScoreResponse (v : JSVal) :
    nestedOverall (overallScoreResponse v) = v := by
  simp [overallScoreResponse, nestedOverall, nestedBreakdown, getProp, List.lookup]

theorem overallScoreResponse_scores (v : ℚ) :
    (submitAnswer (apiReturning (overallScoreResponse (num v))) 0 answeringState).1.answers.map
        (fun rec => rec.score) =
      [some (((max 0 (roundHalfUp (percentOf v)) : ℤ)) : ℚ)] := by
  have hs : recordScore (payloadOf (overallScoreResponse (num v))) =
      some (((max 0 (roundHalfUp (percentOf v)) : ℤ)) : ℚ) := by
    rw [payloadOf_overallScoreResponse]
    exact recordScore_nested (nestedOverall_overallScoreResponse _)
  rw [submitAnswer_answers_of_truthy
    (answeringState_callReturns (overallScoreResponse (num v))) rfl]
  simp only [newRecord, hs]
  rfl

/-- C1 (counterexample): for the overall score 0.015 the product `0.015 * 100` is the double
1.5 and the record's score is 2, while the exact product of that number by 100 lies below 1.5
and rounds to 1; for the overall score 0.575 the product is the double 57.49999999999999 and
the record's score is 57, while `round(0.575 * 100)` is 58. -/
theorem submitAnswer_rounds_double_product :
    0 < toDouble (15 / 1000) ∧ toDouble (15 / 1000) ≤ 1 ∧
    (submitAnswer (apiReturning (overallScoreResponse (numberLiteral (15 / 1000)))) 0
        answeringState).1.answers.map (fun rec => rec.score) = [some 2] ∧
    roundHalfUp (toDouble (15 / 1000) * 100) = 1 ∧
    (submitAnswer (apiReturning (overallScoreResponse (numberLiteral (575 / 1000)))) 0
        answeringState).1.answers.map (fun rec => rec.score) = [some 57] ∧
    roundHalfUp (575 / 1000 * 100) = 58 := by
  have a1 : toDouble (15 / 1000) ≤ 1 := by rw [toDouble_0015]; norm_num
  have a2 : toDouble (575 / 1000) ≤ 1 := by rw [toDouble_0575]; norm_num
  refine ⟨by rw [toDouble_0015]; norm_num, a1, ?_, ?_, ?_, ?_⟩
  · unfold numberLiteral
    rw [overallScoreResponse_scores]
    have : roundHalfUp (percentOf (toDouble (15 / 1000))) = 2 := by
      unfold percentOf
      rw [if_pos a1, toDouble_0015_percent, roundHalfUp_eq_iff]
      norm_num
    rw [this]
    norm_num
  · rw [toDouble_0015, roundHalfUp_eq_iff]
    norm_num
  · unfold numberLiteral
    rw [overallScoreResponse_scores]
    have : roundHalfUp (percentOf (toDouble (575 / 1000))) = 57 := by
      unfold percentOf
      rw [if_pos a2, toDouble_0575_percent, roundHalfUp_eq_iff]
      norm_num
    rw [this]
    norm_num
  · rw [roundHalfUp_eq_iff]
    norm_num

/-- C1 (amended): when the payload carries the number `v` as
`answer_feedback.score_breakdown.overall_score`, the submission appends one record.  For
`0 < v <= 1` its score is `Math.round` of the double product `v * 100`; that product is within
`2 ^ (-47)` of the exact one, so the score differs from `round(v * 100)` by at most one, and
is `round(v * 100)` whenever `v * 100` is farther than `2 ^ (-47)` from every half-integer.
For `1 < v <= 100` the score is `round(v)`. -/
theorem submitAnswer_nested_overall_score (api : SubmitApi) (now : Nat) (s : State)
    (q : Question) (r : JSVal) (v : ℚ) (h : CallReturns api now s q r)
    (hv : nestedOverall (payloadOf r) = num v) (hd : IsDouble v) :
    ∃ rec : AnswerRecord,
      (submitAnswer api now s).1.answers = s.answers ++ [rec] ∧
      (0 < v ∧ v ≤ 1 →
        rec.score = some ((roundHalfUp (toDouble (v * 100)) : ℤ) : ℚ) ∧
        |toDouble (v * 100) - v * 100| ≤ 1 / 2 ^ 47 ∧
        |roundHalfUp (toDouble (v * 100)) - roundHalfUp (v * 100)| ≤ 1 ∧
        ((∀ k : ℤ, 1 / 2 ^ 47 < |v * 100 - ((k : ℚ) + 1 / 2)|) →
          rec.score = some ((roundHalfUp (v * 100) : ℤ) : ℚ))) ∧
      (1 < v ∧ v ≤ 100 → rec.score = some ((roundHalfUp v : ℤ) : ℚ)) := by
  have _ := hd
  have hnn : (nestedOverall (payloadOf r)).isNullish = false := by rw [hv]; rfl
  have hr : r.truthy = true := truthy_of_payloadOf_truthy (truthy_of_nestedOverall hnn)
  have hscore : (newRecord s q r).score =
      some (((max 0 (roundHalfUp (percentOf v)) : ℤ)) : ℚ) := recordScore_nested hv
  refine ⟨newRecord s q r, submitAnswer_answers_of_truthy h hr, ?_, ?_⟩
  · rintro ⟨h0, h1⟩
    have hp : percentOf v = toDouble (v * 100) := by
      unfold percentOf
      rw [if_pos h1]
    have hnonneg : 0 ≤ toDouble (v * 100) := le_toDouble isBinary64_zero (by positivity)
    have herr : |toDouble (v * 100) - v * 100| ≤ 1 / 2 ^ 47 :=
      abs_toDouble_sub_le_of_lt_128 (by rw [abs_of_nonneg (by positivity)]; linarith)
    have hs : (newRecord s q r).score =
        some ((roundHalfUp (toDouble (v * 100)) : ℤ) : ℚ) := by
      rw [hscore, hp, max_eq_right (roundHalfUp_nonneg hnonneg)]
    refine ⟨hs, herr, ?_, ?_⟩
    · exact roundHalfUp_abs_sub_le_one (le_trans herr (by norm_num))
    · intro hk
      rw [hs, roundHalfUp_eq_of_close herr hk]
  · rintro ⟨h1, -⟩
    have hp : percentOf v = v := by
      unfold percentOf
      rw [if_neg (not_le.mpr h1)]
    rw [hscore, hp, max_eq_right (roundHalfUp_nonneg (by linarith))]

/-- C1 (amended), scenario 3: the response `{data: {answer_feedback: {score_breakdown:
{overall_score: 0.82}}}}` yields a record with score 82. -/
theorem submitAnswer_nested_overall_score_witness :
    ∃ rec : AnswerRecord,
      (submitAnswer (apiReturning scenario3Response) 0 answeringState).1.answers =
        answeringState.answers ++ [rec] ∧
      rec.score = some 82 := by
  obtain ⟨rec, h1, h2, -⟩ :=
    submitAnswer_nested_overall_score (apiReturning scenario3Response) 0 answeringState
      firstQuestion scenario3Response (toDouble (82 / 100))
      (answeringState_callReturns scenario3Response)
      (by simp [scenario3Response, nestedOverall, nestedBreakdown, payloadOf, extractData,
        optProp, getProp, JSVal.or, truthy, isNullish, List.lookup, numberLiteral])
      (isDouble_toDouble _)
  refine ⟨rec, h1, ?_⟩
  rw [(h2 ⟨by rw [toDouble_082]; norm_num, by rw [toDouble_082]; norm_num⟩).1,
    toDouble_082_percent]
  have : roundHalfUp 82 = 82 := by
    rw [roundHalfUp_eq_iff]
    norm_num
  rw [this]
  norm_num

/-! ## C2 -/

/-- C2 (the code departs from the claim): for the response `{score: 0.82}`, with no nested
overall score, the flat path stores `Math.round(0.82) = 1`; the fraction rule of the claim
asks for `round(0.82 * 100) = 82`. -/
theorem submitAnswer_flat_fraction_unscaled :
    (submitAnswer (apiReturning flatFractionResponse) 0 answeringState).1.answers.map
        (fun rec => rec.score) = [some 1] ∧
      roundHalfUp (82 / 100 * 100) = 82 := by
  have hp : payloadOf flatFractionResponse = flatFractionResponse := by
    simp [flatFractionResponse, payloadOf, extractData, optProp, getProp, JSVal.or, truthy,
      isNullish, List.lookup]
  have hs : recordScore (payloadOf flatFractionResponse) = some 1 := by
    rw [hp, recordScore_flat (d := flatFractionResponse) (v := toDouble (82 / 100))
      (by simp [flatFractionResponse, nestedOverall, nestedBreakdown, getProp, List.lookup,
        isNullish])
      (by simp [flatFractionResponse, flatScore, getProp, List.lookup, numberLiteral])]
    have : roundHalfUp (toDouble (82 / 100)) = 1 := by
      rw [roundHalfUp_eq_iff, toDouble_082]
      norm_num
    rw [this]
    norm_num
  constructor
  · rw [submitAnswer_answers_of_truthy (answeringState_callReturns flatFractionResponse) rfl]
    simp [answeringState, initialState, newRecord, hs]
  · rw [roundHalfUp_eq_iff]
    norm_num

/-! ## C3 -/

/-- Every path of `submitAnswer` either leaves the answers list alone or appends the record
built from a response the collaborator returned. -/
theorem submitAnswer_answers_cases (api : SubmitApi) (now : Nat) (s : State) :
    (submitAnswer api now s).1.answers = s.answers ∨
      ∃ q r, CallReturns api now s q r ∧
        (submitAnswer api now s).1.answers = s.answers ++ [newRecord s q r] := by
  by_cases ht : jsTrim s.answerText = ""
  · left
    rw [submitAnswer_rejected api now s (Or.inl ht)]
  · cases hq : s.currentQuestion with
    | none =>
      left
      rw [submitAnswer_rejected api now s (Or.inr hq)]
    | some q =>
      cases hapi : api (activeSessionId now s) s.answerText q.id with
      | throws e =>
        left
        rw [submitAnswer_throws_eq ⟨hq, ht, hapi⟩]
        exact (failedState_frame now s).1
      | returns r =>
        have hc : CallReturns api now s q r := ⟨hq, ht, hapi⟩
        cases hr : r.truthy
        · left
          cases hn : r.isNullish
          · rw [submitAnswer_falsy_eq hc hr hn]
            exact (failedState_frame now s).1
          · rw [submitAnswer_nullish_eq hc hn]
            exact (failedState_frame now s).1
        · right
          exact ⟨q, r, hc, submitAnswer_answers_of_truthy hc hr⟩

/-- A property of the scores of all accepted payloads holds of every record of a reachable
answers list. -/
theorem reachable_scores {ok : JSVal → Bool} {P : JSNum → Prop}
    (hP : ∀ d, ok d = true → P (recordScore d)) {s : State} (h : Reachable ok s) :
    ∀ rec ∈ s.answers, P rec.score := by
  induction h with
  | start s h0 =>
    intro rec hrec
    rw [h0] at hrec
    cases hrec
  | other s t _ ht ih =>
    rw [ht]
    exact ih
  | submit api now s _ hok ih =>
    rcases submitAnswer_answers_cases api now s with h1 | ⟨q, r, hc, h1⟩
    · rw [h1]
      exact ih
    · rw [h1]
      intro rec hrec
      rw [List.mem_append, List.mem_singleton] at hrec
      rcases hrec with hrec | rfl
      · exact ih rec hrec
      · exact hP _ (hok _ _ _ r hc.2.2)

/-- C3 (counterexample): the numeric response `{score: 150}` appends a record whose score is
150, outside `[0,100]`. -/
theorem submitAnswer_score_not_clamped_above :
    numericScores (payloadOf flatOver100Response) = true ∧
    ¬ ∀ rec ∈ (submitAnswer (apiReturning flatOver100Response) 0 answeringState).1.answers,
      ∃ n : ℤ, rec.score = some (n : ℚ) ∧ 0 ≤ n ∧ n ≤ 100 := by
  have hp : payloadOf flatOver100Response = flatOver100Response := by
    simp [flatOver100Response, payloadOf, extractData, optProp, getProp, JSVal.or, truthy,
      isNullish, List.lookup]
  have hs : recordScore (payloadOf flatOver100Response) = some 150 := by
    rw [hp, recordScore_flat (d := flatOver100Response) (v := 150)
      (by simp [flatOver100Response, nestedOverall, nestedBreakdown, getProp, List.lookup,
        isNullish])
      (by simp [flatOver100Response, flatScore, getProp, List.lookup])]
    have : roundHalfUp 150 = 150 := by
      rw [roundHalfUp_eq_iff]
      norm_num
    rw [this]
    norm_num
  constructor
  · rw [hp]
    simp [numericScores, scoreFields, componentValues, componentNames, nestedOverall,
      nestedBreakdown, flatScore, flatOver100Response, getProp, List.lookup, isNumberOrAbsent]
  · intro h
    rw [submitAnswer_answers_of_truthy (answeringState_callReturns flatOver100Response) rfl] at h
    obtain ⟨n, hn, -, h100⟩ := h (newRecord answeringState firstQuestion flatOver100Response)
      (by simp)
    simp only [newRecord, hs, Option.some.injEq] at hn
    have : (n : ℚ) ≤ 100 := by exact_mod_cast h100
    rw [← hn] at this
    norm_num at this

/-- C3 (amended): in every state reachable through numeric scoring payloads each record has
an integer score `>= 0`; the score is bounded by 100 as well when no score field of any
payload exceeded 100, and is not clamped above otherwise. -/
theorem answers_scores_nonneg_integers (s : State) (h : Reachable numericScores s) :
    (∀ rec ∈ s.answers, ∃ n : ℤ, rec.score = some (n : ℚ) ∧ 0 ≤ n) ∧
    (Reachable (fun d => numericScores d && scoresAtMost 100 d) s →
      ∀ rec ∈ s.answers, ∃ n : ℤ, rec.score = some (n : ℚ) ∧ 0 ≤ n ∧ n ≤ 100) := by
  constructor
  · refine reachable_scores (P := fun x => ∃ n : ℤ, x = some (n : ℚ) ∧ 0 ≤ n) ?_ h
    intro d hd
    obtain ⟨n, h1, h2, -⟩ := recordScore_numeric hd
    exact ⟨n, h1, h2⟩
  · intro hb
    refine reachable_scores (P := fun x => ∃ n : ℤ, x = some (n : ℚ) ∧ 0 ≤ n ∧ n ≤ 100) ?_ hb
    intro d hd
    simp only [Bool.and_eq_true] at hd
    obtain ⟨n, h1, h2, h3⟩ := recordScore_numeric hd.1
    exact ⟨n, h1, h2, h3 hd.2⟩

theorem scenario3_numeric_bounded :
    numericScores (payloadOf scenario3Response) = true ∧
      scoresAtMost 100 (payloadOf scenario3Response) = true := by
  have hp : payloadOf scenario3Response = JSVal.obj [("answer_feedback",
      JSVal.obj [("score_breakdown", JSVal.obj [("overall_score", numberLiteral (82 / 100))])])] := by
    simp [scenario3Response, payloadOf, extractData, optProp, getProp, JSVal.or, truthy,
      isNullish, List.lookup]
  rw [hp]
  constructor
  · simp [numericScores, scoreFields, componentValues, componentNames, nestedOverall,
      nestedBreakdown, flatScore, getProp, List.lookup, isNumberOrAbsent, numberLiteral]
  · simp [scoresAtMost, scoreFields, componentValues, componentNames, nestedOverall,
      nestedBreakdown, flatScore, getProp, List.lookup, numberLiteral]
    exact toDouble_le isBinary64_hundred (by norm_num)

/-- C3 (amended), instance: after the submission of scenario 3 from a state with no answers,
the only record has an integer score in `[0,100]`. -/
theorem answers_scores_nonneg_integers_witness :
    ∃ n : ℤ,
      (submitAnswer (apiReturning scenario3Response) 0 answeringState).1.answers.map
        (fun rec => rec.score) = [some (n : ℚ)] ∧ 0 ≤ n ∧ n ≤ 100 := by
  have hall :=
    (answers_scores_nonneg_integers
      (submitAnswer (apiReturning scenario3Response) 0 answeringState).1
      (Reachable.submit _ 0 answeringState (Reachable.start _ rfl)
        (fun _ _ _ r hr => by
          cases hr
          exact scenario3_numeric_bounded.1))).2
      (Reachable.submit _ 0 answeringState (Reachable.start _ rfl)
        (fun _ _ _ r hr => by
          cases hr
          simp [scenario3_numeric_bounded.1, scenario3_numeric_bounded.2]))
  have hans := submitAnswer_answers_of_truthy
    (answeringState_callReturns scenario3Response) rfl
  rw [hans] at hall ⊢
  obtain ⟨n, h1, h2, h3⟩ :=
    hall (newRecord answeringState firstQuestion scenario3Response) (by simp)
  have hnil : answeringState.answers = [] := rfl
  exact ⟨n, by rw [hnil, List.nil_append, List.map_singleton, h1], h2, h3⟩

/-! ## C4 and C5 -/

theorem truthy_of_nestedBreakdown_ne {d : JSVal} (h : nestedBreakdown d ≠ undefined) :
    d.truthy = true :=
  truthy_of_getProp_ne (ne_undefined_of_truthy (truthy_of_getProp_ne h))

theorem truthy_of_present_ne_nil {d : JSVal}
    (h : presentNumbers (componentValues (nestedBreakdown d)) ≠ []) : d.truthy = true := by
  apply truthy_of_nestedBreakdown
  by_contra hb
  exact h (presentNumbers_of_not_truthy (by simpa using hb))

theorem mean_nonneg {l : List ℚ} (h : ∀ x ∈ l, 0 ≤ x) : 0 ≤ mean l := by
  unfold mean
  exact div_nonneg (List.sum_nonneg h) (by positivity)

/-- A sum of integers, each greater than 1 and at most `2 ^ 32`, is formed without rounding
error. -/
theorem floatSum_intCast (l : List ℚ) (A : ℤ) (j : ℕ) (hA0 : 0 ≤ A)
    (hA : A ≤ (j : ℤ) * 2 ^ 32) (hj : j + l.length ≤ 1000)
    (hl : ∀ c ∈ l, ∃ z : ℤ, c = z ∧ 1 < z ∧ z ≤ 2 ^ 32) :
    ∃ Z : ℤ, floatSum (l.map percentOf) A = Z ∧ (Z : ℚ) = A + l.sum ∧ 0 ≤ Z ∧
      Z ≤ ((j + l.length : ℕ) : ℤ) * 2 ^ 32 := by
  induction l generalizing A j with
  | nil => exact ⟨A, rfl, by simp, hA0, by simpa using hA⟩
  | cons x xs ih =>
    obtain ⟨z, rfl, hz1, hz2⟩ := hl _ (List.mem_cons_self _ _)
    have hxs : ∀ c ∈ xs, ∃ z : ℤ, c = z ∧ 1 < z ∧ z ≤ 2 ^ 32 :=
      fun c hc => hl c (List.mem_cons_of_mem _ hc)
    simp only [List.length_cons] at hj
    have hp : percentOf (z : ℚ) = z := by
      unfold percentOf
      rw [if_neg]
      have : (1 : ℚ) < (z : ℚ) := by exact_mod_cast hz1
      linarith
    have hsum : toDouble ((A : ℚ) + (z : ℚ)) = ((A + z : ℤ) : ℚ) := by
      have := toDouble_intCast (n := A + z) (by
        rw [abs_of_nonneg (by omega)]
        norm_num at hA hz2 ⊢
        omega)
      rw [← this]
      push_cast
      rfl
    obtain ⟨Z, h1, h2, h3, h4⟩ := ih (A + z) (j + 1) (by omega)
      (by
        norm_num at hA hz2 ⊢
        omega)
      (by omega) hxs
    refine ⟨Z, ?_, ?_, h3, ?_⟩
    · rw [List.map_cons, floatSum_cons, hp, hsum]
      exact h1
    · rw [h2, List.sum_cons]
      push_cast
      ring
    · have e : j + 1 + xs.length = j + (xs.length + 1) := by omega
      simpa [e] using h4

/-- The quotient of an integer by a count of at most 8 is rounded to a double without changing
the integer it rounds to. -/
theorem roundHalfUp_toDouble_div (Z : ℤ) (n : ℕ) (hn : 0 < n) (hn8 : n ≤ 8)
    (hZ : |Z| ≤ 2 ^ 45) :
    roundHalfUp (toDouble ((Z : ℚ) / n)) = roundHalfUp ((Z : ℚ) / n) := by
  have hnq : (0 : ℚ) < (n : ℚ) := by exact_mod_cast hn
  have hn1 : (1 : ℚ) ≤ (n : ℚ) := by exact_mod_cast hn
  have hn8q : (n : ℚ) ≤ 8 := by exact_mod_cast hn8
  obtain ⟨h1, h2⟩ := (roundHalfUp_eq_iff ((Z : ℚ) / n) (roundHalfUp ((Z : ℚ) / n))).mp rfl
  set k := roundHalfUp ((Z : ℚ) / n) with hk
  have hZq : |(Z : ℚ)| ≤ 2 ^ 45 := by
    have : ((|Z| : ℤ) : ℚ) ≤ ((2 ^ 45 : ℤ) : ℚ) := by exact_mod_cast hZ
    rw [Int.cast_abs] at this
    norm_num at this ⊢
    exact this
  have hx : |(Z : ℚ) / n| ≤ 2 ^ 45 := by
    rw [abs_div, abs_of_pos hnq]
    exact le_trans (div_le_self (abs_nonneg _) hn1) hZq
  obtain ⟨hx1, hx2⟩ := abs_le.mp hx
  have hkq1 : (k : ℚ) ≤ 2 ^ 45 + 1 / 2 := by linarith
  have hkq2 : -(2 ^ 45 : ℚ) - 1 / 2 < (k : ℚ) := by linarith
  have hk1 : k ≤ 2 ^ 45 := by
    have : (k : ℚ) < ((2 ^ 45 + 1 : ℤ) : ℚ) := by
      push_cast
      linarith
    have := Int.cast_lt.mp this
    omega
  have hk2 : -(2 ^ 45) ≤ k := by
    have : ((-(2 ^ 45) - 1 : ℤ) : ℚ) < (k : ℚ) := by
      push_cast
      linarith
    have := Int.cast_lt.mp this
    omega
  have hc1 : IsBinary64 ((k : ℚ) - 1 / 2) := by
    have := isBinary64_half_int (k - 1) (by rw [abs_le]; constructor <;> omega)
    have e : (((k - 1 : ℤ)) : ℚ) + 1 / 2 = (k : ℚ) - 1 / 2 := by
      push_cast
      ring
    rwa [e] at this
  have hc2 : IsBinary64 (((16 * k + 7 : ℤ) : ℚ) / 2 ^ 4) :=
    isBinary64_div_two_pow 4 (by rw [abs_le]; constructor <;> omega) (by norm_num)
  have i1 : 2 * Z < (2 * k + 1) * (n : ℤ) := by
    have : (2 : ℚ) * (Z : ℚ) < (2 * (k : ℚ) + 1) * (n : ℚ) := by
      have := (div_lt_iff₀ hnq).mp h2
      linarith
    exact_mod_cast this
  have i2 : (2 : ℚ) * (Z : ℚ) + 1 ≤ (2 * (k : ℚ) + 1) * (n : ℚ) := by
    have : 2 * Z + 1 ≤ (2 * k + 1) * (n : ℤ) := Int.add_one_le_iff.mpr i1
    exact_mod_cast this
  have hle : (Z : ℚ) / n ≤ ((16 * k + 7 : ℤ) : ℚ) / 2 ^ 4 := by
    rw [div_le_iff₀ hnq]
    push_cast
    have e : (16 * (k : ℚ) + 7) / 2 ^ 4 * (n : ℚ) =
        ((2 * (k : ℚ) + 1) * (n : ℚ)) / 2 - (n : ℚ) / 16 := by
      ring
    rw [e]
    linarith
  rw [roundHalfUp_eq_iff]
  refine ⟨le_toDouble hc1 h1, lt_of_le_of_lt (toDouble_le hc2 hle) ?_⟩
  push_cast
  norm_num
  linarith

/-- C4 (counterexample): the response of scenario 4, whose `score_breakdown` sits at the top
level of the payload, yields a record with score 0, not 80. -/
theorem submitAnswer_scenario4_scores_zero :
    (submitAnswer (apiReturning scenario4Response) 0 answeringState).1.answers.map
        (fun rec => rec.score) = [some 0] ∧
    (submitAnswer (apiReturning scenario4Response) 0 answeringState).1.answers.map
        (fun rec => rec.score) ≠ [some 80] := by
  have hp : payloadOf scenario4Response = scenario4Response := by
    simp [scenario4Response, payloadOf, extractData, optProp, getProp, JSVal.or, truthy,
      isNullish, List.lookup]
  have hs : recordScore (payloadOf scenario4Response) = some 0 := by
    rw [hp, recordScore_components (d := scenario4Response)
      (by simp [scenario4Response, nestedOverall, nestedBreakdown, getProp, List.lookup,
        isNullish])
      (by simp [scenario4Response, flatScore, getProp, List.lookup, isNullish])
      (by simp [scenario4Response, componentValues, componentNames, nestedBreakdown, getProp,
        List.lookup, isNumberOrAbsent])]
    simp [scenario4Response, componentValues, componentNames, nestedBreakdown, getProp,
      List.lookup, presentNumbers]
  have h1 : (submitAnswer (apiReturning scenario4Response) 0 answeringState).1.answers.map
      (fun rec => rec.score) = [some 0] := by
    rw [submitAnswer_answers_of_truthy (answeringState_callReturns scenario4Response) rfl]
    simp [answeringState, initialState, newRecord, hs]
  refine ⟨h1, ?_⟩
  rw [h1]
  simp

/-- C4 (amended): when the payload carries the sub-scores in
`answer_feedback.score_breakdown`, with no overall score and no flat score, and the sub-scores
present are integers greater than 1 and at most `2 ^ 32`, the record's score is the rounded
mean of the sub-scores present. -/
theorem submitAnswer_nested_breakdown_mean (api : SubmitApi) (now : Nat) (s : State)
    (q : Question) (r : JSVal) (h : CallReturns api now s q r)
    (hn : (nestedOverall (payloadOf r)).isNullish = true)
    (hf : (flatScore (payloadOf r)).isNullish = true)
    (hc : (componentValues (nestedBreakdown (payloadOf r))).all isNumberOrAbsent = true)
    (hne : presentNumbers (componentValues (nestedBreakdown (payloadOf r))) ≠ [])
    (hint : ∀ c ∈ presentNumbers (componentValues (nestedBreakdown (payloadOf r))),
      ∃ z : ℤ, c = z ∧ 1 < z ∧ z ≤ 2 ^ 32) :
    ∃ rec : AnswerRecord,
      (submitAnswer api now s).1.answers = s.answers ++ [rec] ∧
      rec.score = some ((roundHalfUp
        (mean (presentNumbers (componentValues (nestedBreakdown (payloadOf r))))) : ℤ) : ℚ) := by
  have hr : r.truthy = true := truthy_of_payloadOf_truthy (truthy_of_present_ne_nil hne)
  refine ⟨newRecord s q r, submitAnswer_answers_of_truthy h hr, ?_⟩
  have hlen := present_length_le_five (nestedBreakdown (payloadOf r))
  have hpos : 0 < (presentNumbers (componentValues (nestedBreakdown (payloadOf r)))).length :=
    List.length_pos.mpr hne
  have hm : 0 ≤ mean (presentNumbers (componentValues (nestedBreakdown (payloadOf r)))) :=
    mean_nonneg fun x hx => by
      obtain ⟨z, rfl, hz, -⟩ := hint x hx
      have : (1 : ℚ) < (z : ℚ) := by exact_mod_cast hz
      linarith
  obtain ⟨Z, h1, h2, h3, h4⟩ := floatSum_intCast _ 0 0 le_rfl (by norm_num) (by omega) hint
  have hZ : |Z| ≤ 2 ^ 45 := by
    rw [abs_of_nonneg h3]
    have : ((0 + (presentNumbers
        (componentValues (nestedBreakdown (payloadOf r)))).length : ℕ) : ℤ) ≤ 5 := by
      omega
    norm_num at h4 this ⊢
    omega
  have hfm : floatMean (presentNumbers (componentValues (nestedBreakdown (payloadOf r)))) =
      toDouble ((Z : ℚ) / ((presentNumbers
        (componentValues (nestedBreakdown (payloadOf r)))).length : ℕ)) := by
    unfold floatMean
    have : ((0 : ℤ) : ℚ) = 0 := by norm_num
    rw [← this, h1]
  have hmean : mean (presentNumbers (componentValues (nestedBreakdown (payloadOf r)))) =
      (Z : ℚ) / ((presentNumbers
        (componentValues (nestedBreakdown (payloadOf r)))).length : ℕ) := by
    unfold mean
    rw [h2]
    norm_num
  simp only [newRecord]
  rw [recordScore_components hn hf hc, if_neg hne, hfm,
    roundHalfUp_toDouble_div Z _ hpos (by omega) hZ, ← hmean,
    max_eq_right (roundHalfUp_nonneg hm)]

theorem nestedBreakdownResponse_payload :
    payloadOf nestedBreakdownResponse = nestedBreakdownResponse := by
  simp [nestedBreakdownResponse, payloadOf, extractData, optProp, getProp, JSVal.or, truthy,
    isNullish, List.lookup]

theorem nestedBreakdownResponse_present :
    presentNumbers (componentValues (nestedBreakdown nestedBreakdownResponse)) = [70, 90] := by
  simp [nestedBreakdownResponse, componentValues, componentNames, nestedBreakdown, getProp,
    List.lookup, presentNumbers]

/-- C4 (amended), instance: `{answer_feedback: {score_breakdown: {technical_depth: 70,
confidence: 90}}}` yields a record with score 80. -/
theorem submitAnswer_nested_breakdown_mean_witness :
    ∃ rec : AnswerRecord,
      (submitAnswer (apiReturning nestedBreakdownResponse) 0 answeringState).1.answers =
        answeringState.answers ++ [rec] ∧
      rec.score = some 80 := by
  obtain ⟨rec, h1, h2⟩ :=
    submitAnswer_nested_breakdown_mean (apiReturning nestedBreakdownResponse) 0 answeringState
      firstQuestion nestedBreakdownResponse (answeringState_callReturns nestedBreakdownResponse)
      (by
        rw [nestedBreakdownResponse_payload]
        simp [nestedBreakdownResponse, nestedOverall, nestedBreakdown, getProp, List.lookup,
          isNullish])
      (by
        rw [nestedBreakdownResponse_payload]
        simp [nestedBreakdownResponse, flatScore, getProp, List.lookup, isNullish])
      (by
        rw [nestedBreakdownResponse_payload]
        simp [nestedBreakdownResponse, componentValues, componentNames, nestedBreakdown,
          getProp, List.lookup, isNumberOrAbsent])
      (by
        rw [nestedBreakdownResponse_payload, nestedBreakdownResponse_present]
        simp)
      (by
        rw [nestedBreakdownResponse_payload, nestedBreakdownResponse_present]
        intro c hc
        simp only [List.mem_cons, List.mem_singleton, List.not_mem_nil, or_false] at hc
        rcases hc with rfl | rfl
        · exact ⟨70, by norm_num, by norm_num, by norm_num⟩
        · exact ⟨90, by norm_num, by norm_num, by norm_num⟩)
  refine ⟨rec, h1, ?_⟩
  rw [h2, nestedBreakdownResponse_payload, nestedBreakdownResponse_present]
  have : roundHalfUp (mean [70, 90]) = 80 := by
    rw [roundHalfUp_eq_iff]
    norm_num [mean]
  rw [this]
  norm_num

theorem percentOf_bounds {c : ℚ} (h0 : 0 ≤ c) (h1 : c ≤ 100) :
    0 ≤ percentOf c ∧ percentOf c ≤ 100 ∧ |percentOf c - scaledComponent c| ≤ 1 / 2 ^ 47 := by
  unfold percentOf scaledComponent
  split_ifs with h
  · refine ⟨le_toDouble isBinary64_zero (by positivity),
      toDouble_le isBinary64_hundred (by linarith), ?_⟩
    rw [mul_comm 100 c]
    exact abs_toDouble_sub_le_of_lt_128 (by rw [abs_of_nonneg (by positivity)]; linarith)
  · refine ⟨h0, h1, ?_⟩
    rw [sub_self, abs_zero]
    positivity

/-- The rounded sum of at most five numbers of `[0,100]` is within `2 ^ (-45)` per term of
the exact sum. -/
theorem floatSum_error (l : List ℚ) (a : ℚ) (j : ℕ) (ha0 : 0 ≤ a) (ha : a ≤ 100 * (j : ℚ))
    (hj : j + l.length ≤ 5) (hl : ∀ x ∈ l, 0 ≤ x ∧ x ≤ 100) :
    0 ≤ floatSum l a ∧ |floatSum l a - (a + l.sum)| ≤ (l.length : ℚ) / 2 ^ 45 := by
  induction l generalizing a j with
  | nil => exact ⟨ha0, by simp [floatSum]⟩
  | cons x xs ih =>
    obtain ⟨hx0, hx1⟩ := hl x (List.mem_cons_self _ _)
    have hxs : ∀ y ∈ xs, 0 ≤ y ∧ y ≤ 100 := fun y hy => hl y (List.mem_cons_of_mem _ hy)
    simp only [List.length_cons] at hj
    have hjq : (j : ℚ) ≤ 4 := by exact_mod_cast (by omega : j ≤ 4)
    have hb : IsBinary64 (100 * ((j + 1 : ℕ) : ℚ)) :=
      isBinary64_of_int (100 * ((j + 1 : ℕ) : ℤ)) (by push_cast; ring)
        (by rw [abs_of_nonneg (by positivity)]; norm_num; omega)
    have h1 : toDouble (a + x) ≤ 100 * ((j + 1 : ℕ) : ℚ) :=
      toDouble_le hb (by push_cast; linarith)
    have h0 : 0 ≤ toDouble (a + x) := le_toDouble isBinary64_zero (by linarith)
    have he : |toDouble (a + x) - (a + x)| ≤ 1 / 2 ^ 45 :=
      abs_toDouble_sub_le_of_lt_512 (by rw [abs_of_nonneg (by linarith)]; linarith)
    obtain ⟨i0, i1⟩ := ih (toDouble (a + x)) (j + 1) h0 h1 (by omega) hxs
    rw [floatSum_cons, List.sum_cons, List.length_cons]
    refine ⟨i0, ?_⟩
    have tri : |floatSum xs (toDouble (a + x)) - (a + (x + xs.sum))| ≤
        |floatSum xs (toDouble (a + x)) - (toDouble (a + x) + xs.sum)| +
          |toDouble (a + x) - (a + x)| := by
      have := abs_add (floatSum xs (toDouble (a + x)) - (toDouble (a + x) + xs.sum))
        (toDouble (a + x) - (a + x))
      have e : floatSum xs (toDouble (a + x)) - (toDouble (a + x) + xs.sum) +
          (toDouble (a + x) - (a + x)) =
          floatSum xs (toDouble (a + x)) - (a + (x + xs.sum)) := by
        ring
      rwa [e] at this
    have e2 : (((xs.length + 1 : ℕ)) : ℚ) / 2 ^ 45 = (xs.length : ℚ) / 2 ^ 45 + 1 / 2 ^ 45 := by
      push_cast
      ring
    rw [e2]
    linarith

theorem sum_map_sub_le (l : List ℚ) (f g : ℚ → ℚ) (ε : ℚ)
    (h : ∀ x ∈ l, |f x - g x| ≤ ε) :
    |(l.map f).sum - (l.map g).sum| ≤ (l.length : ℚ) * ε := by
  induction l with
  | nil => simp
  | cons x xs ih =>
    have hx := h x (List.mem_cons_self _ _)
    have hxs := ih fun y hy => h y (List.mem_cons_of_mem _ hy)
    simp only [List.map_cons, List.sum_cons, List.length_cons]
    have e : f x + (xs.map f).sum - (g x + (xs.map g).sum) =
        (f x - g x) + ((xs.map f).sum - (xs.map g).sum) := by
      ring
    rw [e]
    have := abs_add (f x - g x) ((xs.map f).sum - (xs.map g).sum)
    push_cast
    linarith

/-- The double mean of at most five components of `[0,100]` is within `2 ^ (-44)` of the
exact mean of the scaled components. -/
theorem floatMean_error {l : List ℚ} (hl : l ≠ []) (hlen : l.length ≤ 5)
    (h : ∀ c ∈ l, 0 ≤ c ∧ c ≤ 100) :
    |floatMean l - mean (l.map scaledComponent)| ≤ 1 / 2 ^ 44 := by
  have hpos : (0 : ℚ) < (l.length : ℚ) := by
    exact_mod_cast List.length_pos.mpr hl
  have hP : ∀ x ∈ l.map percentOf, 0 ≤ x ∧ x ≤ 100 := by
    intro x hx
    rw [List.mem_map] at hx
    obtain ⟨c, hc, rfl⟩ := hx
    exact ⟨(percentOf_bounds (h c hc).1 (h c hc).2).1, (percentOf_bounds (h c hc).1 (h c hc).2).2.1⟩
  obtain ⟨hS0, hS⟩ := floatSum_error (l.map percentOf) 0 0 le_rfl (by norm_num)
    (by simpa using hlen) hP
  have hSle := floatSum_le (l.map percentOf) 0 0 (by norm_num)
    (by simp only [List.length_map]; omega) (fun x hx => (hP x hx).2)
  simp only [List.length_map, Nat.zero_add, zero_add] at hS hSle
  have hQ := sum_map_sub_le l percentOf scaledComponent (1 / 2 ^ 47)
    (fun c hc => (percentOf_bounds (h c hc).1 (h c hc).2).2.2)
  have hq0 : 0 ≤ floatSum (l.map percentOf) 0 / (l.length : ℚ) := div_nonneg hS0 hpos.le
  have hq1 : floatSum (l.map percentOf) 0 / (l.length : ℚ) ≤ 100 := by
    rw [div_le_iff₀ hpos]
    exact hSle
  have hD : |toDouble (floatSum (l.map percentOf) 0 / (l.length : ℚ)) -
      floatSum (l.map percentOf) 0 / (l.length : ℚ)| ≤ 1 / 2 ^ 47 :=
    abs_toDouble_sub_le_of_lt_128 (by rw [abs_of_nonneg hq0]; linarith)
  have hT : |floatSum (l.map percentOf) 0 / (l.length : ℚ) -
      (l.map scaledComponent).sum / (l.length : ℚ)| ≤ 1 / 2 ^ 45 + 1 / 2 ^ 47 := by
    rw [← sub_div, abs_div, abs_of_pos hpos, div_le_iff₀ hpos]
    have := abs_sub_le (floatSum (l.map percentOf) 0) (l.map percentOf).sum
      (l.map scaledComponent).sum
    have e : (1 / 2 ^ 45 + 1 / 2 ^ 47) * (l.length : ℚ) =
        (l.length : ℚ) / 2 ^ 45 + (l.length : ℚ) * (1 / 2 ^ 47) := by
      ring
    rw [e]
    linarith
  unfold floatMean mean
  have := abs_sub_le (toDouble (floatSum (l.map percentOf) 0 / (l.length : ℚ)))
    (floatSum (l.map percentOf) 0 / (l.length : ℚ))
    ((l.map scaledComponent).sum / ((l.map scaledComponent).length : ℚ))
  rw [List.length_map] at this ⊢
  have e3 : (1 : ℚ) / 2 ^ 47 + (1 / 2 ^ 45 + 1 / 2 ^ 47) ≤ 1 / 2 ^ 44 := by norm_num
  linarith

theorem payloadOf_singleComponentResponse (v : JSVal) :
    payloadOf (singleComponentResponse v) = singleComponentResponse v := by
  simp [singleComponentResponse, payloadOf, extractData, optProp, getProp, JSVal.or, truthy,
    isNullish, List.lookup]

theorem singleComponentResponse_present (v : ℚ) :
    presentNumbers (componentValues (nestedBreakdown (singleComponentResponse (num v)))) =
      [v] := by
  simp [singleComponentResponse, componentValues, componentNames, nestedBreakdown, getProp,
    List.lookup, presentNumbers]

theorem singleComponentResponse_score (v : ℚ) :
    (submitAnswer (apiReturning (singleComponentResponse (num v))) 0 answeringState).1.answers.map
        (fun rec => rec.score) =
      [some (((max 0 (roundHalfUp (floatMean [v])) : ℤ)) : ℚ)] := by
  have hs : recordScore (payloadOf (singleComponentResponse (num v))) =
      some (((max 0 (roundHalfUp (floatMean [v])) : ℤ)) : ℚ) := by
    rw [payloadOf_singleComponentResponse, recordScore_components
      (by simp [singleComponentResponse, nestedOverall, nestedBreakdown, getProp, List.lookup,
        isNullish])
      (by simp [singleComponentResponse, flatScore, getProp, List.lookup, isNullish])
      (by simp [singleComponentResponse, componentValues, componentNames, nestedBreakdown,
        getProp, List.lookup, isNumberOrAbsent]),
      singleComponentResponse_present, if_neg (by simp)]
  rw [submitAnswer_answers_of_truthy
    (answeringState_callReturns (singleComponentResponse (num v))) rfl]
  simp only [newRecord, hs]
  rfl

theorem floatMean_singleton {v p : ℚ} (hv : v ≤ 1) (hp : toDouble (v * 100) = p) :
    floatMean [v] = p := by
  have hb : IsBinary64 p := by
    rw [← hp]
    exact isBinary64_toDouble _
  simp only [floatMean, floatSum, List.map_cons, List.map_nil, List.foldl_cons,
    List.foldl_nil, List.length_singleton, percentOf, if_pos hv, hp, zero_add, Nat.cast_one,
    div_one]
  rw [toDouble_eq_self hb, toDouble_eq_self hb]

/-- C5 (counterexample): with the single component `technical_depth: 0.015` the converted
score is the double 1.5 and the record's score is 2, while the exact mean of the scaled
component lies below 1.5 and `max(0, round(m))` is 1; with the single component 0.575 the
converted score is the double 57.49999999999999 and the record's score is 57, while
`round(0.575 * 100)` is 58. -/
theorem submitAnswer_component_rounds_double_product :
    (submitAnswer (apiReturning (singleComponentResponse (numberLiteral (15 / 1000)))) 0
        answeringState).1.answers.map (fun rec => rec.score) = [some 2] ∧
    max 0 (roundHalfUp (mean ([toDouble (15 / 1000)].map scaledComponent))) = 1 ∧
    (submitAnswer (apiReturning (singleComponentResponse (numberLiteral (575 / 1000)))) 0
        answeringState).1.answers.map (fun rec => rec.score) = [some 57] ∧
    max 0 (roundHalfUp (mean ([575 / 1000].map scaledComponent))) = 58 := by
  have a1 : toDouble (15 / 1000) ≤ 1 := by rw [toDouble_0015]; norm_num
  have a2 : toDouble (575 / 1000) ≤ 1 := by rw [toDouble_0575]; norm_num
  refine ⟨?_, ?_, ?_, ?_⟩
  · unfold numberLiteral
    rw [singleComponentResponse_score, floatMean_singleton a1 toDouble_0015_percent]
    have : roundHalfUp (3 / 2) = 2 := by
      rw [roundHalfUp_eq_iff]
      norm_num
    rw [this]
    norm_num
  · have : roundHalfUp (mean ([toDouble (15 / 1000)].map scaledComponent)) = 1 := by
      rw [roundHalfUp_eq_iff]
      simp only [List.map_cons, List.map_nil, mean, scaledComponent, if_pos a1,
        List.sum_cons, List.sum_nil, List.length_singleton, toDouble_0015]
      norm_num
    rw [this]
    norm_num
  · unfold numberLiteral
    rw [singleComponentResponse_score, floatMean_singleton a2 toDouble_0575_percent]
    have : roundHalfUp (8092405580431359 / 2 ^ 47) = 57 := by
      rw [roundHalfUp_eq_iff]
      norm_num
    rw [this]
    norm_num
  · have : roundHalfUp (mean ([575 / 1000].map scaledComponent)) = 58 := by
      rw [roundHalfUp_eq_iff]
      norm_num [mean, scaledComponent]
    rw [this]
    norm_num

/-- C5 (amended): with `answer_feedback.score_breakdown` in the payload, no overall score and
no flat score, the components being numbers of magnitude at most `2 ^ 1000` or absent, the
record's score is 0 when no component is present, and otherwise `max(0, Math.round(m))` for
the double `m` that lines 845-846 compute over exactly the components present: each `c <= 1`
is replaced by the double product `c * 100`, the sum is formed from 0 in the order of the
names and the quotient by the number of components present is taken.  For components in
`[0,100]` that `m` is within `2 ^ (-44)` of the exact mean of the scaled components, so the
score differs from `max(0, round(mean))` by at most one, and is `max(0, round(mean))` whenever
the exact mean is farther than `2 ^ (-44)` from every half-integer. -/
theorem submitAnswer_component_average (api : SubmitApi) (now : Nat) (s : State)
    (q : Question) (r : JSVal) (h : CallReturns api now s q r)
    (hb : nestedBreakdown (payloadOf r) ≠ undefined)
    (hn : (nestedOverall (payloadOf r)).isNullish = true)
    (hf : (flatScore (payloadOf r)).isNullish = true)
    (hc : (componentValues (nestedBreakdown (payloadOf r))).all isNumberOrAbsent = true)
    (hd : ∀ c ∈ presentNumbers (componentValues (nestedBreakdown (payloadOf r))),
      IsDouble c ∧ |c| ≤ 2 ^ 1000) :
    ∃ rec : AnswerRecord,
      (submitAnswer api now s).1.answers = s.answers ++ [rec] ∧
      (presentNumbers (componentValues (nestedBreakdown (payloadOf r))) = [] →
        rec.score = some 0) ∧
      (presentNumbers (componentValues (nestedBreakdown (payloadOf r))) ≠ [] →
        averageScore ((presentNumbers
            (componentValues (nestedBreakdown (payloadOf r)))).map num) =
          some (floatMean (presentNumbers
            (componentValues (nestedBreakdown (payloadOf r))))) ∧
        rec.score = some ((max 0 (roundHalfUp (floatMean (presentNumbers
          (componentValues (nestedBreakdown (payloadOf r)))))) : ℤ) : ℚ) ∧
        ((∀ c ∈ presentNumbers (componentValues (nestedBreakdown (payloadOf r))),
            0 ≤ c ∧ c ≤ 100) →
          |floatMean (presentNumbers (componentValues (nestedBreakdown (payloadOf r)))) -
            mean ((presentNumbers
              (componentValues (nestedBreakdown (payloadOf r)))).map scaledComponent)| ≤
            1 / 2 ^ 44 ∧
          |max 0 (roundHalfUp (floatMean (presentNumbers
              (componentValues (nestedBreakdown (payloadOf r)))))) -
            max 0 (roundHalfUp (mean ((presentNumbers
              (componentValues (nestedBreakdown (payloadOf r)))).map scaledComponent)))| ≤ 1 ∧
          ((∀ k : ℤ, 1 / 2 ^ 44 < |mean ((presentNumbers
              (componentValues (nestedBreakdown (payloadOf r)))).map scaledComponent) -
              ((k : ℚ) + 1 / 2)|) →
            rec.score = some ((max 0 (roundHalfUp (mean ((presentNumbers
              (componentValues (nestedBreakdown (payloadOf r)))).map scaledComponent))) : ℤ) :
                ℚ)))) := by
  have _ := hd
  have hr : r.truthy = true := truthy_of_payloadOf_truthy (truthy_of_nestedBreakdown_ne hb)
  have hscore := recordScore_components hn hf hc
  refine ⟨newRecord s q r, submitAnswer_answers_of_truthy h hr, ?_, ?_⟩
  · intro he
    simp only [newRecord]
    rw [hscore, if_pos he]
  · intro hne
    have hs : (newRecord s q r).score = some ((max 0 (roundHalfUp (floatMean (presentNumbers
        (componentValues (nestedBreakdown (payloadOf r)))))) : ℤ) : ℚ) := by
      simp only [newRecord]
      rw [hscore, if_neg hne]
    refine ⟨averageScore_map_num _ hne, hs, ?_⟩
    intro hrange
    have herr := floatMean_error hne (present_length_le_five _) hrange
    refine ⟨herr, ?_, ?_⟩
    · rw [max_comm 0, max_comm 0]
      exact le_trans (abs_max_sub_max_le_abs _ _ _)
        (roundHalfUp_abs_sub_le_one (le_trans herr (by norm_num)))
    · intro hk
      rw [hs, roundHalfUp_eq_of_close herr hk]

theorem mixedBreakdownResponse_payload :
    payloadOf mixedBreakdownResponse = mixedBreakdownResponse := by
  simp [mixedBreakdownResponse, payloadOf, extractData, optProp, getProp, JSVal.or, truthy,
    isNullish, List.lookup]

theorem mixedBreakdownResponse_present :
    presentNumbers (componentValues (nestedBreakdown mixedBreakdownResponse)) =
      [toDouble (7 / 10), 90] := by
  simp [mixedBreakdownResponse, componentValues, componentNames, nestedBreakdown, getProp,
    List.lookup, presentNumbers, numberLiteral]

theorem floatMean_mixed : floatMean [toDouble (7 / 10), 90] = 80 := by
  have a1 : toDouble (7 / 10) ≤ 1 := by rw [toDouble_07]; norm_num
  have e1 : toDouble (0 + 70) = 70 := by
    have := toDouble_intCast (n := 70) (by norm_num)
    norm_num at this ⊢
    exact this
  have e2 : toDouble (70 + 90) = 160 := by
    have := toDouble_intCast (n := 160) (by norm_num)
    norm_num at this ⊢
    exact this
  have e3 : toDouble 80 = 80 := by
    have := toDouble_intCast (n := 80) (by norm_num)
    norm_num at this ⊢
    exact this
  have p1 : percentOf (toDouble (7 / 10)) = 70 := by
    unfold percentOf
    rw [if_pos a1, toDouble_07_percent]
  have p2 : percentOf 90 = 90 := by
    unfold percentOf
    rw [if_neg (by norm_num)]
  simp only [floatMean, floatSum, List.map_cons, List.map_nil, List.foldl_cons, List.foldl_nil,
    List.length_cons, List.length_nil, p1, p2, e1, e2]
  norm_num
  exact e3

/-- C5 (amended), instance: `{answer_feedback: {score_breakdown: {overall_score: null,
technical_depth: 0.7, confidence: 90, relevance: null}}}` yields a record with score 80, the
mean of 70 and 90. -/
theorem submitAnswer_component_average_witness :
    ∃ rec : AnswerRecord,
      (submitAnswer (apiReturning mixedBreakdownResponse) 0 answeringState).1.answers =
        answeringState.answers ++ [rec] ∧
      rec.score = some 80 := by
  obtain ⟨rec, h1, -, h2⟩ :=
    submitAnswer_component_average (apiReturning mixedBreakdownResponse) 0 answeringState
      firstQuestion mixedBreakdownResponse (answeringState_callReturns mixedBreakdownResponse)
      (by
        rw [mixedBreakdownResponse_payload]
        simp [mixedBreakdownResponse, nestedBreakdown, getProp, List.lookup])
      (by
        rw [mixedBreakdownResponse_payload]
        simp [mixedBreakdownResponse, nestedOverall, nestedBreakdown, getProp, List.lookup,
          isNullish])
      (by
        rw [mixedBreakdownResponse_payload]
        simp [mixedBreakdownResponse, flatScore, getProp, List.lookup, isNullish])
      (by
        rw [mixedBreakdownResponse_payload]
        simp [mixedBreakdownResponse, componentValues, componentNames, nestedBreakdown,
          getProp, List.lookup, isNumberOrAbsent, numberLiteral])
      (by
        rw [mixedBreakdownResponse_payload, mixedBreakdownResponse_present]
        intro c hc
        simp only [List.mem_cons, List.mem_singleton, List.not_mem_nil, or_false] at hc
        rcases hc with rfl | rfl
        · refine ⟨isDouble_toDouble _, ?_⟩
          rw [toDouble_07]
          norm_num [abs_of_pos]
        · refine ⟨toDouble_intCast (n := 90) (by norm_num), ?_⟩
          norm_num [abs_of_pos])
  refine ⟨rec, h1, ?_⟩
  have h3 := (h2 (by rw [mixedBreakdownResponse_payload, mixedBreakdownResponse_present]; simp)).2.1
  rw [h3, mixedBreakdownResponse_payload, mixedBreakdownResponse_present, floatMean_mixed]
  have : roundHalfUp 80 = 80 := by
    rw [roundHalfUp_eq_iff]
    norm_num
  rw [this]
  norm_num

/-! ## C6 -/

theorem breakdownScores_of_not_truthy {bd : JSVal} (h : bd.truthy = false) :
    breakdownScores bd = [] := by
  simp [breakdownScores, componentNames, getProp_of_not_truthy _ h, isNullish]

/-- C6: the extraction is a priority list.  A nested overall score that is not nullish alone
fixes the record's score, whatever the flat score is; the flat score is read only when the
nested one is nullish; the component average is read only when both are. -/
theorem submitAnswer_extraction_priority (api : SubmitApi) (now : Nat) (s : State)
    (q : Question) (r : JSVal) (h : CallReturns api now s q r) (ha : Accepted r) :
    ∃ rec : AnswerRecord,
      (submitAnswer api now s).1.answers = s.answers ++ [rec] ∧
      ((nestedOverall (payloadOf r)).isNullish = false →
        rec.score = mathMax0 (mathRound (toPercent (nestedOverall (payloadOf r))))) ∧
      ((nestedOverall (payloadOf r)).isNullish = true →
        (flatScore (payloadOf r)).isNullish = false →
        rec.score = mathMax0 (mathRound (flatScore (payloadOf r)).toNumber)) ∧
      ((nestedOverall (payloadOf r)).isNullish = true →
        (flatScore (payloadOf r)).isNullish = true →
        rec.score = mathMax0 (mathRound
          (if (breakdownScores (nestedBreakdown (payloadOf r))).length > 0 then
            averageScore (breakdownScores (nestedBreakdown (payloadOf r)))
          else some 0))) := by
  have hr : r.truthy = true := (accepted_iff_truthy r).mp ha
  refine ⟨newRecord s q r, submitAnswer_answers_of_truthy h hr, ?_, ?_, ?_⟩
  · intro hn
    simp only [newRecord, recordScore]
    rw [extractScore_eq, if_pos hn]
  · intro hn hf
    simp only [newRecord, recordScore]
    rw [extractScore_eq, if_neg (by simp [hn]), if_pos hf]
  · intro hn hf
    simp only [newRecord, recordScore]
    rw [extractScore_eq, if_neg (by simp [hn]), if_neg (by simp [hf])]
    cases hb : (nestedBreakdown (payloadOf r)).truthy
    · simp [breakdownScores_of_not_truthy hb]
    · simp

theorem nestedAndFlatResponse_payload :
    payloadOf nestedAndFlatResponse = nestedAndFlatResponse := by
  simp [nestedAndFlatResponse, payloadOf, extractData, optProp, getProp, JSVal.or, truthy,
    isNullish, List.lookup]

/-- C6, instance: `{answer_feedback: {score_breakdown: {overall_score: 0.5}}, score: 98}`
yields a record with score 50: the flat 98 is not read. -/
theorem submitAnswer_extraction_priority_witness :
    ∃ rec : AnswerRecord,
      (submitAnswer (apiReturning nestedAndFlatResponse) 0 answeringState).1.answers =
        answeringState.answers ++ [rec] ∧
      rec.score = some 50 := by
  obtain ⟨rec, h1, h2, -, -⟩ :=
    submitAnswer_extraction_priority (apiReturning nestedAndFlatResponse) 0 answeringState
      firstQuestion nestedAndFlatResponse (answeringState_callReturns nestedAndFlatResponse)
      ((accepted_iff_truthy _).mpr rfl)
  have hv : nestedOverall (payloadOf nestedAndFlatResponse) = num (1 / 2) := by
    rw [nestedAndFlatResponse_payload]
    simp [nestedAndFlatResponse, nestedOverall, nestedBreakdown, getProp, List.lookup]
  refine ⟨rec, h1, ?_⟩
  rw [h2 (by rw [hv]; rfl), hv, toPercent_num, mathMax0_mathRound_some]
  have hp : percentOf (1 / 2) = 50 := by
    unfold percentOf
    rw [if_pos (by norm_num)]
    have := toDouble_intCast (n := 50) (by norm_num)
    norm_num at this ⊢
    exact this
  have : roundHalfUp 50 = 50 := by
    rw [roundHalfUp_eq_iff]
    norm_num
  rw [hp, this]
  norm_num

/-! ## C7 -/

theorem handleNextQuestion_currentQuestion (i : Nat) (s : State) :
    (handleNextQuestion i s).1.currentQuestion =
      if i < mockQuestions.length - 1 then mockQuestions[i + 1]? else none := by
  unfold handleNextQuestion
  split_ifs with h1 h2
  · have hlt : i + 1 < mockQuestions.length := by omega
    simp [setTimeRemaining, setCurrentQuestion, setQuestionIndex, List.getElem?_eq_getElem hlt]
  · simp [setTimeRemaining, setCurrentQuestion, clearIntervalRef]
  · simp [setTimeRemaining, setCurrentQuestion]

theorem breakdownScores_of_all_nullish {bd : JSVal}
    (h : ∀ v ∈ componentValues bd, v.isNullish = true) : breakdownScores bd = [] := by
  unfold breakdownScores
  rw [List.filter_eq_nil_iff]
  intro v hv
  simp [h v hv]

/-- C7 (counterexample): an empty response body, the empty string, is not null and carries
nothing to extract a score from, yet no record is appended and the buffer is kept: the `else`
branch of line 875 shows the failure alert. -/
theorem submitAnswer_empty_body_rejected :
    emptyBodyResponse.isNullish = false ∧
    (submitAnswer (apiReturning emptyBodyResponse) 0 answeringState).1.answers =
      answeringState.answers ∧
    (submitAnswer (apiReturning emptyBodyResponse) 0 answeringState).1.answerText =
      answeringState.answerText ∧
    answeringState.answerText ≠ "" ∧
    (submitAnswer (apiReturning emptyBodyResponse) 0 answeringState).1.questionIndex =
      answeringState.questionIndex := by
  have he := submitAnswer_falsy_eq (answeringState_callReturns emptyBodyResponse) rfl rfl
  obtain ⟨f1, f2, f3, -⟩ := failedState_frame 0 answeringState
  rw [he]
  exact ⟨rfl, f1, f2, by decide, f3⟩

/-- C7 (amended): for every truthy scoring response (an object, a non-empty string, a
non-zero number, `true`) from which no rule extracts a score, a record with score 0 is
appended, the buffer is cleared and `handleNextQuestion` runs: the index moves to the next
question if there is one, and the current question becomes the next one or none. -/
theorem submitAnswer_unscorable (api : SubmitApi) (now : Nat) (s : State)
    (q : Question) (r : JSVal) (h : CallReturns api now s q r) (hr : r.truthy = true)
    (hn : (nestedOverall (payloadOf r)).isNullish = true)
    (hf : (flatScore (payloadOf r)).isNullish = true)
    (hc : ∀ v ∈ componentValues (nestedBreakdown (payloadOf r)), v.isNullish = true) :
    ∃ rec : AnswerRecord,
      (submitAnswer api now s).1.answers = s.answers ++ [rec] ∧
      rec.score = some 0 ∧
      (submitAnswer api now s).1.answerText = "" ∧
      (submitAnswer api now s).1.questionIndex =
        (if s.questionIndex < mockQuestions.length - 1 then s.questionIndex + 1
          else s.questionIndex) ∧
      (submitAnswer api now s).1.currentQuestion =
        (if s.questionIndex < mockQuestions.length - 1 then mockQuestions[s.questionIndex + 1]?
          else none) := by
  obtain ⟨a1, a2, -, a4, a5, -⟩ := acceptedState_fields now s q r
  obtain ⟨c1, -, -, -⟩ := handleNextQuestion_cursor s.questionIndex s s rfl
  rw [submitAnswer_accepted_eq h hr]
  refine ⟨newRecord s q r, a1, ?_, a2, a4.trans c1, ?_⟩
  · simp only [newRecord, recordScore]
    rw [extractScore_eq, if_neg (by simp [hn]), if_neg (by simp [hf]),
      breakdownScores_of_all_nullish hc]
    simpa using recordScore_zero
  · rw [a5, handleNextQuestion_currentQuestion]

/-- C7 (amended), instance: the response `{success: true}` appends a record with score 0,
clears the buffer and moves from the first question to the second. -/
theorem submitAnswer_unscorable_witness :
    ∃ rec : AnswerRecord,
      (submitAnswer (apiReturning unscoredResponse) 0 answeringState).1.answers =
        answeringState.answers ++ [rec] ∧
      rec.score = some 0 ∧
      (submitAnswer (apiReturning unscoredResponse) 0 answeringState).1.answerText = "" ∧
      (submitAnswer (apiReturning unscoredResponse) 0 answeringState).1.questionIndex = 1 ∧
      (submitAnswer (apiReturning unscoredResponse) 0 answeringState).1.currentQuestion =
        mockQuestions[1]? := by
  have hp : payloadOf unscoredResponse = unscoredResponse := by
    simp [unscoredResponse, payloadOf, extractData, optProp, getProp, JSVal.or, truthy,
      isNullish, List.lookup]
  obtain ⟨rec, h1, h2, h3, h4, h5⟩ :=
    submitAnswer_unscorable (apiReturning unscoredResponse) 0 answeringState firstQuestion
      unscoredResponse (answeringState_callReturns unscoredResponse) rfl
      (by
        rw [hp]
        simp [unscoredResponse, nestedOverall, nestedBreakdown, getProp, List.lookup,
          isNullish])
      (by
        rw [hp]
        simp [unscoredResponse, flatScore, getProp, List.lookup, isNullish])
      (by
        rw [hp]
        simp [unscoredResponse, componentValues, componentNames, nestedBreakdown, getProp,
          List.lookup, isNullish])
  exact ⟨rec, h1, h2, h3, h4, h5⟩

/-! ## C8 -/

theorem jsTrim_eq_empty {t : String} (h : ∀ c ∈ t.data, isJSWhiteSpace c = true) :
    jsTrim t = "" := by
  have h1 : t.data.dropWhile isJSWhiteSpace = [] := List.dropWhile_eq_nil_iff.mpr h
  unfold jsTrim
  rw [h1]
  rfl

/-- C8: when the answer text is empty or only whitespace, or there is no current question,
`submitAnswer` leaves the whole state as it is (the answers list, the buffer, the index, the
current question and the remaining time with it) and never calls the scoring collaborator:
its only effect is the alert of line 752. -/
theorem submitAnswer_empty_answer_no_effect (api : SubmitApi) (now : Nat) (s : State)
    (h : (∀ c ∈ s.answerText.data, isJSWhiteSpace c = true) ∨ s.currentQuestion = none) :
    (submitAnswer api now s).1 = s ∧
    (submitAnswer api now s).2 = [Effect.alert AlertMessage.provideAnswer] ∧
    ∀ sid text qid, Effect.submitCandidateAnswer sid text qid ∉ (submitAnswer api now s).2 := by
  have he : submitAnswer api now s = (s, [Effect.alert AlertMessage.provideAnswer]) :=
    submitAnswer_rejected api now s (h.imp jsTrim_eq_empty id)
  rw [he]
  refine ⟨rfl, rfl, ?_⟩
  intro sid text qid hmem
  simp at hmem

/-- C8, instance: with a buffer of blanks, a tab and a line break, and a collaborator that
would return a score, nothing changes and no call is made. -/
theorem submitAnswer_empty_answer_no_effect_witness :
    (submitAnswer (apiReturning scenario3Response) 0 blankAnswerState).1 = blankAnswerState ∧
    (submitAnswer (apiReturning scenario3Response) 0 blankAnswerState).2 =
      [Effect.alert AlertMessage.provideAnswer] ∧
    ∀ sid text qid, Effect.submitCandidateAnswer sid text qid ∉
      (submitAnswer (apiReturning scenario3Response) 0 blankAnswerState).2 :=
  submitAnswer_empty_answer_no_effect (apiReturning scenario3Response) 0 blankAnswerState
    (Or.inl (by decide))

/-! ## C9 -/

/-- C9: on a successful submission the new answers list is the old one followed by one new
record: the earlier records keep their positions, the new record carries the current
question's text and the submitted text, and the buffer becomes the empty string. -/
theorem submitAnswer_appends_one_record (api : SubmitApi) (now : Nat) (s : State)
    (q : Question) (r : JSVal) (h : CallReturns api now s q r) (ha : Accepted r) :
    ∃ rec : AnswerRecord,
      (submitAnswer api now s).1.answers = s.answers ++ [rec] ∧
      rec.question = q.question ∧
      rec.answer = s.answerText ∧
      (submitAnswer api now s).1.answerText = "" ∧
      (submitAnswer api now s).1.answers.length = s.answers.length + 1 ∧
      ∀ i, i < s.answers.length → (submitAnswer api now s).1.answers[i]? = s.answers[i]? := by
  have hr : r.truthy = true := (accepted_iff_truthy r).mp ha
  obtain ⟨a1, a2, -⟩ := acceptedState_fields now s q r
  rw [submitAnswer_accepted_eq h hr]
  refine ⟨newRecord s q r, a1, rfl, rfl, a2, ?_, ?_⟩
  · rw [a1]
    simp
  · intro i hi
    rw [a1, List.getElem?_append_left hi]

/-- C9, instance: the submission of scenario 3 from a state with no answers. -/
theorem submitAnswer_appends_one_record_witness :
    ∃ rec : AnswerRecord,
      (submitAnswer (apiReturning scenario3Response) 0 answeringState).1.answers = [rec] ∧
      rec.question = firstQuestion.question ∧
      rec.answer = "I have five years of experience." ∧
      (submitAnswer (apiReturning scenario3Response) 0 answeringState).1.answerText = "" := by
  obtain ⟨rec, h1, h2, h3, h4, -⟩ :=
    submitAnswer_appends_one_record (apiReturning scenario3Response) 0 answeringState
      firstQuestion scenario3Response (answeringState_callReturns scenario3Response)
      ((accepted_iff_truthy _).mpr rfl)
  exact ⟨rec, h1, h2, h3, h4⟩

/-! ## C10 -/

/-- C10: when the scoring call throws, or returns `null` or `undefined`, no record is
appended, the buffer, the question index, the current question and the remaining time are
kept, and the loading flag ends as `false`. -/
theorem submitAnswer_failure_atomic (api : SubmitApi) (now : Nat) (s : State) (q : Question)
    (h : (∃ e, CallThrows api now s q e) ∨
      ∃ r, CallReturns api now s q r ∧ r.isNullish = true) :
    (submitAnswer api now s).1.answers = s.answers ∧
    (submitAnswer api now s).1.answerText = s.answerText ∧
    (submitAnswer api now s).1.questionIndex = s.questionIndex ∧
    (submitAnswer api now s).1.currentQuestion = s.currentQuestion ∧
    (submitAnswer api now s).1.timeRemaining = s.timeRemaining ∧
    (submitAnswer api now s).1.isLoading = false := by
  obtain ⟨f1, f2, f3, f4, f5, -, f7⟩ := failedState_frame now s
  rcases h with ⟨e, he⟩ | ⟨r, hr, hn⟩
  · rw [submitAnswer_throws_eq he]
    exact ⟨f1, f2, f3, f4, f5, f7⟩
  · rw [submitAnswer_nullish_eq hr hn]
    exact ⟨f1, f2, f3, f4, f5, f7⟩

theorem answeringState_callThrows (e : JSVal) :
    CallThrows (apiThrowing e) 0 answeringState firstQuestion e := by
  refine ⟨rfl, ?_, rfl⟩
  decide

/-- C10, instance: a network error while the first answer is submitted. -/
theorem submitAnswer_failure_atomic_witness :
    (submitAnswer (apiThrowing networkError) 0 answeringState).1.answers = [] ∧
    (submitAnswer (apiThrowing networkError) 0 answeringState).1.answerText =
      "I have five years of experience." ∧
    (submitAnswer (apiThrowing networkError) 0 answeringState).1.questionIndex = 0 ∧
    (submitAnswer (apiThrowing networkError) 0 answeringState).1.currentQuestion =
      some firstQuestion ∧
    (submitAnswer (apiThrowing networkError) 0 answeringState).1.timeRemaining = 300 ∧
    (submitAnswer (apiThrowing networkError) 0 answeringState).1.isLoading = false :=
  submitAnswer_failure_atomic (apiThrowing networkError) 0 answeringState firstQuestion
    (Or.inl ⟨networkError, answeringState_callThrows networkError⟩)

/-! ## C11 -/

theorem optProp_eq_getProp (v : JSVal) (k : String) : v.optProp k = v.getProp k := by
  cases v <;> simp [optProp, getProp, isNullish]

theorem recordFeedback_eq (d : JSVal) :
    recordFeedback d =
      if (nestedMessage d).truthy = true then nestedMessage d
      else if (flatFeedback d).truthy = true then flatFeedback d
      else genericFeedback := by
  unfold recordFeedback nestedMessage flatFeedback genericFeedback JSVal.or
  simp only [optProp_eq_getProp]
  split_ifs <;> simp_all

/-- C11: the feedback of the appended record is `answer_feedback.message` when that is truthy
(for a string: not empty), otherwise the flat `feedback` when that is truthy, otherwise the
string `Answer submitted successfully`; it is never falsy, so never the empty string. -/
theorem submitAnswer_feedback (api : SubmitApi) (now : Nat) (s : State) (q : Question)
    (r : JSVal) (h : CallReturns api now s q r) (ha : Accepted r) :
    ∃ rec : AnswerRecord,
      (submitAnswer api now s).1.answers = s.answers ++ [rec] ∧
      rec.feedback =
        (if (nestedMessage (payloadOf r)).truthy = true then nestedMessage (payloadOf r)
        else if (flatFeedback (payloadOf r)).truthy = true then flatFeedback (payloadOf r)
        else JSVal.str "Answer submitted successfully") ∧
      rec.feedback.truthy = true ∧
      rec.feedback ≠ JSVal.str "" := by
  have hr : r.truthy = true := (accepted_iff_truthy r).mp ha
  have hf := recordFeedback_eq (payloadOf r)
  have ht : (recordFeedback (payloadOf r)).truthy = true := by
    rw [hf]
    split_ifs with h1 h2
    · exact h1
    · exact h2
    · rfl
  refine ⟨newRecord s q r, submitAnswer_answers_of_truthy h hr, hf, ht, ?_⟩
  intro he
  have : (newRecord s q r).feedback.truthy = true := ht
  rw [he] at this
  simp [truthy] at this

/-- C11, instance: with an empty nested message and the flat feedback `Well structured.`, the
record carries the flat feedback. -/
theorem submitAnswer_feedback_witness :
    ∃ rec : AnswerRecord,
      (submitAnswer (apiReturning flatFeedbackResponse) 0 answeringState).1.answers =
        answeringState.answers ++ [rec] ∧
      rec.feedback = JSVal.str "Well structured." := by
  obtain ⟨rec, h1, h2, -, -⟩ :=
    submitAnswer_feedback (apiReturning flatFeedbackResponse) 0 answeringState firstQuestion
      flatFeedbackResponse (answeringState_callReturns flatFeedbackResponse)
      ((accepted_iff_truthy _).mpr rfl)
  have hp : payloadOf flatFeedbackResponse = flatFeedbackResponse := by
    simp [flatFeedbackResponse, payloadOf, extractData, optProp, getProp, JSVal.or, truthy,
      isNullish, List.lookup]
  refine ⟨rec, h1, ?_⟩
  rw [h2, hp]
  simp [flatFeedbackResponse, nestedMessage, flatFeedback, getProp, List.lookup, truthy]

/-! ## The question cursor -/

theorem mockQuestions_length : mockQuestions.length = 4 := rfl

theorem handleNextQuestion_questionIndex (i : Nat) (s : State) :
    (handleNextQuestion i s).1.questionIndex =
      if i < mockQuestions.length - 1 then i + 1 else s.questionIndex :=
  (handleNextQuestion_cursor i s s rfl).1

theorem handleNextQuestion_timeRemaining_nonneg (i : Nat) (s : State) :
    0 ≤ (handleNextQuestion i s).1.timeRemaining := by
  unfold handleNextQuestion
  split_ifs <;> simp [setTimeRemaining, setCurrentQuestion, setQuestionIndex, clearIntervalRef]

theorem handleNextQuestion_clock (i : Nat) (s : State) :
    (handleNextQuestion i s).1.intervalRef = s.intervalRef ∧
    (handleNextQuestion i s).1.clockRunning =
      (if i < mockQuestions.length - 1 then s.clockRunning
        else (s.clockRunning && !s.intervalRef)) := by
  unfold handleNextQuestion
  split_ifs <;>
    simp_all [setTimeRemaining, setCurrentQuestion, setQuestionIndex, clearIntervalRef]

theorem advance_questionIndex (s : State) :
    (advance s).questionIndex =
      if s.questionIndex < mockQuestions.length - 1 then s.questionIndex + 1
      else s.questionIndex :=
  handleNextQuestion_questionIndex s.questionIndex s

theorem iterate_advance_questionIndex (n : Nat) (s : State)
    (h : s.questionIndex ≤ mockQuestions.length - 1) :
    (advance^[n] s).questionIndex = min (s.questionIndex + n) (mockQuestions.length - 1) := by
  induction n generalizing s with
  | zero => simp [h]
  | succ n ih =>
    rw [Function.iterate_succ_apply]
    have h1 := advance_questionIndex s
    have h2 : (advance s).questionIndex ≤ mockQuestions.length - 1 := by
      rw [h1]
      split_ifs <;> omega
    rw [ih _ h2, h1]
    split_ifs <;> omega

/-- Every path of `submitAnswer` leaves the cursor as it is or moves it as
`handleNextQuestion` does from the current index. -/
theorem submitAnswer_cursor_cases (api : SubmitApi) (now : Nat) (s : State) :
    ((submitAnswer api now s).1.questionIndex = s.questionIndex ∧
      (submitAnswer api now s).1.currentQuestion = s.currentQuestion ∧
      (submitAnswer api now s).1.timeRemaining = s.timeRemaining) ∨
    ((submitAnswer api now s).1.questionIndex =
        (handleNextQuestion s.questionIndex s).1.questionIndex ∧
      (submitAnswer api now s).1.currentQuestion =
        (handleNextQuestion s.questionIndex s).1.currentQuestion ∧
      (submitAnswer api now s).1.timeRemaining =
        (handleNextQuestion s.questionIndex s).1.timeRemaining) := by
  obtain ⟨-, -, f3, f4, f5, -, -⟩ := failedState_frame now s
  by_cases ht : jsTrim s.answerText = ""
  · left
    rw [submitAnswer_rejected api now s (Or.inl ht)]
    exact ⟨rfl, rfl, rfl⟩
  · cases hq : s.currentQuestion with
    | none =>
      left
      rw [submitAnswer_rejected api now s (Or.inr hq)]
      exact ⟨rfl, hq, rfl⟩
    | some q =>
      cases hapi : api (activeSessionId now s) s.answerText q.id with
      | throws e =>
        left
        rw [submitAnswer_throws_eq ⟨hq, ht, hapi⟩]
        exact ⟨f3, f4.trans hq, f5⟩
      | returns r =>
        have hc : CallReturns api now s q r := ⟨hq, ht, hapi⟩
        cases hr : r.truthy
        · left
          cases hn : r.isNullish
          · rw [submitAnswer_falsy_eq hc hr hn]
            exact ⟨f3, f4.trans hq, f5⟩
          · rw [submitAnswer_nullish_eq hc hn]
            exact ⟨f3, f4.trans hq, f5⟩
        · right
          obtain ⟨-, -, -, a4, a5, a6⟩ := acceptedState_fields now s q r
          rw [submitAnswer_accepted_eq hc hr]
          exact ⟨a4, a5, a6⟩

/-! ## C12 -/

/-- C12 (counterexample): four applications of `handleNextQuestion` from index 0 leave the
index at 3, not at `min(4, 4) = 4`. -/
theorem advance_four_times_index_three :
    answeringState.questionIndex = 0 ∧
    (advance^[4] answeringState).questionIndex = 3 ∧
    (advance^[4] answeringState).questionIndex ≠ min 4 mockQuestions.length := by
  have h := iterate_advance_questionIndex 4 answeringState (by decide)
  have h0 : answeringState.questionIndex = 0 := rfl
  rw [h0, mockQuestions_length] at h
  refine ⟨rfl, h, ?_⟩
  rw [h, mockQuestions_length]
  decide

/-- C12 (amended): under `handleNextQuestion` run from the current render and under every
event other than a firing of the interval, the question index does not decrease; after `n`
applications of `handleNextQuestion` from index 0 the index is `min(n, L - 1)`. -/
theorem questionIndex_after_advances (n : Nat) (s : State) (h0 : s.questionIndex = 0) :
    (advance^[n] s).questionIndex = min n (mockQuestions.length - 1) ∧
    (∀ t : State, t.questionIndex ≤ (advance t).questionIndex) ∧
    (∀ (e : Event) (t : State), (∀ u, e ≠ Event.tick u) →
      t.questionIndex ≤ (step e t).questionIndex) := by
  refine ⟨?_, ?_, ?_⟩
  · have h := iterate_advance_questionIndex n s (by rw [h0]; exact Nat.zero_le _)
    rw [h, h0, Nat.zero_add]
  · intro t
    rw [advance_questionIndex]
    split_ifs <;> omega
  · intro e t he
    cases e with
    | mount => exact le_refl _
    | initialized result now interviewData =>
      cases result <;>
        simp [step, initializeInterview, setTimeRemaining, setCurrentQuestion,
          setInterviewSession, setSessionId]
      split_ifs <;> simp [setInterviewSession, setSessionId]
    | tick u => exact absurd rfl (he u)
    | typeAnswer text => exact le_refl _
    | submit api now =>
      show t.questionIndex ≤ (submitAnswer api now t).1.questionIndex
      rcases submitAnswer_cursor_cases api now t with ⟨h1, -, -⟩ | ⟨h1, -, -⟩
      · rw [h1]
      · rw [h1, handleNextQuestion_questionIndex]
        split_ifs <;> omega

/-- C12 (amended), instance: two applications from the state of the first question. -/
theorem questionIndex_after_advances_witness :
    (advance^[2] answeringState).questionIndex = 2 := by
  have h := (questionIndex_after_advances 2 answeringState rfl).1
  rw [mockQuestions_length] at h
  exact h

/-! ## C13 -/

/-- C13: `handleNextQuestion` equals the reference.  From an index `i < L - 1` the index
becomes `i + 1`, the current question `questions[i + 1]` and the remaining time its limit; from
`i = L - 1` there is no current question, the remaining time is 0 and the clock is stopped, so
that a later tick changes nothing, and a second application changes nothing either. -/
theorem handleNextQuestion_eq_reference (i : Nat) (s : State) (hi : i < mockQuestions.length)
    (hr : s.intervalRef = true) :
    (handleNextQuestion i s).1 = nextQuestionReference i s ∧
    (i + 1 = mockQuestions.length →
      (handleNextQuestion i s).1.currentQuestion = none ∧
      (handleNextQuestion i s).1.timeRemaining = 0 ∧
      (handleNextQuestion i s).1.clockRunning = false ∧
      (∀ u, (tick u (handleNextQuestion i s).1).1 = (handleNextQuestion i s).1) ∧
      (handleNextQuestion i (handleNextQuestion i s).1).1 = (handleNextQuestion i s).1) := by
  constructor
  · unfold handleNextQuestion nextQuestionReference
    by_cases h : i < mockQuestions.length - 1
    · have hlt : i + 1 < mockQuestions.length := by omega
      simp [h, hlt, setTimeRemaining, setCurrentQuestion, setQuestionIndex,
        List.getElem?_eq_getElem hlt]
    · have hlt : ¬ i + 1 < mockQuestions.length := by omega
      simp [h, hlt, hr, setTimeRemaining, setCurrentQuestion, clearIntervalRef]
  · intro hl
    have h : ¬ i < mockQuestions.length - 1 := by omega
    have he : (handleNextQuestion i s).1 =
        clearIntervalRef (setTimeRemaining 0 (setCurrentQuestion none s)) := by
      unfold handleNextQuestion
      simp [h, hr]
    rw [he]
    refine ⟨rfl, rfl, rfl, ?_, ?_⟩
    · intro u
      simp [tick, clearIntervalRef]
    · unfold handleNextQuestion
      simp [h, hr, clearIntervalRef, setTimeRemaining, setCurrentQuestion]

/-- C13, instance: from the first question to the second, whose limit is 240 seconds. -/
theorem handleNextQuestion_eq_reference_witness :
    (handleNextQuestion 0 answeringState).1.questionIndex = 1 ∧
    (handleNextQuestion 0 answeringState).1.currentQuestion = mockQuestions[1]? ∧
    (handleNextQuestion 0 answeringState).1.timeRemaining = 240 := by
  have h := (handleNextQuestion_eq_reference 0 answeringState (by decide) rfl).1
  rw [h]
  exact ⟨rfl, rfl, rfl⟩

/-! ## C14 -/

/-- C14 (counterexample): a tick at remaining time 1 already runs `handleNextQuestion`: the
index moves from 0 to 1 and the current question changes, whichever of the two writes to the
remaining time React applies last. -/
theorem tick_at_one_advances :
    lastSecondState.timeRemaining = 1 ∧ lastSecondState.questionIndex = 0 ∧
    (tick true lastSecondState).1.questionIndex = 1 ∧
    (tick false lastSecondState).1.questionIndex = 1 ∧
    (tick true lastSecondState).1.currentQuestion = mockQuestions[1]? ∧
    (tick false lastSecondState).1.currentQuestion = mockQuestions[1]? ∧
    lastSecondState.currentQuestion = mockQuestions[0]? := by
  refine ⟨rfl, rfl, rfl, rfl, rfl, rfl, rfl⟩

theorem intervalCallback_timeRemaining_nonneg (i : Nat) (u : Bool) (s : State) :
    0 ≤ (intervalCallback i u s).1.timeRemaining := by
  unfold intervalCallback
  split_ifs with h1 h2
  · simp [setTimeRemaining]
  · exact handleNextQuestion_timeRemaining_nonneg i s
  · simp only [setTimeRemaining]
    omega

theorem step_timeRemaining_nonneg (e : Event) (s : State) (h : 0 ≤ s.timeRemaining) :
    0 ≤ (step e s).timeRemaining := by
  cases e with
  | mount => exact h
  | initialized result now interviewData =>
    cases result <;> simp [step, initializeInterview, setTimeRemaining]
  | tick u =>
    show 0 ≤ (tick u s).1.timeRemaining
    unfold tick
    split_ifs
    · exact intervalCallback_timeRemaining_nonneg _ u s
    · exact h
  | typeAnswer text => exact h
  | submit api now =>
    show 0 ≤ (submitAnswer api now s).1.timeRemaining
    rcases submitAnswer_cursor_cases api now s with ⟨-, -, h1⟩ | ⟨-, -, h1⟩
    · rw [h1]
      exact h
    · rw [h1]
      exact handleNextQuestion_timeRemaining_nonneg _ s

theorem run_timeRemaining_nonneg (events : List Event) (s : State) (h : 0 ≤ s.timeRemaining) :
    0 ≤ (run events s).timeRemaining := by
  induction events generalizing s with
  | nil => exact h
  | cons e es ih => exact ih (step e s) (step_timeRemaining_nonneg e s h)

/-- C14 (amended): a firing of the interval at remaining time `r >= 2` sets the remaining time
to `r - 1` and changes nothing else; a firing at `r <= 1` runs `handleNextQuestion`; the
remaining time is never negative, in any state reached from the first render. -/
theorem tick_countdown (i : Nat) (u : Bool) (s : State) :
    (2 ≤ s.timeRemaining →
      (intervalCallback i u s).1 = setTimeRemaining (s.timeRemaining - 1) s ∧
      (intervalCallback i u s).1.questionIndex = s.questionIndex ∧
      (intervalCallback i u s).1.currentQuestion = s.currentQuestion) ∧
    (s.timeRemaining ≤ 1 →
      (intervalCallback i u s).1.questionIndex = (handleNextQuestion i s).1.questionIndex ∧
      (intervalCallback i u s).1.currentQuestion = (handleNextQuestion i s).1.currentQuestion ∧
      (intervalCallback i u s).2 = (handleNextQuestion i s).2) ∧
    0 ≤ (intervalCallback i u s).1.timeRemaining ∧
    (∀ events : List Event, 0 ≤ (run events initialState).timeRemaining) := by
  refine ⟨?_, ?_, intervalCallback_timeRemaining_nonneg i u s, ?_⟩
  · intro h
    have h1 : ¬ s.timeRemaining ≤ 1 := by omega
    have he : intervalCallback i u s = (setTimeRemaining (s.timeRemaining - 1) s, []) := by
      unfold intervalCallback
      rw [if_neg h1]
    rw [he]
    exact ⟨rfl, rfl, rfl⟩
  · intro h
    have he : intervalCallback i u s =
        (if u then setTimeRemaining 0 (handleNextQuestion i s).1
          else (handleNextQuestion i s).1, (handleNextQuestion i s).2) := by
      unfold intervalCallback
      rw [if_pos h]
    rw [he]
    cases u <;> exact ⟨rfl, rfl, rfl⟩
  · intro events
    exact run_timeRemaining_nonneg events initialState (le_refl _)

/-- C14 (amended), instance: a tick at 300 seconds leaves 299 and the first question. -/
theorem tick_countdown_witness :
    (tick true answeringState).1.timeRemaining = 299 ∧
    (tick true answeringState).1.questionIndex = 0 ∧
    (tick true answeringState).1.currentQuestion = answeringState.currentQuestion := by
  have h := (tick_countdown timerQuestionIndex true answeringState).1 (by decide)
  have ht : tick true answeringState = intervalCallback timerQuestionIndex true answeringState :=
    rfl
  rw [ht]
  refine ⟨?_, h.2.1, h.2.2⟩
  rw [h.1]
  rfl

/-! ## C15 -/

set_option maxRecDepth 100000 in
/-- C15 (the code departs from the claim): after two answers and a time-out on the third
question, the interval callback, which still holds the `handleNextQuestion` of the first
render, puts the second question back on screen; the next submission appends a second record
for it. -/
theorem timeoutThenAnswer_duplicates_question :
    (run (timeoutThenAnswer true) initialState).answers.map (fun rec => rec.question) =
      [ "Tell me about yourself and your experience with software development.",
        "How do you approach debugging a complex issue in production?",
        "How do you approach debugging a complex issue in production?" ] ∧
    (run (timeoutThenAnswer false) initialState).answers.map (fun rec => rec.question) =
      [ "Tell me about yourself and your experience with software development.",
        "How do you approach debugging a complex issue in production?",
        "How do you approach debugging a complex issue in production?" ] := by
  constructor <;> rfl

/-! ## C16 -/

/-- C16: the session id is the first truthy one of `response.data.session_id`,
`response.session_id` and `response.data.data.session_id`; without any, or when the start
call throws, it is `temp_` followed by the timestamp in decimal; in each case the first
question is loaded with its limit of 300 seconds. -/
theorem initializeInterview_sessionId (now : Nat) (interviewData : JSVal) (s : State) :
    (∀ r : JSVal,
      (initializeInterview (ApiResult.returns r) now interviewData s).sessionId =
        (if ((r.getProp "data").getProp "session_id").truthy = true then
          (r.getProp "data").getProp "session_id"
        else if (r.getProp "session_id").truthy = true then r.getProp "session_id"
        else if (((r.getProp "data").getProp "data").getProp "session_id").truthy = true then
          ((r.getProp "data").getProp "data").getProp "session_id"
        else JSVal.str ("temp_" ++ toString now)) ∧
      (initializeInterview (ApiResult.returns r) now interviewData s).currentQuestion =
        some firstQuestion ∧
      (initializeInterview (ApiResult.returns r) now interviewData s).timeRemaining = 300) ∧
    (∀ e : JSVal,
      (initializeInterview (ApiResult.throws e) now interviewData s).sessionId =
        JSVal.str ("temp_" ++ toString now) ∧
      (initializeInterview (ApiResult.throws e) now interviewData s).currentQuestion =
        some firstQuestion ∧
      (initializeInterview (ApiResult.throws e) now interviewData s).timeRemaining = 300) := by
  constructor
  · intro r
    refine ⟨?_, ?_, ?_⟩
    · simp only [initializeInterview, sessionIdValue, optProp_eq_getProp, tempSessionId]
      split_ifs <;>
        simp_all [setTimeRemaining, setCurrentQuestion, setInterviewSession, setSessionId,
          truthy]
    · simp only [initializeInterview]
      rfl
    · simp only [initializeInterview]
      rfl
  · intro e
    exact ⟨rfl, rfl, rfl⟩

/-- C16, instance: a start response without any session id, at time 1700000000000. -/
theorem initializeInterview_sessionId_witness :
    (initializeInterview (ApiResult.returns unscoredResponse) 1700000000000 (JSVal.obj [])
      initialState).sessionId = JSVal.str "temp_1700000000000" ∧
    (initializeInterview (ApiResult.returns startResponse) 1700000000000 (JSVal.obj [])
      initialState).sessionId = JSVal.str "session-1" := by
  have h := (initializeInterview_sessionId 1700000000000 (JSVal.obj []) initialState).1
  constructor
  · rw [(h unscoredResponse).1]
    simp [unscoredResponse, getProp, List.lookup, truthy]
    rfl
  · rw [(h startResponse).1]
    simp [startResponse, getProp, List.lookup, truthy]

/-! ## C17 -/

theorem scoreOrZero_some (q : ℚ) : scoreOrZero (some q) = q := by
  show (if q = 0 then 0 else q) = q
  split_ifs with h
  · exact h.symm
  · rfl

theorem foldl_add_scoreOrZero (l : List AnswerRecord) (a : ℚ) :
    l.foldl (fun sum x => sum + scoreOrZero x.score) a =
      a + (l.map fun x => scoreOrZero x.score).sum := by
  induction l generalizing a with
  | nil => simp
  | cons x xs ih =>
    simp only [List.foldl_cons, List.map_cons, List.sum_cons]
    rw [ih]
    ring

theorem localReportElse_eq_expected (sid : JSVal) (answers : List AnswerRecord)
    (emotion sentiment : JSVal) (completedAt : String) :
    localReportElse sid answers emotion sentiment completedAt =
      expectedReport sid answers emotion sentiment completedAt := by
  unfold localReportElse expectedReport
  cases answers with
  | nil => simp
  | cons a as =>
    simp only [List.length_cons, gt_iff_lt, Nat.zero_lt_succ, if_true, mathRound, Option.map,
      mean, foldl_add_scoreOrZero, zero_add, List.length_map]

theorem localReportCatch_eq_else (sid : JSVal) (answers : List AnswerRecord)
    (emotion sentiment : JSVal) (completedAt : String) :
    localReportCatch sid answers emotion sentiment completedAt =
      localReportElse sid answers emotion sentiment completedAt := rfl

/-- C17: with a session id set, the report stored when the report call throws and the one
stored when it yields no usable payload are the same report: `answered_questions` is the
length of the answers list, `total_questions` the number of questions, `overall_score` the
rounded mean of the scores, or 0 for the empty list; another session id changes the
`session_id` field only. -/
theorem handleViewResults_local_report (completedAt : String) (s : State)
    (hs : s.sessionId.truthy = true) :
    (∀ e : JSVal, (handleViewResults (ApiResult.throws e) completedAt s).1.interviewReport =
      ReportCell.computed
        (expectedReport s.sessionId s.answers s.emotionData s.sentimentData completedAt)) ∧
    (∀ r : JSVal,
      (r.truthy && ((r.getProp "data").or (r.getProp "success")).truthy) = false →
      (handleViewResults (ApiResult.returns r) completedAt s).1.interviewReport =
        ReportCell.computed
          (expectedReport s.sessionId s.answers s.emotionData s.sentimentData completedAt)) ∧
    (expectedReport s.sessionId s.answers s.emotionData s.sentimentData
      completedAt).answered_questions = s.answers.length ∧
    (expectedReport s.sessionId s.answers s.emotionData s.sentimentData
      completedAt).total_questions = mockQuestions.length ∧
    (s.answers = [] →
      (expectedReport s.sessionId s.answers s.emotionData s.sentimentData
        completedAt).overall_score = some 0) ∧
    (∀ qs : List ℚ, s.answers.map (fun a => a.score) = qs.map some → qs ≠ [] →
      (expectedReport s.sessionId s.answers s.emotionData s.sentimentData
        completedAt).overall_score =
        some ((roundHalfUp (qs.sum / (qs.length : ℚ)) : ℤ) : ℚ)) ∧
    (∀ sid : JSVal,
      expectedReport sid s.answers s.emotionData s.sentimentData completedAt =
        { expectedReport s.sessionId s.answers s.emotionData s.sentimentData completedAt with
          session_id := sid }) := by
  refine ⟨?_, ?_, rfl, rfl, ?_, ?_, fun _ => rfl⟩
  · intro e
    simp only [handleViewResults, hs, Bool.not_true, Bool.false_eq_true, if_false]
    simp only [setIsLoadingReport, setInterviewReport, localReportCatch_eq_else,
      localReportElse_eq_expected]
  · intro r hr
    simp only [handleViewResults, hs, Bool.not_true, Bool.false_eq_true, if_false, hr]
    simp only [setIsLoadingReport, setInterviewReport, localReportElse_eq_expected]
  · intro h
    simp [expectedReport, h]
  · intro qs hq hne
    have hmap : (s.answers.map fun a => scoreOrZero a.score) = qs := by
      have := congrArg (List.map scoreOrZero) hq
      simpa [List.map_map, Function.comp_def, scoreOrZero_some] using this
    have hlen : s.answers ≠ [] := by
      intro h
      rw [h] at hq
      cases qs with
      | nil => exact hne rfl
      | cons x xs => simp at hq
    unfold expectedReport
    cases ha : s.answers with
    | nil => exact absurd ha hlen
    | cons a as =>
      simp only
      rw [← ha, hmap]
      rfl

/-- C17, instance: two answers with scores 82 and 75 under a placeholder id, the report call
failing: `overall_score` is 79, two of four questions are answered. -/
theorem handleViewResults_local_report_witness :
    ∃ report : LocalReport,
      (handleViewResults (ApiResult.throws networkError) "2026-01-01T00:00:00.000Z"
        finishedState).1.interviewReport = ReportCell.computed report ∧
      report.overall_score = some 79 ∧
      report.answered_questions = 2 ∧
      report.total_questions = 4 ∧
      report.session_id = JSVal.str "temp_1700000000000" := by
  have h := handleViewResults_local_report "2026-01-01T00:00:00.000Z" finishedState rfl
  obtain ⟨h1, -, h3, h4, -, h6, -⟩ := h
  refine ⟨_, h1 networkError, ?_, h3, h4, rfl⟩
  rw [h6 [82, 75] rfl (by simp)]
  have : roundHalfUp (([82, 75] : List ℚ).sum / (([82, 75] : List ℚ).length : ℚ)) = 79 := by
    rw [roundHalfUp_eq_iff]
    norm_num
  rw [this]
  norm_num

/-! ## C18 -/

/-- C18 (counterexample): after `stopCamera` the camera-on flag is false and the socket is
still open; a finalized line delivered by the recognition engine is sent on the channel. -/
theorem transcript_sent_with_camera_off :
    cameraOffState.isCameraOn = false ∧
    cameraOffState.websocketRef = some ReadyState.OPEN ∧
    (recognitionOnresult finalBatch 0 cameraOffState).2 =
      [Effect.send (OutboundMessage.transcriptLine "I led a team of four")] := by
  exact ⟨rfl, rfl, rfl⟩

theorem recognitionOnresult_effects (results : List SpeechResult) (resultIndex : Nat)
    (s : State) :
    (recognitionOnresult results resultIndex s).2 =
      if s.websocketRef = some ReadyState.OPEN ∧ (collectTranscripts results resultIndex).1 ≠ ""
      then
        [Effect.send (OutboundMessage.transcriptLine
          (jsTrim (collectTranscripts results resultIndex).1))]
      else [] := by
  unfold recognitionOnresult
  by_cases h1 : s.websocketRef = some ReadyState.OPEN <;>
    by_cases h2 : (collectTranscripts results resultIndex).1 = "" <;>
    simp [h1, h2, truthy_str]

/-- C18 (amended): transcript lines do not stop with the camera.  `onresult` sends the line
exactly when the socket is open and the batch has a finalized fragment, and what it sends does
not depend on the camera-on flag; `stopCamera` unsets the flag and leaves the socket and the
recognition engine as they are, so after it a finalized line is still sent whenever the socket
is open. -/
theorem transcript_traffic_ignores_camera (results : List SpeechResult) (resultIndex : Nat)
    (s : State) :
    (recognitionOnresult results resultIndex s).2 =
      (if s.websocketRef = some ReadyState.OPEN ∧
          (collectTranscripts results resultIndex).1 ≠ "" then
        [Effect.send (OutboundMessage.transcriptLine
          (jsTrim (collectTranscripts results resultIndex).1))]
      else []) ∧
    (∀ b : Bool, (recognitionOnresult results resultIndex (setIsCameraOn b s)).2 =
      (recognitionOnresult results resultIndex s).2) ∧
    (stopCamera s).1.isCameraOn = false ∧
    (stopCamera s).1.websocketRef = s.websocketRef ∧
    (stopCamera s).1.recognitionRef = s.recognitionRef ∧
    (recognitionOnresult results resultIndex (stopCamera s).1).2 =
      (recognitionOnresult results resultIndex s).2 := by
  have h1 : (stopCamera s).1.websocketRef = s.websocketRef := by
    unfold stopCamera
    cases s.streamRef <;> rfl
  refine ⟨recognitionOnresult_effects results resultIndex s, ?_, ?_, h1, ?_, ?_⟩
  · intro b
    rw [recognitionOnresult_effects, recognitionOnresult_effects]
    rfl
  · unfold stopCamera
    cases s.streamRef <;> rfl
  · unfold stopCamera
    cases s.streamRef <;> rfl
  · rw [recognitionOnresult_effects, recognitionOnresult_effects, h1]

/-! ## C19 -/

/-- C19 (counterexample): the open-confirmed event sets the sentiment status to active, from
idle, without any transcript having been sent. -/
theorem onopen_sets_sentiment_active :
    initialState.sentimentStatus = Status.idle ∧
    (websocketOnopen initialState).sentimentStatus = Status.active := by
  exact ⟨rfl, rfl⟩

theorem handleNextQuestion_sentimentStatus (i : Nat) (s : State) :
    (handleNextQuestion i s).1.sentimentStatus = s.sentimentStatus := by
  unfold handleNextQuestion
  split_ifs <;> rfl

theorem submitAnswer_sentimentStatus (api : SubmitApi) (now : Nat) (s : State) :
    (submitAnswer api now s).1.sentimentStatus = s.sentimentStatus := by
  have he : (ensureSessionId now s).sentimentStatus = s.sentimentStatus := by
    unfold ensureSessionId
    split_ifs <;> rfl
  have hfail : (failedState now s).sentimentStatus = s.sentimentStatus := he
  by_cases ht : jsTrim s.answerText = ""
  · rw [submitAnswer_rejected api now s (Or.inl ht)]
  · cases hq : s.currentQuestion with
    | none => rw [submitAnswer_rejected api now s (Or.inr hq)]
    | some q =>
      cases hapi : api (activeSessionId now s) s.answerText q.id with
      | throws e =>
        rw [submitAnswer_throws_eq ⟨hq, ht, hapi⟩]
        exact hfail
      | returns r =>
        have hc : CallReturns api now s q r := ⟨hq, ht, hapi⟩
        cases hr : r.truthy
        · cases hn : r.isNullish
          · rw [submitAnswer_falsy_eq hc hr hn]
            exact hfail
          · rw [submitAnswer_nullish_eq hc hn]
            exact hfail
        · rw [submitAnswer_accepted_eq hc hr]
          unfold acceptedState
          show (handleNextQuestion _ _).1.sentimentStatus = _
          rw [handleNextQuestion_sentimentStatus]
          exact he

theorem runSteps_sentimentStatus (steps : List (State → State × List Effect))
    (h : ∀ f ∈ steps, ∀ t, (f t).1.sentimentStatus = t.sentimentStatus) (s : State) :
    (runSteps steps s).1.sentimentStatus = s.sentimentStatus := by
  unfold runSteps
  have key : ∀ (l : List (State → State × List Effect)) (acc : State × List Effect),
      (∀ f ∈ l, ∀ t, (f t).1.sentimentStatus = t.sentimentStatus) →
      (l.foldl (fun acc f => ((f acc.1).1, acc.2 ++ (f acc.1).2)) acc).1.sentimentStatus =
        acc.1.sentimentStatus := by
    intro l
    induction l with
    | nil => intro acc _; rfl
    | cons f fs ih =>
      intro acc hl
      rw [List.foldl_cons, ih _ (fun g hg => hl g (List.mem_cons_of_mem _ hg))]
      exact hl f (List.mem_cons_self _ _) acc.1
  exact key steps (s, []) h

theorem stopRecorderIfActive_sentimentStatus (t : State) :
    (stopRecorderIfActive t).1.sentimentStatus = t.sentimentStatus := by
  unfold stopRecorderIfActive
  cases t.mediaRecorderRef with
  | none => rfl
  | some st =>
    simp only
    split_ifs <;> rfl

theorem stopRecording_sentimentStatus (s : State) :
    (stopRecording s).1.sentimentStatus = s.sentimentStatus := by
  unfold stopRecording
  apply runSteps_sentimentStatus
  intro f hf t
  simp only [List.mem_cons, List.mem_singleton, List.not_mem_nil, or_false] at hf
  rcases hf with rfl | rfl | rfl
  · exact stopRecorderIfActive_sentimentStatus t
  · unfold stopAndClearEngine
    split_ifs <;> rfl
  · rfl

theorem exitSteps_sentimentStatus (t : State) :
    (exitClearTimer t).1.sentimentStatus = t.sentimentStatus ∧
    (exitCloseSocket t).1.sentimentStatus = t.sentimentStatus ∧
    (exitStopTracks t).1.sentimentStatus = t.sentimentStatus ∧
    (exitClearVideo t).1.sentimentStatus = t.sentimentStatus ∧
    (exitStopEngine t).1.sentimentStatus = t.sentimentStatus := by
  refine ⟨?_, ?_, ?_, ?_, ?_⟩
  · unfold exitClearTimer
    split_ifs <;> rfl
  · unfold exitCloseSocket
    cases t.websocketRef with
    | none => rfl
    | some r => cases r <;> rfl
  · unfold exitStopTracks
    cases t.streamRef <;> rfl
  · unfold exitClearVideo
    split_ifs <;> rfl
  · unfold exitStopEngine
    split_ifs <;> rfl

theorem unmountCleanup_sentimentStatus (s : State) :
    (unmountCleanup s).1.sentimentStatus = s.sentimentStatus := by
  unfold unmountCleanup
  apply runSteps_sentimentStatus
  intro f hf t
  obtain ⟨e1, e2, e3, -, e5⟩ := exitSteps_sentimentStatus t
  simp only [List.mem_cons, List.mem_singleton, List.not_mem_nil, or_false] at hf
  rcases hf with rfl | rfl | rfl | rfl | rfl
  · exact e1
  · exact e2
  · exact e3
  · exact stopRecorderIfActive_sentimentStatus t
  · exact e5

theorem handleExitInterview_sentimentStatus (confirmed : Bool) (s : State) :
    (handleExitInterview confirmed s).1.sentimentStatus = s.sentimentStatus := by
  unfold handleExitInterview
  split_ifs
  · apply runSteps_sentimentStatus
    intro f hf t
    obtain ⟨e1, e2, e3, e4, e5⟩ := exitSteps_sentimentStatus t
    simp only [List.mem_cons, List.mem_singleton, List.not_mem_nil, or_false] at hf
    rcases hf with rfl | rfl | rfl | rfl | rfl | rfl | rfl | rfl
    · exact e1
    · exact e2
    · exact e3
    · exact e4
    · exact stopRecorderIfActive_sentimentStatus t
    · exact e5
    · exact stopRecording_sentimentStatus t
    · rfl
  · rfl

theorem Stage.andThen_sentimentStatus (r : Stage) (next : State → Stage)
    (h : ∀ t, (next t).state.sentimentStatus = t.sentimentStatus) :
    (r.andThen next).state.sentimentStatus = r.state.sentimentStatus := by
  cases r with
  | halt s e => rfl
  | proceed s e =>
    have := h s
    unfold Stage.andThen
    cases hn : next s <;> simp_all [Stage.state]

theorem startRecording_sentimentStatus (env : RecordingEnv) (s : State) :
    (startRecording env s).1.sentimentStatus = s.sentimentStatus := by
  have h1 : ∀ t, (checkSupport env t).state.sentimentStatus = t.sentimentStatus := by
    intro t
    unfold checkSupport
    split_ifs <;> rfl
  have h2 : ∀ t, (acquireStream env t).state.sentimentStatus = t.sentimentStatus := by
    intro t
    unfold acquireStream
    split_ifs
    · cases env.microphone with
      | refused n => rfl
      | granted tr =>
        cases t.streamRef with
        | none => rfl
        | some tracks =>
          simp only
          split_ifs <;> rfl
    · rfl
  have h3 : ∀ t, (verifyAudio env t).state.sentimentStatus = t.sentimentStatus := by
    intro t
    unfold verifyAudio
    cases t.streamRef with
    | none => rfl
    | some tracks =>
      simp only
      split_ifs
      · rfl
      · cases env.freshMicrophone <;> rfl
      · rfl
  have h4 : ∀ t, (createRecorder env t).state.sentimentStatus = t.sentimentStatus := by
    intro t
    unfold createRecorder
    cases negotiate env <;> rfl
  have h5 : ∀ t, (startRecognition env t).state.sentimentStatus = t.sentimentStatus := by
    intro t
    unfold startRecognition
    split_ifs
    · cases env.recognitionStartError with
      | none => rfl
      | some n =>
        simp only
        split_ifs <;> rfl
    · rfl
  have h6 : ∀ t, (startRecorder env t).state.sentimentStatus = t.sentimentStatus := by
    intro t
    unfold startRecorder
    cases t.streamRef with
    | none => rfl
    | some tracks =>
      simp only
      split_ifs <;> rfl
  show (Stage.andThen _ _).state.sentimentStatus = _
  rw [Stage.andThen_sentimentStatus _ _ h6, Stage.andThen_sentimentStatus _ _ h5,
    Stage.andThen_sentimentStatus _ _ h4, Stage.andThen_sentimentStatus _ _ h3,
    Stage.andThen_sentimentStatus _ _ h2, h1]

theorem startEmotionAnalysis_sentimentStatus (sid : JSVal) (cam : Bool) (img : String)
    (s : State) :
    (startEmotionAnalysis sid cam img s).1.sentimentStatus = s.sentimentStatus := by
  unfold startEmotionAnalysis
  split_ifs <;> rfl

theorem startCamera_sentimentStatus (sid : JSVal) (cam : Bool) (media : MediaResult)
    (img : String) (s : State) :
    (startCamera sid cam media img s).1.sentimentStatus = s.sentimentStatus := by
  unfold startCamera
  cases media with
  | refused errorName => rfl
  | granted tracks =>
    by_cases hsid : sid.truthy = true
    · simp only [hsid, if_true]
      exact startEmotionAnalysis_sentimentStatus _ _ _ _
    · simp only [hsid, if_false]
      rfl

theorem websocketOnmessage_sentimentStatus (parsed : Option JSVal) (s : State) :
    (setsSentimentActive (Handler.websocketOnmessage parsed) s = true →
      (websocketOnmessage parsed s).sentimentStatus = Status.active) ∧
    (setsSentimentActive (Handler.websocketOnmessage parsed) s = false →
      (websocketOnmessage parsed s).sentimentStatus = s.sentimentStatus ∨
      (websocketOnmessage parsed s).sentimentStatus = Status.error) := by
  cases parsed with
  | none => exact ⟨fun h => by simp [setsSentimentActive] at h, fun _ => Or.inl rfl⟩
  | some data =>
    simp only [setsSentimentActive, Bool.and_eq_true, Bool.and_eq_false_iff]
    constructor
    · rintro ⟨ht, hs⟩
      have hn : data.isNullish = false := by
        cases data <;> simp_all [strictEqualsString, getProp, isNullish]
      have h1 : strictEqualsString (data.getProp "type") "emotion_update" = false := by
        cases hd : data.getProp "type" <;> simp_all [strictEqualsString]
      simp [websocketOnmessage, hn, h1, ht, optProp_eq_getProp, hs, setSentimentStatus]
    · intro hfalse
      unfold websocketOnmessage
      simp only
      by_cases hn : data.isNullish = true
      · rw [if_pos hn]
        exact Or.inl rfl
      · rw [if_neg hn]
        by_cases h1 : strictEqualsString (data.getProp "type") "emotion_update" = true
        · rw [if_pos h1]
          exact Or.inl rfl
        · rw [if_neg h1]
          by_cases h2 : strictEqualsString (data.getProp "type") "transcript_analysis" = true
          · rw [if_pos h2]
            have hs : (((data.getProp "data").getProp "analysis").getProp "sentiment").truthy =
                false := by
              rcases hfalse with hf | hf
              · rw [h2] at hf
                cases hf
              · exact hf
            rw [optProp_eq_getProp, optProp_eq_getProp, hs]
            exact Or.inl rfl
          · rw [if_neg h2]
            by_cases h3 : strictEqualsString (data.getProp "type") "error" = true
            · rw [if_pos h3]
              cases data.getProp "error" with
              | str error =>
                simp only
                by_cases hs : includes error "sentiment" = true
                · right
                  rw [if_pos hs]
                  rfl
                · left
                  rw [if_neg hs]
                  split_ifs <;> rfl
              | _ => exact Or.inl rfl
            · rw [if_neg h3]
              exact Or.inl rfl

/-- C19 (amended): the handlers of the component set the sentiment status to active in
exactly three transitions: the open event of the socket, an inbound `transcript_analysis`
that carries a truthy sentiment, and an `onresult` that sends a transcript line.  Every other
run of every handler leaves the status as it is, or sets it to error or to idle; an `onresult`
is one of the three exactly when it sends a transcript line. -/
theorem sentimentStatus_transitions (h : Handler) (s : State) :
    (setsSentimentActive h s = true → (runHandler h s).sentimentStatus = Status.active) ∧
    (setsSentimentActive h s = false →
      (runHandler h s).sentimentStatus = s.sentimentStatus ∨
      (runHandler h s).sentimentStatus = Status.error ∨
      (runHandler h s).sentimentStatus = Status.idle) ∧
    (∀ (results : List SpeechResult) (resultIndex : Nat),
      setsSentimentActive (Handler.recognitionOnresult results resultIndex) s = true ↔
        (recognitionOnresult results resultIndex s).2 =
          [Effect.send (OutboundMessage.transcriptLine
            (jsTrim (collectTranscripts results resultIndex).1))]) := by
  refine ⟨?_, ?_, ?_⟩
  · intro ht
    cases h with
    | websocketOnopen => rfl
    | websocketOnmessage parsed => exact (websocketOnmessage_sentimentStatus parsed s).1 ht
    | recognitionOnresult results resultIndex =>
      simp only [setsSentimentActive, Bool.and_eq_true, decide_eq_true_eq] at ht
      simp [runHandler, recognitionOnresult, ht.1, ht.2, truthy_str, setSentimentStatus]
    | _ => simp [setsSentimentActive] at ht
  · intro hf
    cases h with
    | mount => exact Or.inl rfl
    | initializeInterview result now interviewData =>
      left
      show (initializeInterview result now interviewData s).sentimentStatus = _
      unfold initializeInterview
      cases result with
      | returns response =>
        simp only
        split_ifs <;> rfl
      | throws e => rfl
    | tick updaterLast =>
      left
      show (tick updaterLast s).1.sentimentStatus = _
      unfold tick intervalCallback
      split_ifs
      · exact handleNextQuestion_sentimentStatus _ _
      · exact handleNextQuestion_sentimentStatus _ _
      · rfl
      · rfl
    | unmountCleanup => exact Or.inl (unmountCleanup_sentimentStatus s)
    | cameraEffect imageData =>
      left
      show (cameraEffect imageData s).1.sentimentStatus = _
      unfold cameraEffect
      split_ifs
      · exact startEmotionAnalysis_sentimentStatus _ _ _ _
      · rfl
    | startCamera sessionId isCameraOn media imageData =>
      exact Or.inl (startCamera_sentimentStatus sessionId isCameraOn media imageData s)
    | stopCamera =>
      left
      show (stopCamera s).1.sentimentStatus = _
      unfold stopCamera
      cases s.streamRef <;> rfl
    | websocketOnopen => simp [setsSentimentActive] at hf
    | websocketOnmessage parsed =>
      rcases (websocketOnmessage_sentimentStatus parsed s).2 hf with h1 | h1
      · exact Or.inl h1
      · exact Or.inr (Or.inl h1)
    | websocketOnerror => exact Or.inr (Or.inl rfl)
    | websocketOnclose => exact Or.inr (Or.inr rfl)
    | captureFrame isCameraOn imageData => exact Or.inl rfl
    | startRecording env => exact Or.inl (startRecording_sentimentStatus env s)
    | recorderOndataavailable size =>
      left
      show (recorderOndataavailable size s).sentimentStatus = _
      unfold recorderOndataavailable
      cases size with
      | none => rfl
      | some n =>
        simp only
        split_ifs <;> rfl
    | recorderOnerror => exact Or.inl rfl
    | recorderOnstop => exact Or.inl rfl
    | recognitionOnstart => exact Or.inl rfl
    | recognitionOnresult results resultIndex =>
      left
      simp only [setsSentimentActive, Bool.and_eq_false_iff, decide_eq_false_iff_not,
        not_not] at hf
      show (recognitionOnresult results resultIndex s).1.sentimentStatus = _
      unfold recognitionOnresult
      rcases hf with hf | hf
      · simp [hf]
        rfl
      · simp [hf, truthy_str]
        rfl
    | recognitionOnerror error =>
      left
      show (recognitionOnerror error s).1.sentimentStatus = _
      unfold recognitionOnerror
      split_ifs <;> rfl
    | recognitionOnend c =>
      left
      show (recognitionOnend c s).1.sentimentStatus = _
      unfold recognitionOnend
      split_ifs <;> rfl
    | restartCallback c =>
      left
      show (restartCallback c s).1.sentimentStatus = _
      unfold restartCallback
      split_ifs <;> rfl
    | stopRecording => exact Or.inl (stopRecording_sentimentStatus s)
    | handleNextQuestion questionIndex =>
      exact Or.inl (handleNextQuestion_sentimentStatus questionIndex s)
    | submitAnswer api now => exact Or.inl (submitAnswer_sentimentStatus api now s)
    | handleExitInterview confirmed =>
      exact Or.inl (handleExitInterview_sentimentStatus confirmed s)
    | handleViewResults result completedAt =>
      left
      show (handleViewResults result completedAt s).1.sentimentStatus = _
      unfold handleViewResults
      split_ifs
      · rfl
      · cases result with
        | returns response =>
          simp only
          split_ifs <;> rfl
        | throws e => rfl
    | typeAnswer text => exact Or.inl rfl
    | closeResults => exact Or.inl rfl
    | backToInterviews => exact Or.inl rfl
  · intro results resultIndex
    rw [recognitionOnresult_effects]
    simp only [setsSentimentActive, Bool.and_eq_true, decide_eq_true_eq]
    constructor
    · intro hc
      rw [if_pos hc]
    · intro he
      by_contra hc
      rw [if_neg hc] at he
      cases he

/-- C19 (amended), instance: in a state whose sentiment status is idle, an `emotion_update`
leaves it idle and the open event makes it active. -/
theorem sentimentStatus_transitions_witness :
    (websocketOnmessage (some emotionUpdateMessage) initialState).sentimentStatus =
      Status.idle ∧
    (websocketOnopen initialState).sentimentStatus = Status.active := by
  have h1 := (sentimentStatus_transitions (Handler.websocketOnmessage
    (some emotionUpdateMessage)) initialState).2.1 (by decide)
  have h2 := (sentimentStatus_transitions Handler.websocketOnopen initialState).1 rfl
  refine ⟨?_, h2⟩
  rcases h1 with h1 | h1 | h1
  · exact h1
  · exact absurd h1 (by decide)
  · exact h1

/-! ## C20 -/

/-- C20 (counterexample): after an error that only sets the seen-flag (`bad-grammar`), a
`not-allowed` error is ignored: the transcription status stays active and the engine is not
stopped. -/
theorem not_allowed_after_other_error_ignored :
    (recognitionOnerror "bad-grammar" cameraOnState).1.transcriptionStatus = Status.active ∧
    (recognitionOnerror "not-allowed"
      (recognitionOnerror "bad-grammar" cameraOnState).1).1.transcriptionStatus =
        Status.active ∧
    (recognitionOnerror "not-allowed"
      (recognitionOnerror "bad-grammar" cameraOnState).1).2 = [] := by
  refine ⟨rfl, rfl, rfl⟩

/-- C20 (amended): a `not-allowed` error received while the seen-flag is still unset sets the
transcription status to error and stops the engine the ref holds; and no restart is issued by
an `onend` handler, or by its delayed callback, that reads the status as error or the
recording flag as false (the flag is false in every render that can run `startRecording`). -/
theorem not_allowed_first_error_terminal (s : State) (h : s.errorShownRef = false) :
    (recognitionOnerror "not-allowed" s).1.transcriptionStatus = Status.error ∧
    (recognitionOnerror "not-allowed" s).1.errorShownRef = true ∧
    (s.recognitionRef = true →
      (recognitionOnerror "not-allowed" s).2 = [Effect.recognitionStop]) ∧
    (∀ (c : RecordingClosure) (t : State),
      c.isRecording = false ∨ c.transcriptionStatus = Status.error →
      (recognitionOnend c t).2 = [] ∧ (restartCallback c t).2 = []) := by
  have he : recognitionOnerror "not-allowed" s =
      (setTranscriptionStatus Status.error { s with errorShownRef := true },
        if s.recognitionRef then [Effect.recognitionStop] else []) := by
    unfold recognitionOnerror
    simp [h]
  rw [he]
  refine ⟨rfl, rfl, ?_, ?_⟩
  · intro hr
    simp [hr]
  · intro c t hc
    rcases hc with hc | hc <;> simp [recognitionOnend, restartCallback, hc]

/-- C20 (amended), instance: `not-allowed` as the first error in a state with a running
engine. -/
theorem not_allowed_first_error_terminal_witness :
    (recognitionOnerror "not-allowed" cameraOnState).1.transcriptionStatus = Status.error ∧
    (recognitionOnerror "not-allowed" cameraOnState).2 = [Effect.recognitionStop] ∧
    (recognitionOnend { isRecording := false, transcriptionStatus := Status.active }
      (recognitionOnerror "not-allowed" cameraOnState).1).2 = [] := by
  obtain ⟨h1, -, h3, h4⟩ := not_allowed_first_error_terminal cameraOnState rfl
  exact ⟨h1, h3 rfl, (h4 _ _ (Or.inl rfl)).1⟩

/-! ## C24 -/

theorem collectTranscripts_foldl (batch : List SpeechResult) (a b : String) :
    batch.foldl
      (fun acc result =>
        if result.isFinal then (acc.1 ++ result.transcript ++ " ", acc.2)
        else (acc.1, acc.2 ++ result.transcript))
      (a, b) =
    (a ++ concatAll ((finalFragments batch).map fun t => t ++ " "),
      b ++ concatAll (interimFragments batch)) := by
  induction batch generalizing a b with
  | nil => simp [finalFragments, interimFragments, concatAll]
  | cons r rs ih =>
    rw [List.foldl_cons]
    cases hf : r.isFinal
    · simp only [hf, Bool.false_eq_true, if_false]
      rw [ih]
      simp [finalFragments, interimFragments, hf, concatAll, String.append_assoc]
    · simp only [hf, if_true]
      rw [ih]
      simp [finalFragments, interimFragments, hf, concatAll, String.append_assoc]

theorem collectTranscripts_eq (results : List SpeechResult) (resultIndex : Nat) :
    collectTranscripts results resultIndex =
      (concatAll ((finalFragments (results.drop resultIndex)).map fun t => t ++ " "),
        concatAll (interimFragments (results.drop resultIndex))) := by
  unfold collectTranscripts
  rw [collectTranscripts_foldl]
  simp

/-- C24: for a result batch (the results from `resultIndex` on), the live answer text is the
trimmed string made of every finalized fragment followed by one space, in batch order, then
the interim fragments; the text sent on the channel is the trimmed string of the finalized
part alone, and nothing is sent when the batch has no finalized fragment or the socket is not
open. -/
theorem recognitionOnresult_aggregation (results : List SpeechResult) (resultIndex : Nat)
    (s : State) :
    (recognitionOnresult results resultIndex s).1.answerText =
      jsTrim (concatAll ((finalFragments (results.drop resultIndex)).map fun t => t ++ " ") ++
        concatAll (interimFragments (results.drop resultIndex))) ∧
    (s.websocketRef = some ReadyState.OPEN →
      finalFragments (results.drop resultIndex) ≠ [] →
      (recognitionOnresult results resultIndex s).2 =
        [Effect.send (OutboundMessage.transcriptLine
          (jsTrim (concatAll
            ((finalFragments (results.drop resultIndex)).map fun t => t ++ " "))))]) ∧
    (finalFragments (results.drop resultIndex) = [] →
      (recognitionOnresult results resultIndex s).2 = []) ∧
    (s.websocketRef ≠ some ReadyState.OPEN →
      (recognitionOnresult results resultIndex s).2 = []) := by
  have hc := collectTranscripts_eq results resultIndex
  refine ⟨?_, ?_, ?_, ?_⟩
  · unfold recognitionOnresult
    rw [hc]
    dsimp only
    split_ifs <;> simp [setSentimentStatus, setAnswerText]
  · intro ho hne
    rw [recognitionOnresult_effects, hc]
    have hne2 : concatAll ((finalFragments (results.drop resultIndex)).map fun t => t ++ " ")
        ≠ "" := by
      cases hl : finalFragments (results.drop resultIndex) with
      | nil => exact absurd hl hne
      | cons x xs =>
        intro h
        have := congrArg String.length h
        simp [concatAll, String.length_append] at this
        exact absurd this.1.2 (by decide)
    rw [if_pos ⟨ho, hne2⟩]
  · intro he
    rw [recognitionOnresult_effects, hc, he]
    simp [concatAll]
  · intro hn
    rw [recognitionOnresult_effects]
    simp [hn]

/-- C24, instance: a batch with the finalized fragments `I led` and `a team` around the
interim fragment `and shipped`, on an open socket. -/
theorem recognitionOnresult_aggregation_witness :
    (recognitionOnresult mixedBatch 0 cameraOnState).1.answerText =
      "I led a team and shipped" ∧
    (recognitionOnresult mixedBatch 0 cameraOnState).2 =
      [Effect.send (OutboundMessage.transcriptLine "I led a team")] := by
  obtain ⟨h1, h2, -, -⟩ := recognitionOnresult_aggregation mixedBatch 0 cameraOnState
  refine ⟨?_, ?_⟩
  · rw [h1]
    decide
  · rw [h2 rfl (by decide)]
    have : jsTrim (concatAll ((finalFragments (mixedBatch.drop 0)).map fun t => t ++ " ")) =
        "I led a team" := by decide
    rw [this]

/-! ## C25 -/

/-- The model of `includes` is the substring relation. -/
theorem includes_iff (text part : String) :
    includes text part = true ↔ ∃ a b : List Char, text.data = a ++ part.data ++ b := by
  unfold includes
  rw [List.any_eq_true]
  constructor
  · rintro ⟨rest, hrest, hpre⟩
    rw [List.mem_tails] at hrest
    rw [List.isPrefixOf_iff_prefix] at hpre
    obtain ⟨a, ha⟩ := hrest
    obtain ⟨b, hb⟩ := hpre
    exact ⟨a, b, by rw [← ha, ← hb, List.append_assoc]⟩
  · rintro ⟨a, b, h⟩
    refine ⟨part.data ++ b, ?_, ?_⟩
    · rw [List.mem_tails]
      exact ⟨a, by rw [h, List.append_assoc]⟩
    · rw [List.isPrefixOf_iff_prefix]
      exact ⟨b, rfl⟩

theorem type_error_not_others {data : JSVal}
    (ht : strictEqualsString (data.getProp "type") "error" = true) :
    data.isNullish = false ∧
    strictEqualsString (data.getProp "type") "emotion_update" = false ∧
    strictEqualsString (data.getProp "type") "transcript_analysis" = false := by
  refine ⟨?_, ?_, ?_⟩
  · cases data <;> simp_all [strictEqualsString, getProp, isNullish]
  · cases hd : data.getProp "type" <;> simp_all [strictEqualsString]
  · cases hd : data.getProp "type" <;> simp_all [strictEqualsString]

/-- C25: for an inbound message of type `error` with text `e`, the emotion status becomes
error exactly when `e` contains `emotion` and is unchanged otherwise, and the sentiment status
becomes error exactly when `e` contains `sentiment` and is unchanged otherwise; the samples are
not touched. -/
theorem websocketOnmessage_error (data : JSVal) (e : String) (s : State)
    (ht : strictEqualsString (data.getProp "type") "error" = true)
    (he : data.getProp "error" = JSVal.str e) :
    (websocketOnmessage (some data) s).emotionStatus =
      (if includes e "emotion" = true then Status.error else s.emotionStatus) ∧
    (websocketOnmessage (some data) s).sentimentStatus =
      (if includes e "sentiment" = true then Status.error else s.sentimentStatus) ∧
    (websocketOnmessage (some data) s).emotionData = s.emotionData ∧
    (websocketOnmessage (some data) s).sentimentData = s.sentimentData ∧
    (includes e "emotion" = true ↔ ∃ a b : List Char, e.data = a ++ "emotion".data ++ b) ∧
    (includes e "sentiment" = true ↔ ∃ a b : List Char, e.data = a ++ "sentiment".data ++ b) := by
  obtain ⟨hn, h1, h2⟩ := type_error_not_others ht
  have hm : websocketOnmessage (some data) s =
      (if includes e "sentiment" = true then
        setSentimentStatus Status.error
          (if includes e "emotion" = true then setEmotionStatus Status.error s else s)
      else (if includes e "emotion" = true then setEmotionStatus Status.error s else s)) := by
    simp only [websocketOnmessage, hn, h1, h2, ht, he, Bool.false_eq_true, if_false, if_true]
  rw [hm]
  refine ⟨?_, ?_, ?_, ?_, includes_iff e "emotion", includes_iff e "sentiment"⟩ <;>
    split_ifs <;> rfl

/-- C25, instance: the text `emotion model unavailable` flips the emotion status only. -/
theorem websocketOnmessage_error_witness :
    (websocketOnmessage (some emotionErrorMessage) cameraOnState).emotionStatus =
      Status.error ∧
    (websocketOnmessage (some emotionErrorMessage) cameraOnState).sentimentStatus =
      Status.active := by
  obtain ⟨h1, h2, -⟩ := websocketOnmessage_error emotionErrorMessage
    "emotion model unavailable" cameraOnState (by decide)
    (by simp [emotionErrorMessage, getProp, List.lookup])
  rw [h1, h2]
  exact ⟨by decide, by decide⟩

/-! ## C26 -/

/-- C26 (counterexample): a sentiment object with the score 0 is stored with the score 0.5:
the `||` of line 269 takes the falsy 0 for an absent score. -/
theorem zero_score_replaced_by_half :
    (websocketOnmessage (some zeroScoreSentimentMessage) initialState).sentimentData =
      JSVal.obj [("sentiment", JSVal.str "negative"), ("sentiment_score", JSVal.num (1 / 2))] := by
  simp [websocketOnmessage, zeroScoreSentimentMessage, strictEqualsString, getProp, optProp,
    isNullish, truthy, List.lookup, sentimentSample, JSVal.or, setSentimentStatus,
    setSentimentData]

/-- C26 (amended): an `emotion_update` stores the message's data as the emotion sample and
sets the emotion status to active, and leaves the sentiment sample and status; a
`transcript_analysis` with a truthy nested sentiment stores the sample made of the label, or
`neutral` when the label is falsy, and the score, or 0.5 when the score is falsy, sets the
sentiment status to active, and leaves the emotion sample and status. -/
theorem websocketOnmessage_channels (data : JSVal) (s : State) :
    (strictEqualsString (data.getProp "type") "emotion_update" = true →
      (websocketOnmessage (some data) s).emotionData = data.getProp "data" ∧
      (websocketOnmessage (some data) s).emotionStatus = Status.active ∧
      (websocketOnmessage (some data) s).sentimentData = s.sentimentData ∧
      (websocketOnmessage (some data) s).sentimentStatus = s.sentimentStatus) ∧
    (strictEqualsString (data.getProp "type") "transcript_analysis" = true →
      (((data.getProp "data").getProp "analysis").getProp "sentiment").truthy = true →
      (websocketOnmessage (some data) s).sentimentData =
        JSVal.obj
          [("sentiment",
            if ((((data.getProp "data").getProp "analysis").getProp "sentiment").getProp
                "label").truthy = true then
              (((data.getProp "data").getProp "analysis").getProp "sentiment").getProp "label"
            else JSVal.str "neutral"),
          ("sentiment_score",
            if ((((data.getProp "data").getProp "analysis").getProp "sentiment").getProp
                "score").truthy = true then
              (((data.getProp "data").getProp "analysis").getProp "sentiment").getProp "score"
            else JSVal.num (1 / 2))] ∧
      (websocketOnmessage (some data) s).sentimentStatus = Status.active ∧
      (websocketOnmessage (some data) s).emotionData = s.emotionData ∧
      (websocketOnmessage (some data) s).emotionStatus = s.emotionStatus) := by
  constructor
  · intro ht
    have hn : data.isNullish = false := by
      cases data <;> simp_all [strictEqualsString, getProp, isNullish]
    have hm : websocketOnmessage (some data) s =
        setEmotionStatus Status.active (setEmotionData (data.getProp "data") s) := by
      simp only [websocketOnmessage, hn, ht, Bool.false_eq_true, if_false, if_true]
    rw [hm]
    exact ⟨rfl, rfl, rfl, rfl⟩
  · intro ht hs
    have hn : data.isNullish = false := by
      cases data <;> simp_all [strictEqualsString, getProp, isNullish]
    have h1 : strictEqualsString (data.getProp "type") "emotion_update" = false := by
      cases hd : data.getProp "type" <;> simp_all [strictEqualsString]
    have hm : websocketOnmessage (some data) s =
        setSentimentStatus Status.active
          (setSentimentData
            (sentimentSample (((data.getProp "data").getProp "analysis").getProp "sentiment"))
            s) := by
      simp only [websocketOnmessage, hn, h1, ht, optProp_eq_getProp, hs, Bool.false_eq_true,
        if_false, if_true]
    rw [hm]
    refine ⟨?_, rfl, rfl, rfl⟩
    show sentimentSample _ = _
    unfold sentimentSample JSVal.or
    simp only [ite_self]

/-- C26 (amended), instance: the sentiment `{label: "positive", score: 0.9}` received in a
state with an active emotion channel. -/
theorem websocketOnmessage_channels_witness :
    (websocketOnmessage (some positiveSentimentMessage) cameraOnState).sentimentData =
      JSVal.obj [("sentiment", JSVal.str "positive"),
        ("sentiment_score", numberLiteral (9 / 10))] ∧
    (websocketOnmessage (some positiveSentimentMessage) cameraOnState).emotionStatus =
      Status.active ∧
    (websocketOnmessage (some positiveSentimentMessage) cameraOnState).emotionData =
      JSVal.null := by
  obtain ⟨h1, -, h3, h4⟩ :=
    (websocketOnmessage_channels positiveSentimentMessage cameraOnState).2 (by decide)
      (by simp [positiveSentimentMessage, getProp, List.lookup, truthy])
  refine ⟨?_, h4, h3⟩
  have h9 : toDouble (9 / 10) ≠ 0 := by
    have := le_toDouble (x := 9 / 10) isBinary64_half (by norm_num)
    intro h0
    rw [h0] at this
    norm_num at this
  rw [h1]
  simp [positiveSentimentMessage, getProp, List.lookup, truthy, numberLiteral, h9]

/-! ## C27 -/

/-- C27: a payload that does not parse, a message whose type is none of `emotion_update`,
`transcript_analysis` and `error`, and a `transcript_analysis` without a truthy
`data.analysis.sentiment` leave the whole state, the two samples and the two statuses with it,
as it is; the handler returns in each case. -/
theorem websocketOnmessage_ignored (s : State) :
    websocketOnmessage none s = s ∧
    (∀ data : JSVal,
      strictEqualsString (data.getProp "type") "emotion_update" = false →
      strictEqualsString (data.getProp "type") "transcript_analysis" = false →
      strictEqualsString (data.getProp "type") "error" = false →
      websocketOnmessage (some data) s = s) ∧
    (∀ data : JSVal,
      strictEqualsString (data.getProp "type") "transcript_analysis" = true →
      (((data.getProp "data").getProp "analysis").getProp "sentiment").truthy = false →
      websocketOnmessage (some data) s = s) := by
  refine ⟨rfl, ?_, ?_⟩
  · intro data h1 h2 h3
    simp only [websocketOnmessage, h1, h2, h3, Bool.false_eq_true, if_false, ite_self]
  · intro data ht hs
    have h1 : strictEqualsString (data.getProp "type") "emotion_update" = false := by
      cases hd : data.getProp "type" <;> simp_all [strictEqualsString]
    simp only [websocketOnmessage, h1, ht, optProp_eq_getProp, hs, Bool.false_eq_true,
      if_false, if_true, ite_self]

/-- C27, instance: the message `{type: "pong"}` changes nothing. -/
theorem websocketOnmessage_ignored_witness :
    websocketOnmessage (some pongMessage) cameraOnState = cameraOnState :=
  (websocketOnmessage_ignored cameraOnState).2.1 pongMessage (by decide) (by decide)
    (by decide)

/-! ## C29 -/

/-- The guard of `onend` and of its delayed callback, in terms of the values the handlers
read. -/
theorem closure_guard_conditions (c : RecordingClosure) (s t : State) :
    (Effect.scheduleRestart ∈ (recognitionOnend c s).2 ↔
      s.mediaRecorderRef = some RecorderState.recording ∧ s.recognitionRef = true ∧
      c.isRecording = true ∧ c.transcriptionStatus ≠ Status.error ∧
      c.transcriptionStatus ≠ Status.unsupported) ∧
    (Effect.recognitionStart ∈ (restartCallback c t).2 ↔
      t.recognitionRef = true ∧ c.isRecording = true ∧
      c.transcriptionStatus ≠ Status.error ∧ c.transcriptionStatus ≠ Status.unsupported) ∧
    (c.isRecording = false → (recognitionOnend c s).2 = [] ∧ (restartCallback c t).2 = []) ∧
    (recognitionOnend c s).1 = s ∧ (restartCallback c t).1 = t := by
  refine ⟨?_, ?_, ?_, ?_, ?_⟩
  · unfold recognitionOnend
    by_cases h1 : s.mediaRecorderRef = some RecorderState.recording <;>
      by_cases h2 : s.recognitionRef = true <;>
      by_cases h3 : c.isRecording = true <;>
      by_cases h4 : c.transcriptionStatus = Status.error <;>
      by_cases h5 : c.transcriptionStatus = Status.unsupported <;>
      simp [h1, h2, h3, h4, h5]
  · unfold restartCallback
    by_cases h2 : t.recognitionRef = true <;>
      by_cases h3 : c.isRecording = true <;>
      by_cases h4 : c.transcriptionStatus = Status.error <;>
      by_cases h5 : c.transcriptionStatus = Status.unsupported <;>
      simp [h2, h3, h4, h5]
  · intro h
    simp [recognitionOnend, restartCallback, h]
  · unfold recognitionOnend
    split_ifs <;> rfl
  · unfold restartCallback
    split_ifs <;> rfl

/-- C29: for the handlers of an engine created by a click on the start button (the only way
`startRecording` runs), whatever the state `s` at the time the engine ends and the state `t`
at the time the delay expires: a restart is scheduled, or issued, only if the recorder is
recording, the recording flag is set and the status is neither error nor unsupported in that
state; in a state whose status is error or unsupported, or whose recording flag is unset, no
restart is scheduled or issued.  Both hold because these handlers read the recording flag of
the render that showed the start button, which is unset: they never schedule or issue a
restart, and they leave the state as it is. -/
theorem restart_guard (env : RecordingEnv) (r : State) (c : RecordingClosure)
    (out : State × List Effect) (hc : clickStartRecording env r = some (c, out))
    (s t : State) :
    (Effect.scheduleRestart ∈ (recognitionOnend c s).2 →
      s.mediaRecorderRef = some RecorderState.recording ∧ s.isRecording = true ∧
      s.transcriptionStatus ≠ Status.error ∧ s.transcriptionStatus ≠ Status.unsupported) ∧
    (Effect.recognitionStart ∈ (restartCallback c t).2 →
      t.isRecording = true ∧ t.transcriptionStatus ≠ Status.error ∧
      t.transcriptionStatus ≠ Status.unsupported) ∧
    (s.transcriptionStatus = Status.error ∨ s.transcriptionStatus = Status.unsupported ∨
        s.isRecording = false →
      Effect.scheduleRestart ∉ (recognitionOnend c s).2) ∧
    (t.transcriptionStatus = Status.error ∨ t.transcriptionStatus = Status.unsupported ∨
        t.isRecording = false →
      Effect.recognitionStart ∉ (restartCallback c t).2) ∧
    c.isRecording = false ∧
    (recognitionOnend c s).2 = [] ∧ (restartCallback c t).2 = [] ∧
    (recognitionOnend c s).1 = s ∧ (restartCallback c t).1 = t := by
  have hcr : c.isRecording = false := by
    unfold clickStartRecording startButtonShown at hc
    cases hr : r.isRecording
    · simp only [hr, Bool.not_false, if_true, Option.some.injEq, Prod.mk.injEq] at hc
      rw [← hc.1]
      exact hr
    · simp [hr] at hc
  obtain ⟨-, -, h3, h4, h5⟩ := closure_guard_conditions c s t
  obtain ⟨e1, e2⟩ := h3 hcr
  rw [e1, e2]
  exact ⟨fun h => absurd h (List.not_mem_nil _), fun h => absurd h (List.not_mem_nil _),
    fun _ => List.not_mem_nil _, fun _ => List.not_mem_nil _, hcr, rfl, rfl, h4, h5⟩

/-- C29, instance: the handlers created by a click in `answeringState`, run in a state with
the recorder recording, the recording flag set and the engine running, issue no restart. -/
theorem restart_guard_witness :
    clickStartRecording workingEnv answeringState =
      some (closureOf answeringState, startRecording workingEnv answeringState) ∧
    cameraOnState.mediaRecorderRef = some RecorderState.recording ∧
    cameraOnState.isRecording = true ∧
    (recognitionOnend (closureOf answeringState) cameraOnState).2 = [] ∧
    (restartCallback (closureOf answeringState) cameraOnState).2 = [] :=
  ⟨rfl, rfl, rfl,
    (restart_guard workingEnv answeringState (closureOf answeringState)
      (startRecording workingEnv answeringState) rfl cameraOnState cameraOnState).2.2.2.2.2.1,
    (restart_guard workingEnv answeringState (closureOf answeringState)
      (startRecording workingEnv answeringState) rfl cameraOnState cameraOnState).2.2.2.2.2.2.1⟩

/-! ## C30 -/

theorem payloadOf_envelope (p : JSVal) (hp : p.truthy = true)
    (hd : (p.getProp "data").truthy = false) :
    payloadOf p = p ∧
    payloadOf (JSVal.obj [("data", p)]) = p ∧
    payloadOf (JSVal.obj [("data", JSVal.obj [("data", p)])]) = p := by
  have hn : p.isNullish = false := isNullish_eq_false_of_truthy hp
  have g : ∀ v : JSVal, (JSVal.obj [("data", v)]).getProp "data" = v := by
    intro v
    simp [getProp, List.lookup]
  have t : ∀ f, (JSVal.obj f).truthy = true := fun _ => rfl
  have n : ∀ f, (JSVal.obj f).isNullish = false := fun _ => rfl
  refine ⟨?_, ?_, ?_⟩
  · simp [payloadOf, extractData, optProp, JSVal.or, hn, hd, hp]
  · simp [payloadOf, extractData, optProp, JSVal.or, hd, hp, g, n]
  · simp [payloadOf, extractData, optProp, JSVal.or, hp, g, t, n]

theorem recordScore_wrapper (p : JSVal) :
    recordScore (JSVal.obj [("data", p)]) = some 0 ∧
    recordFeedback (JSVal.obj [("data", p)]) = genericFeedback := by
  constructor
  · simp [recordScore, extractScore, getProp, List.lookup, truthy, isNullish]
    exact recordScore_zero
  · simp [recordFeedback, genericFeedback, optProp, getProp, List.lookup, truthy, isNullish,
      JSVal.or]

theorem payloadOf_envelope_falsy (p : JSVal) (hp : p.truthy = false) :
    payloadOf (JSVal.obj [("data", p)]) = JSVal.obj [("data", p)] ∧
    payloadOf (JSVal.obj [("data", JSVal.obj [("data", p)])]) = JSVal.obj [("data", p)] := by
  have g : ∀ v : JSVal, (JSVal.obj [("data", v)]).getProp "data" = v := by
    intro v
    simp [getProp, List.lookup]
  have t : ∀ f, (JSVal.obj f).truthy = true := fun _ => rfl
  have n : ∀ f, (JSVal.obj f).isNullish = false := fun _ => rfl
  constructor
  · simp [payloadOf, extractData, optProp, JSVal.or, hp, g, t, n]
  · simp [payloadOf, extractData, optProp, JSVal.or, hp, g, t, n]

/-- C30 (counterexample): the empty string is a payload without a truthy `data` field; as a
bare response it appends no record, wrapped in `{data: ...}` it appends a record with score
0. -/
theorem envelope_changes_outcome_of_empty_payload :
    (emptyBodyResponse.getProp "data").truthy = false ∧
    (submitAnswer (apiReturning emptyBodyResponse) 0 answeringState).1.answers = [] ∧
    (submitAnswer (apiReturning (JSVal.obj [("data", emptyBodyResponse)])) 0
        answeringState).1.answers.map (fun rec => rec.score) = [some 0] := by
  refine ⟨rfl, ?_, ?_⟩
  · have he := submitAnswer_falsy_eq (answeringState_callReturns emptyBodyResponse) rfl rfl
    rw [he]
    exact (failedState_frame 0 answeringState).1
  · rw [submitAnswer_answers_of_truthy
      (answeringState_callReturns (JSVal.obj [("data", emptyBodyResponse)])) rfl]
    have hs : (newRecord answeringState firstQuestion
        (JSVal.obj [("data", emptyBodyResponse)])).score = some 0 := by
      simp only [newRecord]
      rw [(payloadOf_envelope_falsy emptyBodyResponse rfl).1]
      exact (recordScore_wrapper emptyBodyResponse).1
    simp only [List.map_append, List.map_cons, List.map_nil, hs]
    rfl

/-- C30 (amended): for a payload `p` without a truthy `data` field of its own.  If `p` is
truthy (an object, a non-empty string, a non-zero number, `true`), the responses `p`,
`{data: p}` and `{data: {data: p}}` give the same answers list: one new record whose score and
feedback are those extracted from `p`.  If `p` is falsy, the bare response appends no record,
and the two wrapped responses append the same record, with score 0 and the generic
feedback. -/
theorem submitAnswer_envelope_independent (now : Nat) (s : State) (q : Question) (p : JSVal)
    (hq : s.currentQuestion = some q) (ht : jsTrim s.answerText ≠ "")
    (hd : (p.getProp "data").truthy = false) :
    (p.truthy = true →
      (submitAnswer (apiReturning (JSVal.obj [("data", p)])) now s).1.answers =
        (submitAnswer (apiReturning p) now s).1.answers ∧
      (submitAnswer (apiReturning (JSVal.obj [("data", JSVal.obj [("data", p)])])) now
          s).1.answers =
        (submitAnswer (apiReturning p) now s).1.answers ∧
      ∃ rec : AnswerRecord,
        (submitAnswer (apiReturning p) now s).1.answers = s.answers ++ [rec] ∧
        rec.score = recordScore p ∧ rec.feedback = recordFeedback p) ∧
    (p.truthy = false →
      (submitAnswer (apiReturning p) now s).1.answers = s.answers ∧
      (submitAnswer (apiReturning (JSVal.obj [("data", JSVal.obj [("data", p)])])) now
          s).1.answers =
        (submitAnswer (apiReturning (JSVal.obj [("data", p)])) now s).1.answers ∧
      ∃ rec : AnswerRecord,
        (submitAnswer (apiReturning (JSVal.obj [("data", p)])) now s).1.answers =
          s.answers ++ [rec] ∧
        rec.score = some 0 ∧ rec.feedback = genericFeedback) := by
  have c0 : CallReturns (apiReturning p) now s q p := ⟨hq, ht, rfl⟩
  have c1 : CallReturns (apiReturning (JSVal.obj [("data", p)])) now s q
      (JSVal.obj [("data", p)]) := ⟨hq, ht, rfl⟩
  have c2 : CallReturns (apiReturning (JSVal.obj [("data", JSVal.obj [("data", p)])])) now s q
      (JSVal.obj [("data", JSVal.obj [("data", p)])]) := ⟨hq, ht, rfl⟩
  have a1 := submitAnswer_answers_of_truthy c1 rfl
  have a2 := submitAnswer_answers_of_truthy c2 rfl
  constructor
  · intro hp
    obtain ⟨h0, h1, h2⟩ := payloadOf_envelope p hp hd
    have a0 := submitAnswer_answers_of_truthy c0 hp
    have e1 : newRecord s q (JSVal.obj [("data", p)]) = newRecord s q p := by
      simp only [newRecord, h1, h0]
    have e2 : newRecord s q (JSVal.obj [("data", JSVal.obj [("data", p)])]) =
        newRecord s q p := by
      simp only [newRecord, h2, h0]
    refine ⟨?_, ?_, newRecord s q p, a0, ?_, ?_⟩
    · rw [a1, a0, e1]
    · rw [a2, a0, e2]
    · simp only [newRecord, h0]
    · simp only [newRecord, h0]
  · intro hp
    obtain ⟨h1, h2⟩ := payloadOf_envelope_falsy p hp
    have e2 : newRecord s q (JSVal.obj [("data", JSVal.obj [("data", p)])]) =
        newRecord s q (JSVal.obj [("data", p)]) := by
      simp only [newRecord, h2, h1]
    refine ⟨?_, ?_, newRecord s q (JSVal.obj [("data", p)]), a1, ?_, ?_⟩
    · cases hn : p.isNullish
      · rw [submitAnswer_falsy_eq c0 hp hn]
        exact (failedState_frame now s).1
      · rw [submitAnswer_nullish_eq c0 hn]
        exact (failedState_frame now s).1
    · rw [a2, a1, e2]
    · simp only [newRecord, h1]
      exact (recordScore_wrapper p).1
    · simp only [newRecord, h1]
      exact (recordScore_wrapper p).2

/-- C30 (amended), instance: the payload of scenario 3, bare and wrapped once and twice,
scores the same each time. -/
theorem submitAnswer_envelope_independent_witness :
    (submitAnswer (apiReturning (JSVal.obj [("data", JSVal.obj [("data", scenario3Payload)])])) 0
        answeringState).1.answers =
      (submitAnswer (apiReturning scenario3Payload) 0 answeringState).1.answers ∧
    (submitAnswer (apiReturning scenario3Response) 0 answeringState).1.answers =
      (submitAnswer (apiReturning scenario3Payload) 0 answeringState).1.answers := by
  obtain ⟨h1, h2, -⟩ :=
    (submitAnswer_envelope_independent 0 answeringState firstQuestion scenario3Payload rfl
      (by decide) (by simp [scenario3Payload, getProp, List.lookup, truthy])).1 rfl
  exact ⟨h2, h1⟩

/-! ## C23 -/

theorem stopCamera_streamRef (s : State) : (stopCamera s).1.streamRef = none := by
  unfold stopCamera
  cases h : s.streamRef <;> simp [setIsRecording, setIsCameraOn, h]

theorem stopRecording_refs (s : State) :
    ((stopRecording s).1.mediaRecorderRef = none ∨
      (stopRecording s).1.mediaRecorderRef = some RecorderState.inactive) ∧
    (stopRecording s).1.recognitionRef = false ∧
    (stopRecording s).1.isRecording = false := by
  unfold stopRecording runSteps stopRecorderIfActive stopAndClearEngine
  cases hm : s.mediaRecorderRef with
  | none => cases hr : s.recognitionRef <;> simp [setIsRecording, hm, hr]
  | some st =>
    cases st <;> cases hr : s.recognitionRef <;> simp [setIsRecording, hm, hr]

theorem stopRecording_of_stopped (s : State)
    (hm : s.mediaRecorderRef = none ∨ s.mediaRecorderRef = some RecorderState.inactive)
    (hr : s.recognitionRef = false) :
    stopRecording s = (setIsRecording false s, []) := by
  unfold stopRecording runSteps stopRecorderIfActive stopAndClearEngine
  rcases hm with hm | hm <;> simp [hm, hr]

/-- C23: `stopCamera` and `stopRecording` are idempotent on states, and the second call issues
no stop; with no stream handle `stopCamera` stops no track, and with the recorder inactive or
absent and the engine ref cleared `stopRecording` issues no stop. -/
theorem stop_idempotent (s : State) :
    (stopCamera (stopCamera s).1).1 = (stopCamera s).1 ∧
    (stopCamera (stopCamera s).1).2 = [] ∧
    (stopRecording (stopRecording s).1).1 = (stopRecording s).1 ∧
    (stopRecording (stopRecording s).1).2 = [] ∧
    (s.streamRef = none → (stopCamera s).2 = []) ∧
    (s.mediaRecorderRef = none ∨ s.mediaRecorderRef = some RecorderState.inactive →
      s.recognitionRef = false → (stopRecording s).2 = []) := by
  have hc : ∀ t : State, t.streamRef = none →
      stopCamera t = (setIsRecording false (setIsCameraOn false t), []) := by
    intro t ht
    unfold stopCamera
    rw [ht]
  have h1 := hc (stopCamera s).1 (stopCamera_streamRef s)
  obtain ⟨r1, r2, r3⟩ := stopRecording_refs s
  have h2 := stopRecording_of_stopped (stopRecording s).1 r1 r2
  refine ⟨?_, ?_, ?_, ?_, ?_, ?_⟩
  · rw [h1]
    unfold stopCamera
    cases s.streamRef <;> rfl
  · rw [h1]
  · rw [h2]
    show setIsRecording false (stopRecording s).1 = (stopRecording s).1
    have : (stopRecording s).1 =
        setIsRecording false (stopAndClearEngine (stopRecorderIfActive s).1).1 := rfl
    rw [this]
    rfl
  · rw [h2]
  · intro h
    rw [hc s h]
  · intro hm hr
    rw [stopRecording_of_stopped s hm hr]

/-- C23, instance: from a state with a live stream, a recording recorder and a running
engine, the first calls stop two tracks, the recorder and the engine, the second calls
nothing. -/
theorem stop_idempotent_witness :
    (stopCamera cameraOnState).2 =
      [Effect.trackStop TrackKind.video, Effect.trackStop TrackKind.audio] ∧
    (stopCamera (stopCamera cameraOnState).1).2 = [] ∧
    (stopRecording cameraOnState).2 = [Effect.recorderStop, Effect.recognitionStop] ∧
    (stopRecording (stopRecording cameraOnState).1).2 = [] := by
  obtain ⟨-, h2, -, h4, -, -⟩ := stop_idempotent cameraOnState
  exact ⟨rfl, h2, rfl, h4⟩

/-! ## C22 -/

/-- C22 (counterexample): with every resource present, the tracks of the stream are stopped
before the recorder is. -/
theorem handleExitInterview_stops_tracks_first :
    (handleExitInterview true cameraOnState).2 =
      [Effect.clearInterval, Effect.websocketClose, Effect.trackStop TrackKind.video,
        Effect.trackStop TrackKind.audio, Effect.clearVideoSource, Effect.recorderStop,
        Effect.recognitionStop, Effect.recognitionStop, Effect.navigate] := rfl

/-- C22 (amended): on a confirmed exit with every resource present the releases occur in the
order: the interval, the socket, every track of the stream, the video element, the recorder,
the recognition engine (stopped once by the handler and once more by `stopRecording`, which
also clears its ref), then the navigation.  The clean-up of the mount effect follows the same
order: the tracks are stopped before the recorder. -/
theorem handleExitInterview_order (s : State) (tracks : List Track) (socket : ReadyState)
    (recorder : RecorderState) (hi : s.intervalRef = true) (hw : s.websocketRef = some socket)
    (hs : s.streamRef = some tracks) (hv : s.videoRef = true)
    (hm : s.mediaRecorderRef = some recorder) (hna : recorder ≠ RecorderState.inactive)
    (hr : s.recognitionRef = true) :
    (handleExitInterview true s).2 =
      [Effect.clearInterval, Effect.websocketClose] ++ stopEffects tracks ++
        [Effect.clearVideoSource, Effect.recorderStop, Effect.recognitionStop,
          Effect.recognitionStop, Effect.navigate] ∧
    (unmountCleanup s).2 =
      [Effect.clearInterval, Effect.websocketClose] ++ stopEffects tracks ++
        [Effect.recorderStop, Effect.recognitionStop] := by
  have hb : (recorder != RecorderState.inactive) = true := by
    cases recorder <;> simp_all
  constructor
  · cases socket <;>
      simp [handleExitInterview, runSteps, exitClearTimer, exitCloseSocket, exitStopTracks,
        exitClearVideo, stopRecorderIfActive, exitStopEngine, stopRecording,
        stopAndClearEngine, clearIntervalRef, setIsRecording, hi, hw, hs, hv, hm, hb, hr]
  · cases socket <;>
      simp [unmountCleanup, runSteps, exitClearTimer, exitCloseSocket, exitStopTracks,
        stopRecorderIfActive, exitStopEngine, clearIntervalRef, hi, hw, hs, hm, hb, hr]

/-- C22 (amended), instance: the exit from a state with the camera on and a recording in
progress. -/
theorem handleExitInterview_order_witness :
    (unmountCleanup cameraOnState).2 =
      [Effect.clearInterval, Effect.websocketClose, Effect.trackStop TrackKind.video,
        Effect.trackStop TrackKind.audio, Effect.recorderStop, Effect.recognitionStop] :=
  (handleExitInterview_order cameraOnState
    [{ kind := TrackKind.video, live := true }, { kind := TrackKind.audio, live := true }]
    ReadyState.OPEN RecorderState.recording rfl rfl rfl rfl rfl (by decide) rfl).2

/-! ## C28 -/

theorem negotiateLoop_some (sup con : String → Bool) (l : List String) (m : String)
    (h : negotiateLoop sup con l = some m) :
    ∃ pre post, l = pre ++ m :: post ∧ sup m = true ∧ con m = true ∧
      ∀ x ∈ pre, ¬ (sup x = true ∧ con x = true) := by
  induction l with
  | nil => simp [negotiateLoop] at h
  | cons x xs ih =>
    unfold negotiateLoop at h
    by_cases hs : sup x = true
    · by_cases hc : con x = true
      · simp only [hs, hc, if_true, Option.some.injEq] at h
        subst h
        exact ⟨[], xs, rfl, hs, hc, by simp⟩
      · simp only [hs, hc, if_true, Bool.false_eq_true, if_false] at h
        obtain ⟨pre, post, h1, h2, h3, h4⟩ := ih h
        refine ⟨x :: pre, post, by rw [h1]; rfl, h2, h3, ?_⟩
        intro y hy
        rcases List.mem_cons.mp hy with rfl | hy
        · exact fun hh => hc hh.2
        · exact h4 y hy
    · simp only [hs, Bool.false_eq_true, if_false] at h
      obtain ⟨pre, post, h1, h2, h3, h4⟩ := ih h
      refine ⟨x :: pre, post, by rw [h1]; rfl, h2, h3, ?_⟩
      intro y hy
      rcases List.mem_cons.mp hy with rfl | hy
      · exact fun hh => hs hh.1
      · exact h4 y hy

theorem negotiateLoop_none (sup con : String → Bool) (l : List String)
    (h : negotiateLoop sup con l = none) :
    ∀ x ∈ l, ¬ (sup x = true ∧ con x = true) := by
  induction l with
  | nil => simp
  | cons x xs ih =>
    unfold negotiateLoop at h
    intro y hy
    by_cases hs : sup x = true
    · by_cases hc : con x = true
      · simp [hs, hc] at h
      · simp only [hs, hc, if_true, Bool.false_eq_true, if_false] at h
        rcases List.mem_cons.mp hy with rfl | hy
        · exact fun hh => hc hh.2
        · exact ih h y hy
    · simp only [hs, Bool.false_eq_true, if_false] at h
      rcases List.mem_cons.mp hy with rfl | hy
      · exact fun hh => hs hh.1
      · exact ih h y hy

/-- C28 (counterexample): when every encoding is reported as supported and the recorder
cannot be built for the first entry, the second entry is selected although an earlier entry of
the list is supported. -/
theorem negotiate_skips_supported_entry :
    negotiate opusFailsEnv = some { requested := some "audio/webm", tag := "audio/webm" } ∧
    opusFailsEnv.isTypeSupported "audio/webm;codecs=opus" = true ∧
    mimeTypes.head? = some "audio/webm;codecs=opus" := by
  refine ⟨?_, rfl, rfl⟩
  decide

/-- C28 (amended): the selected encoding is the first entry of the list that is reported as
supported and for which the recorder can be built, so no earlier entry is both; when no entry
qualifies, the recorder is built with the platform default and the tag is its own `mimeType`,
or `audio/webm` when that is empty; the tag is the one kept for the recorder. -/
theorem negotiate_first_constructible (env : RecordingEnv) :
    (∀ m : String, negotiateLoop env.isTypeSupported env.canConstruct mimeTypes = some m →
      negotiate env = some { requested := some m, tag := m } ∧
      ∃ pre post, mimeTypes = pre ++ m :: post ∧ env.isTypeSupported m = true ∧
        env.canConstruct m = true ∧
        ∀ x ∈ pre, ¬ (env.isTypeSupported x = true ∧ env.canConstruct x = true)) ∧
    (negotiateLoop env.isTypeSupported env.canConstruct mimeTypes = none →
      (∀ x ∈ mimeTypes, ¬ (env.isTypeSupported x = true ∧ env.canConstruct x = true)) ∧
      negotiate env = env.defaultRecorder.map fun own =>
        { requested := none, tag := if own ≠ "" then own else "audio/webm" }) ∧
    (∀ (s : State) (n : Negotiated), negotiate env = some n →
      (createRecorder env s).state.selectedMimeType = some n.tag ∧
      (createRecorder env s).state.mediaRecorderRef = some RecorderState.inactive) := by
  refine ⟨?_, ?_, ?_⟩
  · intro m hm
    refine ⟨?_, negotiateLoop_some _ _ _ _ hm⟩
    unfold negotiate
    rw [hm]
  · intro hn
    refine ⟨negotiateLoop_none _ _ _ hn, ?_⟩
    unfold negotiate
    rw [hn]
    cases env.defaultRecorder with
    | none => rfl
    | some own => simp [truthy_str]
  · intro s n hn
    unfold createRecorder
    rw [hn]
    exact ⟨rfl, rfl⟩

/-- C28 (amended), instance: with no listed encoding supported and a default recorder whose
`mimeType` is empty, the tag is `audio/webm`. -/
theorem negotiate_first_constructible_witness :
    negotiate defaultOnlyEnv = some { requested := none, tag := "audio/webm" } ∧
    negotiate workingEnv =
      some { requested := some "audio/webm;codecs=opus", tag := "audio/webm;codecs=opus" } := by
  obtain ⟨h1, h2, -⟩ := negotiate_first_constructible defaultOnlyEnv
  obtain ⟨g1, -, -⟩ := negotiate_first_constructible workingEnv
  refine ⟨?_, (g1 "audio/webm;codecs=opus" (by decide)).1⟩
  rw [(h2 (by decide)).2]
  decide

/-! ## C21 -/

theorem Stage.andThen_errorShownRef (r : Stage) (next : State → Stage)
    (h : ∀ t, (next t).state.errorShownRef = t.errorShownRef) :
    (r.andThen next).state.errorShownRef = r.state.errorShownRef := by
  cases r with
  | halt s e => rfl
  | proceed s e =>
    have := h s
    unfold Stage.andThen
    cases hn : next s <;> simp_all [Stage.state]

theorem startRecording_errorShownRef (env : RecordingEnv) (s : State) :
    (startRecording env s).1.errorShownRef = s.errorShownRef := by
  have h1 : ∀ t, (checkSupport env t).state.errorShownRef = t.errorShownRef := by
    intro t
    unfold checkSupport
    split_ifs <;> rfl
  have h2 : ∀ t, (acquireStream env t).state.errorShownRef = t.errorShownRef := by
    intro t
    unfold acquireStream
    split_ifs
    · cases env.microphone with
      | refused n => rfl
      | granted tr =>
        cases t.streamRef with
        | none => rfl
        | some tracks =>
          simp only
          split_ifs <;> rfl
    · rfl
  have h3 : ∀ t, (verifyAudio env t).state.errorShownRef = t.errorShownRef := by
    intro t
    unfold verifyAudio
    cases t.streamRef with
    | none => rfl
    | some tracks =>
      simp only
      split_ifs
      · rfl
      · cases env.freshMicrophone <;> rfl
      · rfl
  have h4 : ∀ t, (createRecorder env t).state.errorShownRef = t.errorShownRef := by
    intro t
    unfold createRecorder
    cases negotiate env <;> rfl
  have h5 : ∀ t, (startRecognition env t).state.errorShownRef = t.errorShownRef := by
    intro t
    unfold startRecognition
    split_ifs
    · cases env.recognitionStartError with
      | none => rfl
      | some n =>
        simp only
        split_ifs <;> rfl
    · rfl
  have h6 : ∀ t, (startRecorder env t).state.errorShownRef = t.errorShownRef := by
    intro t
    unfold startRecorder
    cases t.streamRef with
    | none => rfl
    | some tracks =>
      simp only
      split_ifs <;> rfl
  show (Stage.andThen _ _).state.errorShownRef = _
  rw [Stage.andThen_errorShownRef _ _ h6, Stage.andThen_errorShownRef _ _ h5,
    Stage.andThen_errorShownRef _ _ h4, Stage.andThen_errorShownRef _ _ h3,
    Stage.andThen_errorShownRef _ _ h2, h1]

theorem stopRecording_errorShownRef (s : State) :
    (stopRecording s).1.errorShownRef = s.errorShownRef := by
  unfold stopRecording runSteps stopRecorderIfActive stopAndClearEngine
  cases hm : s.mediaRecorderRef with
  | none => cases hr : s.recognitionRef <;> simp [setIsRecording, hm, hr]
  | some st =>
    cases st <;> cases hr : s.recognitionRef <;> simp [setIsRecording, hm, hr]

/-- C21 (counterexample): a network error is reported in a first recording session; in the
second session, started after `stopRecording`, the first network error changes nothing: the
status stays active. -/
theorem second_session_error_suppressed :
    afterFirstSession.transcriptionStatus = Status.error ∧
    afterFirstSession.isRecording = false ∧
    secondSession.transcriptionStatus = Status.active ∧
    secondSession.isRecording = true ∧
    (recognitionOnerror "network" secondSession).1.transcriptionStatus = Status.active := by
  refine ⟨rfl, rfl, rfl, rfl, rfl⟩

/-- C21 (amended): reportable recognition errors take effect once per mounted component.  An
error other than `no-speech` and `aborted` received while the seen-flag is unset sets the flag
and, for `not-allowed`, `audio-capture`, `network` and `service-not-allowed`, sets the
transcription status to error; with the flag set every error is suppressed; `no-speech` and
`aborted` change nothing, the flag included; `startRecording` and `stopRecording` leave the
flag as it is. -/
theorem recognition_error_reported_once (e : String) (s : State) :
    (e = "no-speech" ∨ e = "aborted" → recognitionOnerror e s = (s, [])) ∧
    (s.errorShownRef = true → recognitionOnerror e s = (s, [])) ∧
    (e ≠ "no-speech" → e ≠ "aborted" → s.errorShownRef = false →
      (recognitionOnerror e s).1.errorShownRef = true ∧
      (e ∈ ["not-allowed", "audio-capture", "network", "service-not-allowed"] →
        (recognitionOnerror e s).1.transcriptionStatus = Status.error) ∧
      (e ∉ ["not-allowed", "audio-capture", "network", "service-not-allowed"] →
        (recognitionOnerror e s).1.transcriptionStatus = s.transcriptionStatus)) ∧
    (∀ env : RecordingEnv, (startRecording env s).1.errorShownRef = s.errorShownRef) ∧
    (stopRecording s).1.errorShownRef = s.errorShownRef := by
  refine ⟨?_, ?_, ?_, fun env => startRecording_errorShownRef env s,
    stopRecording_errorShownRef s⟩
  · intro h
    unfold recognitionOnerror
    rcases h with rfl | rfl <;> simp
  · intro h
    unfold recognitionOnerror
    simp [h]
  · intro h1 h2 h3
    have he : recognitionOnerror e s =
        if e = "not-allowed" then
          (setTranscriptionStatus Status.error { s with errorShownRef := true },
            if s.recognitionRef then [Effect.recognitionStop] else [])
        else if e = "audio-capture" ∨ e = "network" ∨ e = "service-not-allowed" then
          (setTranscriptionStatus Status.error { s with errorShownRef := true }, [])
        else ({ s with errorShownRef := true }, []) := by
      unfold recognitionOnerror
      simp [h1, h2, h3, or_assoc]
    rw [he]
    refine ⟨?_, ?_, ?_⟩
    · split_ifs <;> rfl
    · intro hm
      simp only [List.mem_cons, List.mem_singleton, List.not_mem_nil, or_false] at hm
      by_cases a : e = "not-allowed"
      · rw [if_pos a]; rfl
      · have b : e = "audio-capture" ∨ e = "network" ∨ e = "service-not-allowed" :=
          hm.resolve_left a
        rw [if_neg a, if_pos b]; rfl
    · intro hm
      simp only [List.mem_cons, List.mem_singleton, List.not_mem_nil, or_false, not_or] at hm
      obtain ⟨m1, m2, m3, m4⟩ := hm
      rw [if_neg m1, if_neg (by tauto)]

/-- C21 (amended), instance: in the first session the network error sets the status to error
and the flag; after `stopRecording` and a new `startRecording` the flag is still set. -/
theorem recognition_error_reported_once_witness :
    (recognitionOnerror "network"
      (startRecording workingEnv answeringState).1).1.transcriptionStatus = Status.error ∧
    secondSession.errorShownRef = true := by
  obtain ⟨-, -, h3, -, -⟩ :=
    recognition_error_reported_once "network" (startRecording workingEnv answeringState).1
  obtain ⟨-, -, -, h4, -⟩ := recognition_error_reported_once "network" afterFirstSession
  refine ⟨(h3 (by decide) (by decide) rfl).2.1 (by decide), ?_⟩
  exact (h4 workingEnv).trans rfl

end AIInterview
